import Mathlib

/-!
Flight-dynamics core of the flight simulator.

A shallow embedding of `src/physics/Aircraft.cpp` and `src/physics/FlightDynamics.cpp`
(with the records of `include/physics/Aircraft.h` and `include/physics/FlightDynamics.h`)
together with the GLM value types and functions they call.

Numbers.  The C++ type `float` is modelled by a type `α` that is a linearly ordered field
with a floor function (`FloorRing`, so the field is Archimedean) and with the functions of
`<cmath>` that the code calls (`CMath`: `sqrt`, `exp`, `atan`, `asin` and the constant pi,
with the laws of the mathematical functions).  The real numbers with `Real.sqrt`, `Real.exp`,
`Real.arctan`, `Real.arcsin` and `Real.pi` are an instance, and the closed statements of this
file are stated for them.  A float literal is written as the fraction it denotes (`9.81f` as
`981 / 100`).  Rounding, overflow and signed zeros are not modelled.  One division of the
code can have the divisor 0 in a state that the member functions can produce: the division
by `dot(q, q)` in `glm::inverse`, at the zero orientation.  The functions on the path from
`Update` to it are given a second time with that division checked (`UpdateChecked`).

Mutating member functions are functions from the object before the call to the object after
it.
-/

namespace FlightSim

/-! ## Numbers -/

/-- The functions of `<cmath>` used by the code, and pi, with the laws the proofs rely on. -/
class CMath (α : Type) [LinearOrderedField α] where
  /-- The function `sqrt`. -/
  sqrt : α → α
  /-- The function `exp`. -/
  exp : α → α
  /-- The function `atan`. -/
  atan : α → α
  /-- The function `asin`. -/
  asin : α → α
  /-- The constant pi. -/
  pi : α
  sqrt_nonneg : ∀ x : α, 0 ≤ x → 0 ≤ sqrt x
  sqrt_mul_self : ∀ x : α, 0 ≤ x → sqrt x * sqrt x = x
  exp_zero : exp 0 = 1
  exp_pos : ∀ x : α, 0 < exp x
  exp_lt_exp : ∀ x y : α, x < y → exp x < exp y
  pi_gt_three : 3 < pi
  atan_zero : atan 0 = 0
  atan_neg : ∀ x : α, atan (-x) = -atan x
  atan_lt_atan : ∀ x y : α, x < y → atan x < atan y
  atan_lt_pi_div_two : ∀ x : α, atan x < pi / 2
  asin_zero : asin 0 = 0
  asin_neg : ∀ x : α, asin (-x) = -asin x
  asin_one : asin 1 = pi / 2
  asin_lt_asin : ∀ x y : α, -1 ≤ x → x < y → y ≤ 1 → asin x < asin y

/-- The real numbers with the functions of Mathlib. -/
noncomputable instance Real.instCMath : CMath ℝ where
  sqrt := Real.sqrt
  exp := Real.exp
  atan := Real.arctan
  asin := Real.arcsin
  pi := Real.pi
  sqrt_nonneg := fun x _ => Real.sqrt_nonneg x
  sqrt_mul_self := fun _ h => Real.mul_self_sqrt h
  exp_zero := Real.exp_zero
  exp_pos := Real.exp_pos
  exp_lt_exp := fun _ _ h => Real.exp_lt_exp.mpr h
  pi_gt_three := Real.pi_gt_three
  atan_zero := Real.arctan_zero
  atan_neg := Real.arctan_neg
  atan_lt_atan := fun _ _ h => Real.arctan_strictMono h
  atan_lt_pi_div_two := Real.arctan_lt_pi_div_two
  asin_zero := Real.arcsin_zero
  asin_neg := Real.arcsin_neg
  asin_one := Real.arcsin_one
  asin_lt_asin := fun _ _ hx hxy hy =>
    Real.strictMonoOn_arcsin ⟨hx, le_trans hxy.le hy⟩ ⟨le_trans hx hxy.le, hy⟩ hxy

/-! ## GLM value types -/

/-- The type `glm::vec3`. -/
@[ext]
structure Vec3 (α : Type) where
  x : α
  y : α
  z : α

/-- The type `glm::quat`; the constructor `glm::quat(w, x, y, z)` takes `w` first. -/
@[ext]
structure Quat (α : Type) where
  w : α
  x : α
  y : α
  z : α

/-- The type `glm::mat3`, stored by columns: `cIJ` is `m[I][J]`, column `I`, row `J`. -/
structure Mat3 (α : Type) where
  c00 : α
  c01 : α
  c02 : α
  c10 : α
  c11 : α
  c12 : α
  c20 : α
  c21 : α
  c22 : α

namespace glm

/-- The call `std::max(a, b)`: `(a < b) ? b : a`. -/
def stdMax {α : Type} [LinearOrderedField α] (a b : α) : α := if a < b then b else a

/-- The call `std::clamp(v, lo, hi)`: `(v < lo) ? lo : (hi < v) ? hi : v`. -/
def stdClamp {α : Type} [LinearOrderedField α] (v lo hi : α) : α :=
  if v < lo then lo else if hi < v then hi else v

/-- The call `glm::min(a, b)`: `(b < a) ? b : a`. -/
def min {α : Type} [LinearOrderedField α] (a b : α) : α := if b < a then b else a

/-- The call `glm::max(a, b)`: `(a < b) ? b : a`. -/
def max {α : Type} [LinearOrderedField α] (a b : α) : α := if a < b then b else a

/-- The call `glm::clamp(x, minVal, maxVal)`: `min(max(x, minVal), maxVal)`. -/
def clamp {α : Type} [LinearOrderedField α] (x minVal maxVal : α) : α :=
  min (max x minVal) maxVal

/-- The constant `glm::epsilon<float>()`, the float machine epsilon `2^-23`. -/
def epsilon {α : Type} [LinearOrderedField α] : α := 1 / 8388608

/-- The call `glm::degrees(r)`: multiplication by the constant 180/pi. -/
def degrees {α : Type} [LinearOrderedField α] [CMath α] (radians : α) : α :=
  radians * (180 / CMath.pi)

/-- The call `atan2(y, x)` of `<cmath>` (which `glm::atan(y, x)` forwards to): the angle in
`(-pi, pi]` of the point `(x, y)`, and `0` at the origin. -/
def atan2 {α : Type} [LinearOrderedField α] [CMath α] (y x : α) : α :=
  if 0 < x then CMath.atan (y / x)
  else if x < 0 then
    (if 0 ≤ y then CMath.atan (y / x) + CMath.pi else CMath.atan (y / x) - CMath.pi)
  else if 0 < y then CMath.pi / 2
  else if y < 0 then -(CMath.pi / 2)
  else 0

/-- Componentwise `vec3 + vec3`. -/
def vadd {α : Type} [LinearOrderedField α] (a b : Vec3 α) : Vec3 α :=
  ⟨a.x + b.x, a.y + b.y, a.z + b.z⟩

/-- The product `vec3 * scalar`. -/
def vscale {α : Type} [LinearOrderedField α] (v : Vec3 α) (s : α) : Vec3 α :=
  ⟨v.x * s, v.y * s, v.z * s⟩

/-- The quotient `vec3 / scalar`. -/
def vdiv {α : Type} [LinearOrderedField α] (v : Vec3 α) (s : α) : Vec3 α :=
  ⟨v.x / s, v.y / s, v.z / s⟩

/-- The call `glm::dot` on `vec3`. -/
def vdot {α : Type} [LinearOrderedField α] (a b : Vec3 α) : α :=
  a.x * b.x + a.y * b.y + a.z * b.z

/-- The call `glm::cross`. -/
def cross {α : Type} [LinearOrderedField α] (a b : Vec3 α) : Vec3 α :=
  ⟨a.y * b.z - b.y * a.z, a.z * b.x - b.z * a.x, a.x * b.y - b.x * a.y⟩

/-- The call `glm::length` on `vec3`: `sqrt(dot(v, v))`. -/
def length {α : Type} [LinearOrderedField α] [CMath α] (v : Vec3 α) : α :=
  CMath.sqrt (vdot v v)

/-- The call `glm::dot` on quaternions. -/
def qdot {α : Type} [LinearOrderedField α] (a b : Quat α) : α :=
  a.x * b.x + a.y * b.y + a.z * b.z + a.w * b.w

/-- The call `glm::length` on a quaternion: `sqrt(dot(q, q))`. -/
def qlength {α : Type} [LinearOrderedField α] [CMath α] (q : Quat α) : α :=
  CMath.sqrt (qdot q q)

/-- Componentwise `quat + quat` (also `operator+=`). -/
def qadd {α : Type} [LinearOrderedField α] (p q : Quat α) : Quat α :=
  ⟨p.w + q.w, p.x + q.x, p.y + q.y, p.z + q.z⟩

/-- The products `quat * scalar` and `scalar * quat`. -/
def qscale {α : Type} [LinearOrderedField α] (q : Quat α) (s : α) : Quat α :=
  ⟨q.w * s, q.x * s, q.y * s, q.z * s⟩

/-- The quotient `quat / scalar`. -/
def qdivScalar {α : Type} [LinearOrderedField α] (q : Quat α) (s : α) : Quat α :=
  ⟨q.w / s, q.x / s, q.y / s, q.z / s⟩

/-- The Hamilton product `quat * quat`. -/
def qmul {α : Type} [LinearOrderedField α] (p q : Quat α) : Quat α :=
  ⟨p.w * q.w - p.x * q.x - p.y * q.y - p.z * q.z,
   p.w * q.x + p.x * q.w + p.y * q.z - p.z * q.y,
   p.w * q.y + p.y * q.w + p.z * q.x - p.x * q.z,
   p.w * q.z + p.z * q.w + p.x * q.y - p.y * q.x⟩

/-- The product `quat * vec3`: with `u = (q.x, q.y, q.z)`, `uv = cross(u, v)` and
`uuv = cross(u, uv)` it is `v + ((uv * q.w) + uuv) * 2`. -/
def rotate {α : Type} [LinearOrderedField α] (q : Quat α) (v : Vec3 α) : Vec3 α :=
  let u : Vec3 α := ⟨q.x, q.y, q.z⟩
  let uv := cross u v
  let uuv := cross u uv
  vadd v (vscale (vadd (vscale uv q.w) uuv) 2)

/-- The call `glm::conjugate`. -/
def conjugate {α : Type} [LinearOrderedField α] (q : Quat α) : Quat α :=
  ⟨q.w, -q.x, -q.y, -q.z⟩

/-- The call `glm::inverse` on a quaternion: `conjugate(q) / dot(q, q)`.  The divisor is 0
only at the zero quaternion; there the code divides 0 by 0 and the value of this function is
not a value of the code: `glm.qinverseChecked` is the call with that case set apart. -/
def qinverse {α : Type} [LinearOrderedField α] (q : Quat α) : Quat α :=
  qdivScalar (conjugate q) (qdot q q)

/-- The call `glm::normalize` on a quaternion: the identity when the length is not
positive, otherwise every component times `1 / length`. -/
def normalize {α : Type} [LinearOrderedField α] [CMath α] (q : Quat α) : Quat α :=
  let len := qlength q
  if len ≤ 0 then ⟨1, 0, 0, 0⟩
  else
    let oneOverLen := 1 / len
    ⟨q.w * oneOverLen, q.x * oneOverLen, q.y * oneOverLen, q.z * oneOverLen⟩

/-- The call `glm::roll`: `atan(y, x)` for `y = 2(xy + wz)`, `x = ww + xx - yy - zz`, and
`0` when both are within epsilon of zero. -/
def roll {α : Type} [LinearOrderedField α] [CMath α] (q : Quat α) : α :=
  let y := 2 * (q.x * q.y + q.w * q.z)
  let x := q.w * q.w + q.x * q.x - q.y * q.y - q.z * q.z
  if |x - 0| ≤ epsilon ∧ |y - 0| ≤ epsilon then 0 else atan2 y x

/-- The call `glm::pitch`: `atan(y, x)` for `y = 2(yz + wx)`, `x = ww - xx - yy + zz`, and
`2 * atan(q.x, q.w)` when both are within epsilon of zero. -/
def pitch {α : Type} [LinearOrderedField α] [CMath α] (q : Quat α) : α :=
  let y := 2 * (q.y * q.z + q.w * q.x)
  let x := q.w * q.w - q.x * q.x - q.y * q.y + q.z * q.z
  if |x - 0| ≤ epsilon ∧ |y - 0| ≤ epsilon then 2 * atan2 q.x q.w else atan2 y x

/-- The call `glm::yaw`: `asin(clamp(-2 * (xz - wy), -1, 1))`. -/
def yaw {α : Type} [LinearOrderedField α] [CMath α] (q : Quat α) : α :=
  CMath.asin (clamp (-2 * (q.x * q.z - q.w * q.y)) (-1) 1)

/-- The call `glm::eulerAngles`: `vec3(pitch(q), yaw(q), roll(q))`. -/
def eulerAngles {α : Type} [LinearOrderedField α] [CMath α] (q : Quat α) : Vec3 α :=
  ⟨pitch q, yaw q, roll q⟩

/-- The call `glm::inverse` on a `mat3`: the cofactors times one over the determinant. -/
def minverse {α : Type} [LinearOrderedField α] (m : Mat3 α) : Mat3 α :=
  let oneOverDeterminant := 1 / (
      m.c00 * (m.c11 * m.c22 - m.c21 * m.c12)
    - m.c10 * (m.c01 * m.c22 - m.c21 * m.c02)
    + m.c20 * (m.c01 * m.c12 - m.c11 * m.c02))
  { c00 := (m.c11 * m.c22 - m.c21 * m.c12) * oneOverDeterminant
    c10 := -(m.c10 * m.c22 - m.c20 * m.c12) * oneOverDeterminant
    c20 := (m.c10 * m.c21 - m.c20 * m.c11) * oneOverDeterminant
    c01 := -(m.c01 * m.c22 - m.c21 * m.c02) * oneOverDeterminant
    c11 := (m.c00 * m.c22 - m.c20 * m.c02) * oneOverDeterminant
    c21 := -(m.c00 * m.c21 - m.c20 * m.c01) * oneOverDeterminant
    c02 := (m.c01 * m.c12 - m.c11 * m.c02) * oneOverDeterminant
    c12 := -(m.c00 * m.c12 - m.c10 * m.c02) * oneOverDeterminant
    c22 := (m.c00 * m.c11 - m.c10 * m.c01) * oneOverDeterminant }

/-- The product `mat3 * vec3` (column vectors). -/
def mmulVec {α : Type} [LinearOrderedField α] (m : Mat3 α) (v : Vec3 α) : Vec3 α :=
  ⟨m.c00 * v.x + m.c10 * v.y + m.c20 * v.z,
   m.c01 * v.x + m.c11 * v.y + m.c21 * v.z,
   m.c02 * v.x + m.c12 * v.y + m.c22 * v.z⟩

end glm

/-! ## Records of `Aircraft.h` and `FlightDynamics.h` -/

/-- The struct `ControlInputs`. -/
structure ControlInputs (α : Type) where
  aileron : α
  elevator : α
  rudder : α
  throttle : α
  flaps : α
  brakes : α

/-- The default member initialisers of `ControlInputs`: all six are `0.0f`. -/
def ControlInputs.initial {α : Type} [LinearOrderedField α] : ControlInputs α :=
  { aileron := 0, elevator := 0, rudder := 0, throttle := 0, flaps := 0, brakes := 0 }

/-- The struct `AircraftState`. -/
structure AircraftState (α : Type) where
  position : Vec3 α
  velocity : Vec3 α
  orientation : Quat α
  angularVelocity : Vec3 α
  airspeed : α
  altitude : α
  verticalSpeed : α
  heading : α
  pitch : α
  roll : α

/-- The default member initialisers of `AircraftState`. -/
def AircraftState.initial {α : Type} [LinearOrderedField α] : AircraftState α :=
  { position := ⟨0, 1000, 0⟩
    velocity := ⟨0, 0, 0⟩
    orientation := ⟨1, 0, 0, 0⟩
    angularVelocity := ⟨0, 0, 0⟩
    airspeed := 0
    altitude := 1000
    verticalSpeed := 0
    heading := 0
    pitch := 0
    roll := 0 }

/-- The struct `AerodynamicCoefficients`. -/
structure AerodynamicCoefficients (α : Type) where
  CL0 : α
  CLa : α
  CLmax : α
  CD0 : α
  CDi : α
  Cm0 : α
  Cma : α
  CLde : α
  Cmde : α
  Cydr : α
  Cndr : α
  Clda : α

/-- The default member initialisers of `AerodynamicCoefficients`: `CL0 = 0.4f`,
`CLa = 5.7f`, `CLmax = 1.4f`, `CD0 = 0.03f`, `CDi = 0.04f`, `Cm0 = -0.1f`, `Cma = -0.8f`,
`CLde = 0.4f`, `Cmde = -1.2f`, `Cydr = 0.3f`, `Cndr = -0.1f`, `Clda = 0.2f`. -/
def AerodynamicCoefficients.initial {α : Type} [LinearOrderedField α] :
    AerodynamicCoefficients α :=
  { CL0 := 4 / 10
    CLa := 57 / 10
    CLmax := 14 / 10
    CD0 := 3 / 100
    CDi := 4 / 100
    Cm0 := -(1 / 10)
    Cma := -(8 / 10)
    CLde := 4 / 10
    Cmde := -(12 / 10)
    Cydr := 3 / 10
    Cndr := -(1 / 10)
    Clda := 2 / 10 }

/-- The struct `EnvironmentData`. -/
structure EnvironmentData (α : Type) where
  airDensity : α
  windVelocity : Vec3 α
  temperature : α
  pressure : α

/-- The default member initialisers of `EnvironmentData`: `airDensity = 1.225f`,
`windVelocity{0.0f}`, `temperature = 288.15f`, `pressure = 101325.0f`. -/
def EnvironmentData.initial {α : Type} [LinearOrderedField α] : EnvironmentData α :=
  { airDensity := 1225 / 1000
    windVelocity := ⟨0, 0, 0⟩
    temperature := 28815 / 100
    pressure := 101325 }

/-- The data members of class `FlightDynamics`. -/
structure FlightDynamics (α : Type) where
  m_mass : α
  m_wingArea : α
  m_wingspan : α
  m_inertiaTensor : Mat3 α
  m_aeroCoeffs : AerodynamicCoefficients α
  m_environment : EnvironmentData α

/-- The data members of class `Aircraft`. -/
structure Aircraft (α : Type) where
  m_state : AircraftState α
  m_dynamics : FlightDynamics α
  m_mass : α
  m_inertiaTensor : Mat3 α
  m_maxThrust : α
  m_currentThrust : α
  m_aileronEffectiveness : α
  m_elevatorEffectiveness : α
  m_rudderEffectiveness : α

/-! ## `FlightDynamics.cpp` -/

namespace FlightDynamics

/-- The constructor `FlightDynamics::FlightDynamics()`: it sets the mass, wing area and
wingspan; `m_inertiaTensor` is left as it is found (`uninit`) and the two records take their
default member initialisers. -/
def new {α : Type} [LinearOrderedField α] (uninit : Mat3 α) : FlightDynamics α :=
  { m_mass := 1500
    m_wingArea := 16
    m_wingspan := 10
    m_inertiaTensor := uninit
    m_aeroCoeffs := AerodynamicCoefficients.initial
    m_environment := EnvironmentData.initial }

/-- The member `FlightDynamics::SetAircraftParameters`. -/
def SetAircraftParameters {α : Type} (d : FlightDynamics α) (mass wingArea wingspan : α)
    (inertiaTensor : Mat3 α) : FlightDynamics α :=
  { d with
    m_mass := mass
    m_wingArea := wingArea
    m_wingspan := wingspan
    m_inertiaTensor := inertiaTensor }

/-- The member `FlightDynamics::SetAerodynamicCoefficients`. -/
def SetAerodynamicCoefficients {α : Type} (d : FlightDynamics α)
    (coeffs : AerodynamicCoefficients α) : FlightDynamics α :=
  { d with m_aeroCoeffs := coeffs }

/-- The member `FlightDynamics::SetEnvironment`. -/
def SetEnvironment {α : Type} (d : FlightDynamics α) (env : EnvironmentData α) :
    FlightDynamics α :=
  { d with m_environment := env }

/-- The member `FlightDynamics::WorldToBody`: `glm::inverse(orientation) * worldVector`, for
an orientation that is not the zero quaternion (`WorldToBodyChecked` sets that case apart). -/
def WorldToBody {α : Type} [LinearOrderedField α] (_d : FlightDynamics α)
    (worldVector : Vec3 α) (orientation : Quat α) : Vec3 α :=
  glm.rotate (glm.qinverse orientation) worldVector

/-- The member `FlightDynamics::BodyToWorld`: `orientation * bodyVector`. -/
def BodyToWorld {α : Type} [LinearOrderedField α] (_d : FlightDynamics α)
    (bodyVector : Vec3 α) (orientation : Quat α) : Vec3 α :=
  glm.rotate orientation bodyVector

/-- The member `FlightDynamics::GetAirDensity`: `seaLevelDensity = 1.225f`,
`scaleHeight = 8400.0f`. -/
def GetAirDensity {α : Type} [LinearOrderedField α] [CMath α] (_d : FlightDynamics α)
    (altitude : α) : α :=
  let seaLevelDensity : α := 1225 / 1000
  let scaleHeight : α := 8400
  seaLevelDensity * CMath.exp (-altitude / scaleHeight)

/-- The member `FlightDynamics::GetAngleOfAttack`. -/
def GetAngleOfAttack {α : Type} [LinearOrderedField α] [CMath α] (d : FlightDynamics α)
    (state : AircraftState α) : α :=
  let bodyVelocity := d.WorldToBody state.velocity state.orientation
  if bodyVelocity.z ≠ 0 then glm.atan2 (-bodyVelocity.y) bodyVelocity.z else 0

/-- The member `FlightDynamics::GetSideslipAngle`. -/
def GetSideslipAngle {α : Type} [LinearOrderedField α] [CMath α] (d : FlightDynamics α)
    (state : AircraftState α) : α :=
  let bodyVelocity := d.WorldToBody state.velocity state.orientation
  let velocityMagnitudeXZ :=
    CMath.sqrt (bodyVelocity.x * bodyVelocity.x + bodyVelocity.z * bodyVelocity.z)
  if velocityMagnitudeXZ ≠ 0 then glm.atan2 bodyVelocity.x velocityMagnitudeXZ else 0

/-- The member `FlightDynamics::GetDynamicPressure` (`0.5f` is `1 / 2`). -/
def GetDynamicPressure {α : Type} [LinearOrderedField α] [CMath α] (d : FlightDynamics α)
    (state : AircraftState α) : α :=
  let airDensity := d.GetAirDensity state.altitude
  let velocity := glm.length state.velocity
  1 / 2 * airDensity * velocity * velocity

/-- The member `FlightDynamics::CalculateLiftCoefficient`. -/
def CalculateLiftCoefficient {α : Type} [LinearOrderedField α] (d : FlightDynamics α)
    (angleOfAttack elevatorDeflection : α) : α :=
  let baseLift := d.m_aeroCoeffs.CL0 + d.m_aeroCoeffs.CLa * angleOfAttack
  let elevatorContribution := d.m_aeroCoeffs.CLde * elevatorDeflection
  let totalLift := baseLift + elevatorContribution
  glm.stdClamp totalLift (-d.m_aeroCoeffs.CLmax) d.m_aeroCoeffs.CLmax

/-- The member `FlightDynamics::CalculateDragCoefficient`. -/
def CalculateDragCoefficient {α : Type} [LinearOrderedField α] (d : FlightDynamics α)
    (liftCoefficient : α) : α :=
  let inducedDrag := d.m_aeroCoeffs.CDi * liftCoefficient * liftCoefficient
  d.m_aeroCoeffs.CD0 + inducedDrag

/-- The member `FlightDynamics::CalculateAerodynamicForces`. -/
def CalculateAerodynamicForces {α : Type} [LinearOrderedField α] [CMath α]
    (d : FlightDynamics α) (state : AircraftState α) (controls : ControlInputs α) : Vec3 α :=
  let dynamicPressure := d.GetDynamicPressure state
  let angleOfAttack := d.GetAngleOfAttack state
  let liftCoeff := d.CalculateLiftCoefficient angleOfAttack controls.elevator
  let dragCoeff := d.CalculateDragCoefficient liftCoeff
  let sideForceCoeff := d.m_aeroCoeffs.Cydr * controls.rudder
  let lift := liftCoeff * dynamicPressure * d.m_wingArea
  let drag := dragCoeff * dynamicPressure * d.m_wingArea
  let sideForce := sideForceCoeff * dynamicPressure * d.m_wingArea
  let bodyForces : Vec3 α := ⟨-drag, sideForce, -lift⟩
  d.BodyToWorld bodyForces state.orientation

/-- The member `FlightDynamics::CalculateAerodynamicTorques` (`0.25f` is `1 / 4`). -/
def CalculateAerodynamicTorques {α : Type} [LinearOrderedField α] [CMath α]
    (d : FlightDynamics α) (state : AircraftState α) (controls : ControlInputs α) : Vec3 α :=
  let dynamicPressure := d.GetDynamicPressure state
  let angleOfAttack := d.GetAngleOfAttack state
  let pitchingMoment :=
    (d.m_aeroCoeffs.Cm0 + d.m_aeroCoeffs.Cma * angleOfAttack
        + d.m_aeroCoeffs.Cmde * controls.elevator)
      * dynamicPressure * d.m_wingArea * (d.m_wingspan * (1 / 4))
  let rollingMoment :=
    d.m_aeroCoeffs.Clda * controls.aileron * dynamicPressure * d.m_wingArea * d.m_wingspan
  let yawingMoment :=
    d.m_aeroCoeffs.Cndr * controls.rudder * dynamicPressure * d.m_wingArea * d.m_wingspan
  ⟨rollingMoment, pitchingMoment, yawingMoment⟩

/-- The member `FlightDynamics::CalculateGravityForce` (`9.81f` is `981 / 100`). -/
def CalculateGravityForce {α : Type} [LinearOrderedField α] (d : FlightDynamics α)
    (_state : AircraftState α) : Vec3 α :=
  ⟨0, -d.m_mass * (981 / 100), 0⟩

/-- The member `FlightDynamics::CalculateThrustForce`. -/
def CalculateThrustForce {α : Type} [LinearOrderedField α] (_d : FlightDynamics α)
    (state : AircraftState α) (throttle maxThrust : α) : Vec3 α :=
  let thrust := throttle * maxThrust
  let forwardDir := glm.rotate state.orientation ⟨0, 0, 1⟩
  glm.vscale forwardDir thrust

/-- The member `FlightDynamics::CalculateForces`; the two output parameters `forces` and
`torques` are returned as a pair. -/
def CalculateForces {α : Type} [LinearOrderedField α] [CMath α] (d : FlightDynamics α)
    (state : AircraftState α) (controls : ControlInputs α) : Vec3 α × Vec3 α :=
  let aeroForces := d.CalculateAerodynamicForces state controls
  let gravityForce := d.CalculateGravityForce state
  let forces := glm.vadd aeroForces gravityForce
  let torques := d.CalculateAerodynamicTorques state controls
  (forces, torques)

end FlightDynamics

/-! ## `Aircraft.cpp` -/

/-- The wrap of the heading in `UpdateDerivedValues`, first loop:
`while (heading < 0.0f) heading += 360.0f;`. -/
def headingWrapUp {α : Type} [LinearOrderedField α] [FloorRing α] (heading : α) : α :=
  if heading < 0 then headingWrapUp (heading + 360) else heading
termination_by Nat.ceil (-heading / 360)
decreasing_by
  rename_i hneg
  have h1 : -(heading + 360) / 360 = -heading / 360 - 1 := by
    field_simp
    exact (sub_eq_neg_add _ _).symm
  have h2 : (0 : α) < -heading / 360 := div_pos (neg_pos.mpr hneg) (by linarith)
  rw [h1, Nat.lt_ceil]
  rcases le_or_lt 0 (-heading / 360 - 1) with h3 | h3
  · linarith [Nat.ceil_lt_add_one h3]
  · rw [Nat.ceil_eq_zero.mpr h3.le, Nat.cast_zero]
    exact h2

/-- The wrap of the heading in `UpdateDerivedValues`, second loop:
`while (heading >= 360.0f) heading -= 360.0f;`. -/
def headingWrapDown {α : Type} [LinearOrderedField α] [FloorRing α] (heading : α) : α :=
  if 360 ≤ heading then headingWrapDown (heading - 360) else heading
termination_by Nat.floor (heading / 360)
decreasing_by
  have h1 : (heading - 360) / 360 = heading / 360 - 1 := by ring
  rw [h1, Nat.floor_lt (by linarith)]
  linarith [Nat.lt_floor_add_one (heading / 360)]

namespace Aircraft

/-- The constructor `Aircraft::Aircraft()`; `uninit` is what the default-constructed
`m_dynamics` finds in its own inertia tensor, which its constructor does not set. -/
def new {α : Type} [LinearOrderedField α] (uninit : Mat3 α) : Aircraft α :=
  { m_state := AircraftState.initial
    m_dynamics := FlightDynamics.new uninit
    m_mass := 1500
    m_maxThrust := 8000
    m_currentThrust := 0
    m_aileronEffectiveness := 1
    m_elevatorEffectiveness := 1
    m_rudderEffectiveness := 1
    m_inertiaTensor :=
      { c00 := 2000, c01 := 0, c02 := 0
        c10 := 0, c11 := 3000, c12 := 0
        c20 := 0, c21 := 0, c22 := 4000 } }

/-- The member `Aircraft::GetState`. -/
def GetState {α : Type} (a : Aircraft α) : AircraftState α := a.m_state

/-- The member `Aircraft::UpdateDerivedValues`. -/
def UpdateDerivedValues {α : Type} [LinearOrderedField α] [FloorRing α] [CMath α]
    (a : Aircraft α) : Aircraft α :=
  let eulerAngles := glm.eulerAngles a.m_state.orientation
  { a with
    m_state :=
      { a.m_state with
        airspeed := glm.length a.m_state.velocity
        altitude := a.m_state.position.y
        verticalSpeed := a.m_state.velocity.y
        pitch := glm.degrees eulerAngles.x
        roll := glm.degrees eulerAngles.z
        heading := headingWrapDown (headingWrapUp (glm.degrees eulerAngles.y)) } }

/-- The member `Aircraft::IntegratePhysics` (`0.5f` is `1 / 2`, `0.99f` is `99 / 100`). -/
def IntegratePhysics {α : Type} [LinearOrderedField α] [CMath α] (a : Aircraft α)
    (deltaTime : α) (forces torques : Vec3 α) : Aircraft α :=
  -- linear motion
  let acceleration := glm.vdiv forces a.m_mass
  let velocity := glm.vadd a.m_state.velocity (glm.vscale acceleration deltaTime)
  let position := glm.vadd a.m_state.position (glm.vscale velocity deltaTime)
  -- angular motion
  let invInertia := glm.minverse a.m_inertiaTensor
  let angularAcceleration := glm.mmulVec invInertia torques
  let angularVelocity :=
    glm.vadd a.m_state.angularVelocity (glm.vscale angularAcceleration deltaTime)
  -- orientation
  let angularVelQuat : Quat α := ⟨0, angularVelocity.x, angularVelocity.y, angularVelocity.z⟩
  let orientationDerivative :=
    glm.qmul (glm.qscale angularVelQuat (1 / 2)) a.m_state.orientation
  let orientation :=
    glm.normalize (glm.qadd a.m_state.orientation (glm.qscale orientationDerivative deltaTime))
  -- damping
  let angularVelocity := glm.vscale angularVelocity (99 / 100)
  -- ground
  let grounded : Bool := decide (position.y < 0)
  let position : Vec3 α := if grounded then { position with y := 0 } else position
  let velocity : Vec3 α :=
    if grounded then { velocity with y := glm.stdMax 0 velocity.y } else velocity
  { a with
    m_state :=
      { a.m_state with
        position := position
        velocity := velocity
        orientation := orientation
        angularVelocity := angularVelocity } }

/-- The member `Aircraft::Update`, for an orientation that is not the zero quaternion
(`UpdateChecked` sets that case, in which the step divides 0 by 0, apart). -/
def Update {α : Type} [LinearOrderedField α] [FloorRing α] [CMath α] (a : Aircraft α)
    (deltaTime : α) (controls : ControlInputs α) : Aircraft α :=
  let ft := a.m_dynamics.CalculateForces a.m_state controls
  let thrustForce := a.m_dynamics.CalculateThrustForce a.m_state controls.throttle a.m_maxThrust
  let forces := glm.vadd ft.1 thrustForce
  (a.IntegratePhysics deltaTime forces ft.2).UpdateDerivedValues

/-- The member `Aircraft::GetForward`. -/
def GetForward {α : Type} [LinearOrderedField α] (a : Aircraft α) : Vec3 α :=
  glm.rotate a.m_state.orientation ⟨0, 0, 1⟩

/-- The member `Aircraft::GetRight`. -/
def GetRight {α : Type} [LinearOrderedField α] (a : Aircraft α) : Vec3 α :=
  glm.rotate a.m_state.orientation ⟨1, 0, 0⟩

/-- The member `Aircraft::GetUp`. -/
def GetUp {α : Type} [LinearOrderedField α] (a : Aircraft α) : Vec3 α :=
  glm.rotate a.m_state.orientation ⟨0, 1, 0⟩

/-- The member `Aircraft::SetPosition`. -/
def SetPosition {α : Type} [LinearOrderedField α] [FloorRing α] [CMath α] (a : Aircraft α)
    (position : Vec3 α) : Aircraft α :=
  UpdateDerivedValues { a with m_state := { a.m_state with position := position } }

/-- The member `Aircraft::SetOrientation`. -/
def SetOrientation {α : Type} [LinearOrderedField α] [FloorRing α] [CMath α] (a : Aircraft α)
    (orientation : Quat α) : Aircraft α :=
  UpdateDerivedValues { a with m_state := { a.m_state with orientation := orientation } }

/-- The member `Aircraft::Reset`. -/
def Reset {α : Type} [LinearOrderedField α] [FloorRing α] [CMath α] (a : Aircraft α) :
    Aircraft α :=
  UpdateDerivedValues
    { a with
      m_state :=
        { a.m_state with
          position := ⟨0, 1000, 0⟩
          velocity := ⟨0, 0, 30⟩
          orientation := ⟨1, 0, 0, 0⟩
          angularVelocity := ⟨0, 0, 0⟩ } }

/-- The member `Aircraft::Initialize`. -/
def Initialize {α : Type} [LinearOrderedField α] [FloorRing α] [CMath α] (a : Aircraft α) :
    Aircraft α :=
  let wingArea : α := 16
  let wingspan : α := 10
  Reset
    { a with
      m_dynamics :=
        a.m_dynamics.SetAircraftParameters a.m_mass wingArea wingspan a.m_inertiaTensor }

/-- The member `Aircraft::SetAircraftType`, whose body is empty. -/
def SetAircraftType {α : Type} (a : Aircraft α) (_type : String) : Aircraft α := a

/-- A run of `Update` calls, one per list entry `(deltaTime, controls)`, in order. -/
def UpdateSeq {α : Type} [LinearOrderedField α] [FloorRing α] [CMath α] (a : Aircraft α) :
    List (α × ControlInputs α) → Aircraft α
  | [] => a
  | step :: rest => UpdateSeq (a.Update step.1 step.2) rest

/-- The aircraft after `n` calls of `Update` with the same `deltaTime` and `controls`. -/
def UpdateN {α : Type} [LinearOrderedField α] [FloorRing α] [CMath α] (a : Aircraft α)
    (deltaTime : α) (controls : ControlInputs α) : Nat → Aircraft α
  | 0 => a
  | n + 1 => (UpdateN a deltaTime controls n).Update deltaTime controls

end Aircraft

/-! ## Names for intermediate values of one `Update` call -/

namespace Aircraft

/-- The force that `Update` hands to `IntegratePhysics`: the `forces` output of
`CalculateForces` plus the thrust force. -/
def netForce {α : Type} [LinearOrderedField α] [CMath α] (a : Aircraft α)
    (controls : ControlInputs α) : Vec3 α :=
  glm.vadd (a.m_dynamics.CalculateForces a.m_state controls).1
    (a.m_dynamics.CalculateThrustForce a.m_state controls.throttle a.m_maxThrust)

/-- The velocity in `IntegratePhysics` after `m_state.velocity += acceleration * deltaTime`,
before the ground check. -/
def integratedVelocity {α : Type} [LinearOrderedField α] (a : Aircraft α) (deltaTime : α)
    (forces : Vec3 α) : Vec3 α :=
  glm.vadd a.m_state.velocity (glm.vscale (glm.vdiv forces a.m_mass) deltaTime)

/-- The position in `IntegratePhysics` after `m_state.position += m_state.velocity * deltaTime`,
before the ground check. -/
def integratedPosition {α : Type} [LinearOrderedField α] (a : Aircraft α) (deltaTime : α)
    (forces : Vec3 α) : Vec3 α :=
  glm.vadd a.m_state.position (glm.vscale (a.integratedVelocity deltaTime forces) deltaTime)

/-- The angular velocity in `IntegratePhysics` after
`m_state.angularVelocity += angularAcceleration * deltaTime`, before the damping. -/
def integratedAngularVelocity {α : Type} [LinearOrderedField α] (a : Aircraft α)
    (deltaTime : α) (torques : Vec3 α) : Vec3 α :=
  glm.vadd a.m_state.angularVelocity
    (glm.vscale (glm.mmulVec (glm.minverse a.m_inertiaTensor) torques) deltaTime)

/-- The heading computed by `UpdateDerivedValues` for an orientation: the Y Euler angle in
degrees, passed through the two wrap loops. -/
def derivedHeading {α : Type} [LinearOrderedField α] [FloorRing α] [CMath α] (q : Quat α) : α :=
  headingWrapDown (headingWrapUp (glm.degrees (glm.eulerAngles q).y))

/-- The ground check of `IntegratePhysics` fires in the next `Update`: the integrated
`position.y` is negative. -/
def ClampEngages {α : Type} [LinearOrderedField α] [CMath α] (a : Aircraft α) (deltaTime : α)
    (controls : ControlInputs α) : Prop :=
  (a.integratedPosition deltaTime (a.netForce controls)).y < 0

/-- The aircraft and its flight dynamics have the masses and the inertia tensor that the
constructors (and `Initialize`) give them. -/
def HasConstructorMass {α : Type} [LinearOrderedField α] (a : Aircraft α) : Prop :=
  a.m_mass = 1500 ∧ a.m_dynamics.m_mass = 1500 ∧
    a.m_inertiaTensor = ⟨2000, 0, 0, 0, 3000, 0, 0, 0, 4000⟩

/-- The flight dynamics of the aircraft has the wing area, the wingspan and the aerodynamic
coefficients that the constructors (and `Initialize`) give it. -/
def HasConstructorAero {α : Type} [LinearOrderedField α] (a : Aircraft α) : Prop :=
  a.m_dynamics.m_wingArea = 16 ∧ a.m_dynamics.m_wingspan = 10 ∧
    a.m_dynamics.m_aeroCoeffs = AerodynamicCoefficients.initial

end Aircraft

/-- The derived fields of a state agree with its physical fields: airspeed is the length
of the velocity, altitude and vertical speed are the y components of position and velocity,
pitch and roll are the X and Z Euler angles in degrees, and the heading is the Y Euler angle
in degrees when that is non-negative and 360 more when it is negative. -/
def AircraftState.DerivedConsistent {α : Type} [LinearOrderedField α] [CMath α]
    (s : AircraftState α) : Prop :=
  s.airspeed = glm.length s.velocity ∧
  s.altitude = s.position.y ∧
  s.verticalSpeed = s.velocity.y ∧
  s.pitch = glm.degrees (glm.eulerAngles s.orientation).x ∧
  s.roll = glm.degrees (glm.eulerAngles s.orientation).z ∧
  s.heading =
    if 0 ≤ glm.degrees (glm.eulerAngles s.orientation).y
    then glm.degrees (glm.eulerAngles s.orientation).y
    else glm.degrees (glm.eulerAngles s.orientation).y + 360

/-- The orientation is a rotation about the world Y axis (its x and z components are 0) and
the angular velocity is along that axis. -/
def AircraftState.AboutY {α : Type} [LinearOrderedField α] (s : AircraftState α) : Prop :=
  s.orientation.x = 0 ∧ s.orientation.z = 0 ∧ s.angularVelocity.x = 0 ∧ s.angularVelocity.z = 0

/-- A freshly constructed aircraft whose `m_dynamics` found a zero inertia tensor. -/
def freshAircraft {α : Type} [LinearOrderedField α] : Aircraft α :=
  Aircraft.new ⟨0, 0, 0, 0, 0, 0, 0, 0, 0⟩

/-- A freshly constructed aircraft that has been given the angular velocity (1, 0, 0). -/
def spinningAircraft {α : Type} [LinearOrderedField α] : Aircraft α :=
  { freshAircraft with
    m_state := { AircraftState.initial with angularVelocity := ⟨1, 0, 0⟩ } }

/-- A freshly constructed aircraft turned with `SetOrientation` to the unit quaternion
(3/5, -4/5, 0, 0), a rotation about the world X axis. -/
def tiltedAircraft {α : Type} [LinearOrderedField α] [FloorRing α] [CMath α] : Aircraft α :=
  freshAircraft.SetOrientation ⟨3 / 5, -(4 / 5), 0, 0⟩

/-- The controls with aileron = +1 and the other five at 0. -/
def fullAileron {α : Type} [LinearOrderedField α] : ControlInputs α :=
  { ControlInputs.initial with aileron := 1 }

/-- The controls with the given throttle and the other five at 0. -/
def throttleOnly {α : Type} [LinearOrderedField α] (throttle : α) : ControlInputs α :=
  { ControlInputs.initial with throttle := throttle }

/-! ## `InputManager.cpp` -/

/-- The call `std::min(a, b)`: `(b < a) ? b : a`. -/
def glm.stdMin {α : Type} [LinearOrderedField α] (a b : α) : α := if b < a then b else a

/-- The GLFW key code `GLFW_KEY_W`. -/
def GLFW_KEY_W : Nat := 87

/-- The GLFW key code `GLFW_KEY_S`. -/
def GLFW_KEY_S : Nat := 83

/-- The GLFW key code `GLFW_KEY_A`. -/
def GLFW_KEY_A : Nat := 65

/-- The GLFW key code `GLFW_KEY_D`. -/
def GLFW_KEY_D : Nat := 68

/-- The GLFW key code `GLFW_KEY_Q`. -/
def GLFW_KEY_Q : Nat := 81

/-- The GLFW key code `GLFW_KEY_E`. -/
def GLFW_KEY_E : Nat := 69

/-- The GLFW key code `GLFW_KEY_LEFT_SHIFT`. -/
def GLFW_KEY_LEFT_SHIFT : Nat := 340

/-- The GLFW key code `GLFW_KEY_LEFT_CONTROL`. -/
def GLFW_KEY_LEFT_CONTROL : Nat := 341

/-- The data members of class `InputManager` that `GetControlInputs` reads or writes: the
array `m_keys` (a key code is held down or not) and the mutable `m_controlInputs`.  The
window, mouse, joystick and sensitivity members play no part in it. -/
structure InputManager (α : Type) where
  m_keys : Nat → Bool
  m_controlInputs : ControlInputs α

namespace InputManager

/-- The constructor `InputManager::InputManager()`: `memset` clears `m_keys`, and
`m_controlInputs` takes its default member initialisers. -/
def new {α : Type} [LinearOrderedField α] : InputManager α :=
  { m_keys := fun _ => false
    m_controlInputs := ControlInputs.initial }

/-- A statement `if (cond) body;` acting on `m_controlInputs`. -/
def ifThen {α : Type} (cond : Bool) (body : ControlInputs α → ControlInputs α)
    (c : ControlInputs α) : ControlInputs α :=
  if cond then body c else c

/-- The member `InputManager::ProcessFlightControls`, its nine `if` statements in order
(`0.02f` is `2 / 100`, `0.95f` is `95 / 100`). -/
def ProcessFlightControls {α : Type} [LinearOrderedField α] (im : InputManager α) :
    InputManager α :=
  { im with
    m_controlInputs :=
      im.m_controlInputs
      -- pitch control (W/S keys)
      |> ifThen (im.m_keys GLFW_KEY_W)
          (fun c => { c with elevator := glm.stdMin (c.elevator + 2 / 100) 1 })
      |> ifThen (im.m_keys GLFW_KEY_S)
          (fun c => { c with elevator := glm.stdMax (c.elevator - 2 / 100) (-1) })
      -- roll control (A/D keys)
      |> ifThen (im.m_keys GLFW_KEY_A)
          (fun c => { c with aileron := glm.stdMax (c.aileron - 2 / 100) (-1) })
      |> ifThen (im.m_keys GLFW_KEY_D)
          (fun c => { c with aileron := glm.stdMin (c.aileron + 2 / 100) 1 })
      -- yaw control (Q/E keys)
      |> ifThen (im.m_keys GLFW_KEY_Q)
          (fun c => { c with rudder := glm.stdMax (c.rudder - 2 / 100) (-1) })
      |> ifThen (im.m_keys GLFW_KEY_E)
          (fun c => { c with rudder := glm.stdMin (c.rudder + 2 / 100) 1 })
      -- return controls to center when not pressed
      |> ifThen (!im.m_keys GLFW_KEY_W && !im.m_keys GLFW_KEY_S)
          (fun c => { c with elevator := c.elevator * (95 / 100) })
      |> ifThen (!im.m_keys GLFW_KEY_A && !im.m_keys GLFW_KEY_D)
          (fun c => { c with aileron := c.aileron * (95 / 100) })
      |> ifThen (!im.m_keys GLFW_KEY_Q && !im.m_keys GLFW_KEY_E)
          (fun c => { c with rudder := c.rudder * (95 / 100) }) }

/-- The member `InputManager::ProcessThrottleControls` (`0.01f` is `1 / 100`). -/
def ProcessThrottleControls {α : Type} [LinearOrderedField α] (im : InputManager α) :
    InputManager α :=
  { im with
    m_controlInputs :=
      im.m_controlInputs
      |> ifThen (im.m_keys GLFW_KEY_LEFT_SHIFT)
          (fun c => { c with throttle := glm.stdMin (c.throttle + 1 / 100) 1 })
      |> ifThen (im.m_keys GLFW_KEY_LEFT_CONTROL)
          (fun c => { c with throttle := glm.stdMax (c.throttle - 1 / 100) 0 }) }

/-- The member `InputManager::ProcessAuxiliaryControls`, whose body is empty. -/
def ProcessAuxiliaryControls {α : Type} (im : InputManager α) : InputManager α := im

/-- The member `InputManager::GetControlInputs`: the returned record, and the object after
the call (the member is `const`, `m_controlInputs` is `mutable`). -/
def GetControlInputs {α : Type} [LinearOrderedField α] (im : InputManager α) :
    ControlInputs α × InputManager α :=
  let im := im.ProcessFlightControls
  let im := im.ProcessThrottleControls
  let im := im.ProcessAuxiliaryControls
  (im.m_controlInputs, im)

/-- A run of `GetControlInputs` calls, one per list entry; the entry is the content of
`m_keys` during that call. -/
def pollSeq {α : Type} [LinearOrderedField α] (im : InputManager α) :
    List (Nat → Bool) → InputManager α
  | [] => im
  | keys :: rest => pollSeq ({ im with m_keys := keys } : InputManager α).GetControlInputs.2 rest

end InputManager

/-- The ranges of the control inputs: aileron, elevator and rudder in `[-1, 1]`, throttle in
`[0, 1]`, flaps and brakes 0. -/
def ControlInputs.InRange {α : Type} [LinearOrderedField α] (c : ControlInputs α) : Prop :=
  (-1 ≤ c.aileron ∧ c.aileron ≤ 1) ∧ (-1 ≤ c.elevator ∧ c.elevator ≤ 1) ∧
  (-1 ≤ c.rudder ∧ c.rudder ≤ 1) ∧ (0 ≤ c.throttle ∧ c.throttle ≤ 1) ∧
  c.flaps = 0 ∧ c.brakes = 0

/-! ## Runs of steps with changing arguments -/

/-- The aircraft after `n` calls of `Update`; call number `k` (from 0) is
`Update(deltaTime k, controls k)`. -/
def Aircraft.UpdateStream {α : Type} [LinearOrderedField α] [FloorRing α] [CMath α]
    (a : Aircraft α) (deltaTime : Nat → α) (controls : Nat → ControlInputs α) :
    Nat → Aircraft α
  | 0 => a
  | n + 1 => (UpdateStream a deltaTime controls n).Update (deltaTime n) (controls n)

/-- A run of `IntegratePhysics` calls, one per list entry `(deltaTime, forces, torques)`, in
order. -/
def Aircraft.IntegrateSeq {α : Type} [LinearOrderedField α] [CMath α] (a : Aircraft α) :
    List (α × Vec3 α × Vec3 α) → Aircraft α
  | [] => a
  | step :: rest => IntegrateSeq (a.IntegratePhysics step.1 step.2.1 step.2.2) rest

/-- The default `AircraftState` with the velocity set to (0, 1, 0): identity orientation,
moving straight up. -/
def AircraftState.rising {α : Type} [LinearOrderedField α] : AircraftState α :=
  { AircraftState.initial with velocity := ⟨0, 1, 0⟩ }

/-! ## The step with the division of `glm::inverse` checked

`glm::inverse(q)` divides by `dot(q, q)`.  At the zero quaternion, which `SetOrientation`
stores like any other, the code divides 0 by 0: the quotient and every number computed from
it is "not a number", and a comparison with it is false.  The functions of this section are
the functions on the path from `Update` to that division once more, with the result `none`
in that case.  Where the result is `some`, it is the value of the function of the same name
above. -/

/-- The call `glm::inverse` on a quaternion, `conjugate(q) / dot(q, q)`, with the divisor
checked: `none` when `dot(q, q)` is 0. -/
def glm.qinverseChecked {α : Type} [LinearOrderedField α] (q : Quat α) : Option (Quat α) :=
  if glm.qdot q q = 0 then none
  else some (glm.qdivScalar (glm.conjugate q) (glm.qdot q q))

namespace FlightDynamics

/-- The member `FlightDynamics::WorldToBody`, `glm::inverse(orientation) * worldVector`,
with the division checked. -/
def WorldToBodyChecked {α : Type} [LinearOrderedField α] (_d : FlightDynamics α)
    (worldVector : Vec3 α) (orientation : Quat α) : Option (Vec3 α) :=
  (glm.qinverseChecked orientation).map fun inverse => glm.rotate inverse worldVector

/-- The member `FlightDynamics::GetAngleOfAttack`, with the division checked. -/
def GetAngleOfAttackChecked {α : Type} [LinearOrderedField α] [CMath α]
    (d : FlightDynamics α) (state : AircraftState α) : Option α :=
  (d.WorldToBodyChecked state.velocity state.orientation).map fun bodyVelocity =>
    if bodyVelocity.z ≠ 0 then glm.atan2 (-bodyVelocity.y) bodyVelocity.z else 0

/-- The member `FlightDynamics::GetSideslipAngle`, with the division checked. -/
def GetSideslipAngleChecked {α : Type} [LinearOrderedField α] [CMath α]
    (d : FlightDynamics α) (state : AircraftState α) : Option α :=
  (d.WorldToBodyChecked state.velocity state.orientation).map fun bodyVelocity =>
    let velocityMagnitudeXZ :=
      CMath.sqrt (bodyVelocity.x * bodyVelocity.x + bodyVelocity.z * bodyVelocity.z)
    if velocityMagnitudeXZ ≠ 0 then glm.atan2 bodyVelocity.x velocityMagnitudeXZ else 0

/-- The member `FlightDynamics::CalculateAerodynamicForces`, with the division checked; it
calls `GetAngleOfAttack` and `GetSideslipAngle` (whose result it does not use). -/
def CalculateAerodynamicForcesChecked {α : Type} [LinearOrderedField α] [CMath α]
    (d : FlightDynamics α) (state : AircraftState α) (controls : ControlInputs α) :
    Option (Vec3 α) :=
  (d.GetAngleOfAttackChecked state).bind fun angleOfAttack =>
  (d.GetSideslipAngleChecked state).map fun _sideslipAngle =>
    let dynamicPressure := d.GetDynamicPressure state
    let liftCoeff := d.CalculateLiftCoefficient angleOfAttack controls.elevator
    let dragCoeff := d.CalculateDragCoefficient liftCoeff
    let sideForceCoeff := d.m_aeroCoeffs.Cydr * controls.rudder
    let lift := liftCoeff * dynamicPressure * d.m_wingArea
    let drag := dragCoeff * dynamicPressure * d.m_wingArea
    let sideForce := sideForceCoeff * dynamicPressure * d.m_wingArea
    let bodyForces : Vec3 α := ⟨-drag, sideForce, -lift⟩
    d.BodyToWorld bodyForces state.orientation

/-- The member `FlightDynamics::CalculateAerodynamicTorques`, with the division checked. -/
def CalculateAerodynamicTorquesChecked {α : Type} [LinearOrderedField α] [CMath α]
    (d : FlightDynamics α) (state : AircraftState α) (controls : ControlInputs α) :
    Option (Vec3 α) :=
  (d.GetAngleOfAttackChecked state).map fun angleOfAttack =>
    let dynamicPressure := d.GetDynamicPressure state
    let pitchingMoment :=
      (d.m_aeroCoeffs.Cm0 + d.m_aeroCoeffs.Cma * angleOfAttack
          + d.m_aeroCoeffs.Cmde * controls.elevator)
        * dynamicPressure * d.m_wingArea * (d.m_wingspan * (1 / 4))
    let rollingMoment :=
      d.m_aeroCoeffs.Clda * controls.aileron * dynamicPressure * d.m_wingArea * d.m_wingspan
    let yawingMoment :=
      d.m_aeroCoeffs.Cndr * controls.rudder * dynamicPressure * d.m_wingArea * d.m_wingspan
    ⟨rollingMoment, pitchingMoment, yawingMoment⟩

/-- The member `FlightDynamics::CalculateForces`, with the division checked. -/
def CalculateForcesChecked {α : Type} [LinearOrderedField α] [CMath α]
    (d : FlightDynamics α) (state : AircraftState α) (controls : ControlInputs α) :
    Option (Vec3 α × Vec3 α) :=
  (d.CalculateAerodynamicForcesChecked state controls).bind fun aeroForces =>
  (d.CalculateAerodynamicTorquesChecked state controls).map fun torques =>
    let gravityForce := d.CalculateGravityForce state
    let forces := glm.vadd aeroForces gravityForce
    (forces, torques)

end FlightDynamics

/-- The member `Aircraft::Update`, with the division checked: `none` when the forces and
torques of the step are not numbers, and with them the whole state after the step. -/
def Aircraft.UpdateChecked {α : Type} [LinearOrderedField α] [FloorRing α] [CMath α]
    (a : Aircraft α) (deltaTime : α) (controls : ControlInputs α) : Option (Aircraft α) :=
  (a.m_dynamics.CalculateForcesChecked a.m_state controls).map fun ft =>
    let thrustForce :=
      a.m_dynamics.CalculateThrustForce a.m_state controls.throttle a.m_maxThrust
    let forces := glm.vadd ft.1 thrustForce
    (a.IntegratePhysics deltaTime forces ft.2).UpdateDerivedValues

/-- A freshly constructed aircraft after `SetOrientation` with the zero quaternion. -/
def zeroOrientationAircraft {α : Type} [LinearOrderedField α] [FloorRing α] [CMath α] :
    Aircraft α :=
  freshAircraft.SetOrientation ⟨0, 0, 0, 0⟩

/-! ## Consequences of the laws of `CMath` -/

theorem CMath.sqrt_mul_self_eq {α : Type} [LinearOrderedField α] [CMath α] (a : α)
    (ha : 0 ≤ a) : CMath.sqrt (a * a) = a :=
  (mul_self_inj_of_nonneg (CMath.sqrt_nonneg _ (mul_self_nonneg a)) ha).mp
    (CMath.sqrt_mul_self _ (mul_self_nonneg a))

theorem CMath.sqrt_zero {α : Type} [LinearOrderedField α] [CMath α] :
    CMath.sqrt (0 : α) = 0 := by
  have h := CMath.sqrt_mul_self_eq (0 : α) le_rfl
  rwa [mul_zero] at h

theorem CMath.sqrt_one {α : Type} [LinearOrderedField α] [CMath α] :
    CMath.sqrt (1 : α) = 1 := by
  have h := CMath.sqrt_mul_self_eq (1 : α) zero_le_one
  rwa [mul_one] at h

theorem CMath.sqrt_pos {α : Type} [LinearOrderedField α] [CMath α] (x : α) (hx : 0 < x) :
    0 < CMath.sqrt x := by
  rcases (CMath.sqrt_nonneg x hx.le).lt_or_eq with h | h
  · exact h
  · have h2 := CMath.sqrt_mul_self x hx.le
    rw [← h, mul_zero] at h2
    exact absurd h2 (ne_of_lt hx)

theorem CMath.pi_pos {α : Type} [LinearOrderedField α] [CMath α] : (0 : α) < CMath.pi :=
  lt_trans (by linarith) CMath.pi_gt_three

/-! ## Lemmas on the GLM functions -/

theorem glm.qlength_identity {α : Type} [LinearOrderedField α] [CMath α] :
    glm.qlength (⟨1, 0, 0, 0⟩ : Quat α) = 1 := by
  have h : glm.qdot (⟨1, 0, 0, 0⟩ : Quat α) ⟨1, 0, 0, 0⟩ = 1 := by
    show (0 : α) * 0 + 0 * 0 + 0 * 0 + 1 * 1 = 1
    ring
  rw [glm.qlength, h, CMath.sqrt_one]

theorem glm.normalize_of_nonpos {α : Type} [LinearOrderedField α] [CMath α] (q : Quat α)
    (h : glm.qlength q ≤ 0) : glm.normalize q = ⟨1, 0, 0, 0⟩ :=
  if_pos h

theorem glm.normalize_of_pos {α : Type} [LinearOrderedField α] [CMath α] (q : Quat α)
    (h : 0 < glm.qlength q) :
    glm.normalize q =
      ⟨q.w * (1 / glm.qlength q), q.x * (1 / glm.qlength q), q.y * (1 / glm.qlength q),
        q.z * (1 / glm.qlength q)⟩ :=
  if_neg (not_le.mpr h)

theorem glm.qdot_self_nonneg {α : Type} [LinearOrderedField α] (q : Quat α) :
    0 ≤ glm.qdot q q := by
  show 0 ≤ q.x * q.x + q.y * q.y + q.z * q.z + q.w * q.w
  nlinarith [mul_self_nonneg q.x, mul_self_nonneg q.y, mul_self_nonneg q.z, mul_self_nonneg q.w]

theorem glm.qlength_mul_self {α : Type} [LinearOrderedField α] [CMath α] (q : Quat α) :
    glm.qlength q * glm.qlength q = glm.qdot q q :=
  CMath.sqrt_mul_self _ (glm.qdot_self_nonneg q)

/-- The result of `glm::normalize` has length one, whatever the argument. -/
theorem glm.qlength_normalize {α : Type} [LinearOrderedField α] [CMath α] (q : Quat α) :
    glm.qlength (glm.normalize q) = 1 := by
  rcases le_or_lt (glm.qlength q) 0 with h | h
  · rw [glm.normalize_of_nonpos q h, glm.qlength_identity]
  · rw [glm.normalize_of_pos q h]
    have hsq : glm.qlength q * glm.qlength q
        = q.x * q.x + q.y * q.y + q.z * q.z + q.w * q.w := glm.qlength_mul_self q
    have hne : glm.qlength q ≠ 0 := ne_of_gt h
    have h1 : glm.qdot
        (⟨q.w * (1 / glm.qlength q), q.x * (1 / glm.qlength q), q.y * (1 / glm.qlength q),
          q.z * (1 / glm.qlength q)⟩ : Quat α)
        ⟨q.w * (1 / glm.qlength q), q.x * (1 / glm.qlength q), q.y * (1 / glm.qlength q),
          q.z * (1 / glm.qlength q)⟩ = 1 := by
      show q.x * (1 / glm.qlength q) * (q.x * (1 / glm.qlength q))
        + q.y * (1 / glm.qlength q) * (q.y * (1 / glm.qlength q))
        + q.z * (1 / glm.qlength q) * (q.z * (1 / glm.qlength q))
        + q.w * (1 / glm.qlength q) * (q.w * (1 / glm.qlength q)) = 1
      field_simp
      linarith
    rw [glm.qlength, h1, CMath.sqrt_one]

theorem glm.normalize_of_unit {α : Type} [LinearOrderedField α] [CMath α] (q : Quat α)
    (h : glm.qlength q = 1) : glm.normalize q = q := by
  rw [glm.normalize_of_pos q (by rw [h]; exact one_pos), h, div_one, mul_one, mul_one, mul_one,
    mul_one]

/-! ## The state after one `Update` -/

theorem Aircraft.UpdateDerivedValues_orientation {α : Type} [LinearOrderedField α]
    [FloorRing α] [CMath α] (a : Aircraft α) :
    a.UpdateDerivedValues.m_state.orientation = a.m_state.orientation := rfl

theorem Aircraft.qlength_update {α : Type} [LinearOrderedField α] [FloorRing α] [CMath α]
    (a : Aircraft α) (deltaTime : α) (controls : ControlInputs α) :
    glm.qlength (a.Update deltaTime controls).m_state.orientation = 1 :=
  glm.qlength_normalize _

theorem Aircraft.UpdateSeq_append {α : Type} [LinearOrderedField α] [FloorRing α] [CMath α]
    (a : Aircraft α) (l₁ l₂ : List (α × ControlInputs α)) :
    a.UpdateSeq (l₁ ++ l₂) = (a.UpdateSeq l₁).UpdateSeq l₂ := by
  induction l₁ generalizing a with
  | nil => rfl
  | cons s l ih => exact ih _

/-- C1. Unit-quaternion invariant: from a state whose orientation is a unit quaternion,
with `deltaTime >= 0` and any controls, the orientation after `Update` has norm exactly 1;
and the orientation after the last step of any non-empty run of `Update` calls (with
non-negative time steps) that starts from `Reset` has norm exactly 1. -/
theorem Aircraft.update_orientation_unit {α : Type} [LinearOrderedField α] [FloorRing α]
    [CMath α] (a : Aircraft α) (deltaTime : α) (controls : ControlInputs α)
    (steps : List (α × ControlInputs α))
    (hunit : glm.qlength a.m_state.orientation = 1) (hdt : 0 ≤ deltaTime)
    (hsteps : ∀ p ∈ steps, 0 ≤ p.1) :
    glm.qlength (a.Update deltaTime controls).m_state.orientation = 1 ∧
      glm.qlength
        (a.Reset.UpdateSeq (steps ++ [(deltaTime, controls)])).m_state.orientation = 1 := by
  refine ⟨Aircraft.qlength_update a deltaTime controls, ?_⟩
  rw [Aircraft.UpdateSeq_append]
  exact Aircraft.qlength_update _ deltaTime controls

theorem Aircraft.update_orientation_unit_witness :
    glm.qlength (freshAircraft : Aircraft ℝ).m_state.orientation = 1 ∧
    (0 : ℝ) ≤ 1 / 60 ∧
    (∀ p ∈ [((1 : ℝ) / 60, throttleOnly (1 : ℝ))], 0 ≤ p.1) ∧
    (glm.qlength ((freshAircraft : Aircraft ℝ).Update (1 / 60) fullAileron).m_state.orientation
        = 1 ∧
      glm.qlength
        ((freshAircraft : Aircraft ℝ).Reset.UpdateSeq
          ([(1 / 60, throttleOnly 1)] ++ [(1 / 60, fullAileron)])).m_state.orientation
        = 1) :=
  have h1 : glm.qlength (freshAircraft : Aircraft ℝ).m_state.orientation = 1 :=
    glm.qlength_identity
  have h2 : (0 : ℝ) ≤ 1 / 60 := by norm_num
  have h3 : ∀ p ∈ [((1 : ℝ) / 60, throttleOnly (1 : ℝ))], 0 ≤ p.1 := by
    intro p hp
    rw [List.mem_singleton.mp hp]
    exact h2
  ⟨h1, h2, h3, Aircraft.update_orientation_unit _ _ _ _ h1 h2 h3⟩

theorem Aircraft.Update_eq {α : Type} [LinearOrderedField α] [FloorRing α] [CMath α]
    (a : Aircraft α) (deltaTime : α) (controls : ControlInputs α) :
    a.Update deltaTime controls =
      (a.IntegratePhysics deltaTime (a.netForce controls)
        (a.m_dynamics.CalculateForces a.m_state controls).2).UpdateDerivedValues := rfl

theorem Aircraft.IntegratePhysics_position {α : Type} [LinearOrderedField α] [CMath α]
    (a : Aircraft α) (deltaTime : α) (forces torques : Vec3 α) :
    (a.IntegratePhysics deltaTime forces torques).m_state.position =
      if (a.integratedPosition deltaTime forces).y < 0
      then { a.integratedPosition deltaTime forces with y := 0 }
      else a.integratedPosition deltaTime forces := by
  by_cases h : (a.integratedPosition deltaTime forces).y < 0
  · rw [if_pos h]
    show (if decide ((a.integratedPosition deltaTime forces).y < 0) = true then _ else _) = _
    rw [if_pos (decide_eq_true h)]
    rfl
  · rw [if_neg h]
    show (if decide ((a.integratedPosition deltaTime forces).y < 0) = true then _ else _) = _
    rw [if_neg (by rw [decide_eq_true_eq]; exact h)]
    rfl

theorem Aircraft.IntegratePhysics_velocity {α : Type} [LinearOrderedField α] [CMath α]
    (a : Aircraft α) (deltaTime : α) (forces torques : Vec3 α) :
    (a.IntegratePhysics deltaTime forces torques).m_state.velocity =
      if (a.integratedPosition deltaTime forces).y < 0
      then { a.integratedVelocity deltaTime forces with
              y := glm.stdMax 0 (a.integratedVelocity deltaTime forces).y }
      else a.integratedVelocity deltaTime forces := by
  by_cases h : (a.integratedPosition deltaTime forces).y < 0
  · rw [if_pos h]
    show (if decide ((a.integratedPosition deltaTime forces).y < 0) = true then _ else _) = _
    rw [if_pos (decide_eq_true h)]
    rfl
  · rw [if_neg h]
    show (if decide ((a.integratedPosition deltaTime forces).y < 0) = true then _ else _) = _
    rw [if_neg (by rw [decide_eq_true_eq]; exact h)]
    rfl

theorem Aircraft.IntegratePhysics_angularVelocity {α : Type} [LinearOrderedField α] [CMath α]
    (a : Aircraft α) (deltaTime : α) (forces torques : Vec3 α) :
    (a.IntegratePhysics deltaTime forces torques).m_state.angularVelocity =
      glm.vscale (a.integratedAngularVelocity deltaTime torques) (99 / 100) := rfl

theorem Aircraft.IntegratePhysics_orientation {α : Type} [LinearOrderedField α] [CMath α]
    (a : Aircraft α) (deltaTime : α) (forces torques : Vec3 α) :
    (a.IntegratePhysics deltaTime forces torques).m_state.orientation =
      glm.normalize
        (glm.qadd a.m_state.orientation
          (glm.qscale
            (glm.qmul
              (glm.qscale
                ⟨0, (a.integratedAngularVelocity deltaTime torques).x,
                  (a.integratedAngularVelocity deltaTime torques).y,
                  (a.integratedAngularVelocity deltaTime torques).z⟩
                (1 / 2))
              a.m_state.orientation)
            deltaTime)) := rfl

/-- The four physical fields after `Update`, in terms of the integrated values. -/
theorem Aircraft.Update_state {α : Type} [LinearOrderedField α] [FloorRing α] [CMath α]
    (a : Aircraft α) (deltaTime : α) (controls : ControlInputs α) :
    ((a.Update deltaTime controls).m_state.position =
      if (a.integratedPosition deltaTime (a.netForce controls)).y < 0
      then { a.integratedPosition deltaTime (a.netForce controls) with y := 0 }
      else a.integratedPosition deltaTime (a.netForce controls)) ∧
    ((a.Update deltaTime controls).m_state.velocity =
      if (a.integratedPosition deltaTime (a.netForce controls)).y < 0
      then { a.integratedVelocity deltaTime (a.netForce controls) with
              y := glm.stdMax 0 (a.integratedVelocity deltaTime (a.netForce controls)).y }
      else a.integratedVelocity deltaTime (a.netForce controls)) ∧
    (a.Update deltaTime controls).m_state.angularVelocity =
      glm.vscale (a.integratedAngularVelocity deltaTime
        (a.m_dynamics.CalculateForces a.m_state controls).2) (99 / 100) ∧
    (a.Update deltaTime controls).m_state.altitude =
      (a.Update deltaTime controls).m_state.position.y :=
  ⟨Aircraft.IntegratePhysics_position a deltaTime (a.netForce controls)
      (a.m_dynamics.CalculateForces a.m_state controls).2,
    Aircraft.IntegratePhysics_velocity a deltaTime (a.netForce controls)
      (a.m_dynamics.CalculateForces a.m_state controls).2, rfl, rfl⟩

theorem Aircraft.Update_position {α : Type} [LinearOrderedField α] [FloorRing α] [CMath α]
    (a : Aircraft α) (deltaTime : α) (controls : ControlInputs α) :
    (a.Update deltaTime controls).m_state.position =
      if (a.integratedPosition deltaTime (a.netForce controls)).y < 0
      then { a.integratedPosition deltaTime (a.netForce controls) with y := 0 }
      else a.integratedPosition deltaTime (a.netForce controls) :=
  (Aircraft.Update_state a deltaTime controls).1

theorem Aircraft.Update_velocity {α : Type} [LinearOrderedField α] [FloorRing α] [CMath α]
    (a : Aircraft α) (deltaTime : α) (controls : ControlInputs α) :
    (a.Update deltaTime controls).m_state.velocity =
      if (a.integratedPosition deltaTime (a.netForce controls)).y < 0
      then { a.integratedVelocity deltaTime (a.netForce controls) with
              y := glm.stdMax 0 (a.integratedVelocity deltaTime (a.netForce controls)).y }
      else a.integratedVelocity deltaTime (a.netForce controls) :=
  (Aircraft.Update_state a deltaTime controls).2.1

theorem glm.stdMax_eq_max {α : Type} [LinearOrderedField α] (a b : α) :
    glm.stdMax a b = Max.max a b := by
  by_cases h : a < b
  · exact (if_pos h).trans (max_eq_right h.le).symm
  · exact (if_neg h).trans (max_eq_left (not_lt.mp h)).symm

theorem Aircraft.integratedPosition_zero_dt {α : Type} [LinearOrderedField α] (a : Aircraft α)
    (forces : Vec3 α) : a.integratedPosition 0 forces = a.m_state.position := by
  show (⟨a.m_state.position.x + _ * 0, a.m_state.position.y + _ * 0,
    a.m_state.position.z + _ * 0⟩ : Vec3 α) = _
  rw [mul_zero, mul_zero, mul_zero, add_zero, add_zero, add_zero]

theorem Aircraft.integratedVelocity_zero_dt {α : Type} [LinearOrderedField α] (a : Aircraft α)
    (forces : Vec3 α) : a.integratedVelocity 0 forces = a.m_state.velocity := by
  show (⟨a.m_state.velocity.x + _ * 0, a.m_state.velocity.y + _ * 0,
    a.m_state.velocity.z + _ * 0⟩ : Vec3 α) = _
  rw [mul_zero, mul_zero, mul_zero, add_zero, add_zero, add_zero]

/-! ## The heading wrap -/

theorem headingWrapUp_of_nonneg {α : Type} [LinearOrderedField α] [FloorRing α] (h : α)
    (h0 : 0 ≤ h) : headingWrapUp h = h := by
  rw [headingWrapUp, if_neg (not_lt.mpr h0)]

theorem headingWrapUp_of_neg {α : Type} [LinearOrderedField α] [FloorRing α] (h : α)
    (h0 : h < 0) : headingWrapUp h = headingWrapUp (h + 360) := by
  rw [headingWrapUp, if_pos h0]

theorem headingWrapDown_of_lt {α : Type} [LinearOrderedField α] [FloorRing α] (h : α)
    (h0 : h < 360) : headingWrapDown h = h := by
  rw [headingWrapDown, if_neg (not_le.mpr h0)]

theorem headingWrapDown_of_ge {α : Type} [LinearOrderedField α] [FloorRing α] (h : α)
    (h0 : 360 ≤ h) : headingWrapDown h = headingWrapDown (h - 360) := by
  rw [headingWrapDown, if_pos h0]

/-- The first loop: a non-negative heading is left alone, a negative one ends in `[0, 360)`;
in both cases a whole number of turns of 360 has been added. -/
theorem headingWrapUp_spec {α : Type} [LinearOrderedField α] [FloorRing α] (h : α) :
    0 ≤ headingWrapUp h ∧ (h < 0 → headingWrapUp h < 360) ∧
      ∃ k : ℤ, headingWrapUp h = h + 360 * k := by
  induction h using headingWrapUp.induct with
  | case1 h hneg ih =>
    rw [headingWrapUp_of_neg h hneg]
    obtain ⟨ih1, ih2, k, ih3⟩ := ih
    refine ⟨ih1, fun _ => ?_, k + 1, ?_⟩
    · rcases lt_or_le (h + 360) 0 with h' | h'
      · exact ih2 h'
      · rw [headingWrapUp_of_nonneg _ h']
        linarith
    · rw [ih3, Int.cast_add, Int.cast_one]
      ring
  | case2 h hnn =>
    have hnn' : 0 ≤ h := not_lt.mp hnn
    rw [headingWrapUp_of_nonneg h hnn']
    exact ⟨hnn', fun hneg => absurd hneg hnn, 0, by rw [Int.cast_zero, mul_zero, add_zero]⟩

/-- The second loop, on a non-negative heading: the result is in `[0, 360)` and a whole
number of turns of 360 has been subtracted. -/
theorem headingWrapDown_spec {α : Type} [LinearOrderedField α] [FloorRing α] (h : α)
    (h0 : 0 ≤ h) :
    0 ≤ headingWrapDown h ∧ headingWrapDown h < 360 ∧
      ∃ k : ℤ, headingWrapDown h = h + 360 * k := by
  induction h using headingWrapDown.induct with
  | case1 h hge ih =>
    rw [headingWrapDown_of_ge h hge]
    obtain ⟨ih1, ih2, k, ih3⟩ := ih (by linarith)
    refine ⟨ih1, ih2, k - 1, ?_⟩
    rw [ih3, Int.cast_sub, Int.cast_one]
    ring
  | case2 h hlt =>
    have hlt' : h < 360 := not_le.mp hlt
    rw [headingWrapDown_of_lt h hlt']
    exact ⟨h0, hlt', 0, by rw [Int.cast_zero, mul_zero, add_zero]⟩

/-- Both loops together: the result is in `[0, 360)` and differs from the input by a whole
number of turns. -/
theorem headingWrap_spec {α : Type} [LinearOrderedField α] [FloorRing α] (h : α) :
    0 ≤ headingWrapDown (headingWrapUp h) ∧ headingWrapDown (headingWrapUp h) < 360 ∧
      ∃ k : ℤ, headingWrapDown (headingWrapUp h) = h + 360 * k := by
  obtain ⟨u1, _, ku, u3⟩ := headingWrapUp_spec h
  obtain ⟨d1, d2, kd, d3⟩ := headingWrapDown_spec (headingWrapUp h) u1
  refine ⟨d1, d2, ku + kd, ?_⟩
  rw [d3, u3, Int.cast_add]
  ring

/-- Two values of `[0, 360)` that differ by a whole number of turns are equal. -/
theorem turns_unique {α : Type} [LinearOrderedField α] (x y : α) (k : ℤ) (hx0 : 0 ≤ x)
    (hx : x < 360) (hy0 : 0 ≤ y) (hy : y < 360) (hk : y = x + 360 * k) : y = x := by
  have h1 : (k : α) < 1 := by linarith
  have h2 : (-1 : α) < k := by linarith
  have h3 : k < 1 := by
    rw [← Int.cast_one] at h1
    exact Int.cast_lt.mp h1
  have h4 : -1 < k := by
    rw [← Int.cast_one, ← Int.cast_neg] at h2
    exact Int.cast_lt.mp h2
  have h5 : k = 0 := by omega
  rw [hk, h5, Int.cast_zero, mul_zero, add_zero]

theorem Aircraft.UpdateDerivedValues_heading {α : Type} [LinearOrderedField α] [FloorRing α]
    [CMath α] (a : Aircraft α) :
    a.UpdateDerivedValues.m_state.heading = Aircraft.derivedHeading a.m_state.orientation := rfl

theorem Aircraft.derivedHeading_range {α : Type} [LinearOrderedField α] [FloorRing α]
    [CMath α] (q : Quat α) :
    0 ≤ Aircraft.derivedHeading q ∧ Aircraft.derivedHeading q < 360 :=
  ⟨(headingWrap_spec _).1, (headingWrap_spec _).2.1⟩

/-! ## Euler angles of the identity, and `Reset` -/

theorem glm.atan2_of_pos {α : Type} [LinearOrderedField α] [CMath α] (y x : α) (hx : 0 < x) :
    glm.atan2 y x = CMath.atan (y / x) :=
  if_pos hx

theorem glm.epsilon_lt {α : Type} [LinearOrderedField α] : (glm.epsilon : α) < 1 / 3 := by
  show (1 : α) / 8388608 < 1 / 3
  rw [div_lt_div_iff₀ (by linarith) (by linarith)]
  linarith

theorem glm.clamp_of_mem {α : Type} [LinearOrderedField α] (x : α) (h1 : -1 ≤ x)
    (h2 : x ≤ 1) : glm.clamp x (-1) 1 = x := by
  show glm.min (glm.max x (-1)) 1 = x
  have hmax : glm.max x (-1) = x := if_neg (not_lt.mpr h1)
  rw [hmax]
  exact if_neg (not_lt.mpr h2)

/-- The three Euler angles of an orientation are computed by `atan` when the first
argument is above epsilon (roll, pitch). -/
theorem glm.roll_of_pos {α : Type} [LinearOrderedField α] [CMath α] (q : Quat α)
    (h : 1 / 3 < q.w * q.w + q.x * q.x - q.y * q.y - q.z * q.z) :
    glm.roll q = CMath.atan (2 * (q.x * q.y + q.w * q.z)
      / (q.w * q.w + q.x * q.x - q.y * q.y - q.z * q.z)) := by
  have he := glm.epsilon_lt (α := α)
  have hn : ¬ (|q.w * q.w + q.x * q.x - q.y * q.y - q.z * q.z - 0| ≤ glm.epsilon ∧
      |2 * (q.x * q.y + q.w * q.z) - 0| ≤ glm.epsilon) := by
    rintro ⟨h1, _⟩
    rw [sub_zero, abs_of_pos (by linarith)] at h1
    linarith
  exact (if_neg hn).trans (glm.atan2_of_pos _ _ (by linarith))

theorem glm.pitch_of_pos {α : Type} [LinearOrderedField α] [CMath α] (q : Quat α)
    (h : 1 / 3 < q.w * q.w - q.x * q.x - q.y * q.y + q.z * q.z) :
    glm.pitch q = CMath.atan (2 * (q.y * q.z + q.w * q.x)
      / (q.w * q.w - q.x * q.x - q.y * q.y + q.z * q.z)) := by
  have he := glm.epsilon_lt (α := α)
  have hn : ¬ (|q.w * q.w - q.x * q.x - q.y * q.y + q.z * q.z - 0| ≤ glm.epsilon ∧
      |2 * (q.y * q.z + q.w * q.x) - 0| ≤ glm.epsilon) := by
    rintro ⟨h1, _⟩
    rw [sub_zero, abs_of_pos (by linarith)] at h1
    linarith
  exact (if_neg hn).trans (glm.atan2_of_pos _ _ (by linarith))

theorem glm.eulerAngles_identity {α : Type} [LinearOrderedField α] [CMath α] :
    glm.eulerAngles (⟨1, 0, 0, 0⟩ : Quat α) = ⟨0, 0, 0⟩ := by
  have hp : glm.pitch (⟨1, 0, 0, 0⟩ : Quat α) = 0 := by
    rw [glm.pitch_of_pos _ (by show (1 : α) / 3 < 1 * 1 - 0 * 0 - 0 * 0 + 0 * 0; linarith)]
    show CMath.atan (2 * ((0 : α) * 0 + 1 * 0) / (1 * 1 - 0 * 0 - 0 * 0 + 0 * 0)) = 0
    rw [show (2 : α) * (0 * 0 + 1 * 0) / (1 * 1 - 0 * 0 - 0 * 0 + 0 * 0) = 0 by ring,
      CMath.atan_zero]
  have hr : glm.roll (⟨1, 0, 0, 0⟩ : Quat α) = 0 := by
    rw [glm.roll_of_pos _ (by show (1 : α) / 3 < 1 * 1 + 0 * 0 - 0 * 0 - 0 * 0; linarith)]
    show CMath.atan (2 * ((0 : α) * 0 + 1 * 0) / (1 * 1 + 0 * 0 - 0 * 0 - 0 * 0)) = 0
    rw [show (2 : α) * (0 * 0 + 1 * 0) / (1 * 1 + 0 * 0 - 0 * 0 - 0 * 0) = 0 by ring,
      CMath.atan_zero]
  have hy : glm.yaw (⟨1, 0, 0, 0⟩ : Quat α) = 0 := by
    show CMath.asin (glm.clamp (-2 * ((0 : α) * 0 - 1 * 0)) (-1) 1) = 0
    rw [show (-2 : α) * (0 * 0 - 1 * 0) = 0 by ring,
      glm.clamp_of_mem _ (by linarith) (by linarith), CMath.asin_zero]
  show (⟨glm.pitch _, glm.yaw _, glm.roll _⟩ : Vec3 α) = _
  rw [hp, hr, hy]

theorem glm.degrees_zero {α : Type} [LinearOrderedField α] [CMath α] :
    glm.degrees (0 : α) = 0 :=
  zero_mul _

theorem Aircraft.derivedHeading_identity {α : Type} [LinearOrderedField α] [FloorRing α]
    [CMath α] : Aircraft.derivedHeading (⟨1, 0, 0, 0⟩ : Quat α) = 0 := by
  rw [Aircraft.derivedHeading, glm.eulerAngles_identity, glm.degrees_zero,
    headingWrapUp_of_nonneg 0 le_rfl, headingWrapDown_of_lt 0 (by linarith)]

theorem glm.length_reset_velocity {α : Type} [LinearOrderedField α] [CMath α] :
    glm.length (⟨0, 0, 30⟩ : Vec3 α) = 30 := by
  show CMath.sqrt ((0 : α) * 0 + 0 * 0 + 30 * 30) = 30
  rw [show (0 : α) * 0 + 0 * 0 + 30 * 30 = 30 * 30 by ring]
  exact CMath.sqrt_mul_self_eq 30 (by linarith)

theorem Aircraft.Reset_state {α : Type} [LinearOrderedField α] [FloorRing α] [CMath α]
    (a : Aircraft α) :
    a.Reset.m_state =
      { position := ⟨0, 1000, 0⟩
        velocity := ⟨0, 0, 30⟩
        orientation := ⟨1, 0, 0, 0⟩
        angularVelocity := ⟨0, 0, 0⟩
        airspeed := 30
        altitude := 1000
        verticalSpeed := 0
        heading := 0
        pitch := 0
        roll := 0 } := by
  have hh := Aircraft.derivedHeading_identity (α := α)
  have he := glm.eulerAngles_identity (α := α)
  have hl := glm.length_reset_velocity (α := α)
  have hd := glm.degrees_zero (α := α)
  show ({ position := ⟨0, 1000, 0⟩
          velocity := ⟨0, 0, 30⟩
          orientation := ⟨1, 0, 0, 0⟩
          angularVelocity := ⟨0, 0, 0⟩
          airspeed := glm.length ⟨0, 0, 30⟩
          altitude := 1000
          verticalSpeed := 0
          heading := Aircraft.derivedHeading ⟨1, 0, 0, 0⟩
          pitch := glm.degrees (glm.eulerAngles ⟨1, 0, 0, 0⟩).x
          roll := glm.degrees (glm.eulerAngles ⟨1, 0, 0, 0⟩).z } : AircraftState α) = _
  rw [hh, he, hl, hd]

/-- C3. Reset is canonical and idempotent: from every aircraft (so from every reachable one)
`Reset` and `Initialize` yield exactly position (0,1000,0), velocity (0,0,30), identity
orientation, zero angular velocity, airspeed 30, altitude 1000, vertical speed 0 and
heading = pitch = roll = 0; and `Reset` after `Reset` is the same as one `Reset`. -/
theorem Aircraft.reset_canonical {α : Type} [LinearOrderedField α] [FloorRing α] [CMath α]
    (a : Aircraft α) :
    a.Reset.m_state =
      { position := ⟨0, 1000, 0⟩
        velocity := ⟨0, 0, 30⟩
        orientation := ⟨1, 0, 0, 0⟩
        angularVelocity := ⟨0, 0, 0⟩
        airspeed := 30
        altitude := 1000
        verticalSpeed := 0
        heading := 0
        pitch := 0
        roll := 0 } ∧
    a.Initialize.m_state =
      { position := ⟨0, 1000, 0⟩
        velocity := ⟨0, 0, 30⟩
        orientation := ⟨1, 0, 0, 0⟩
        angularVelocity := ⟨0, 0, 0⟩
        airspeed := 30
        altitude := 1000
        verticalSpeed := 0
        heading := 0
        pitch := 0
        roll := 0 } ∧
    a.Reset.Reset = a.Reset := by
  refine ⟨Aircraft.Reset_state a, Aircraft.Reset_state _, ?_⟩
  have h1 := Aircraft.Reset_state a
  have h2 := Aircraft.Reset_state a.Reset
  have h3 : a.Reset.Reset = { a.Reset with m_state := a.Reset.Reset.m_state } := rfl
  rw [h3, h2, ← h1]

/-! ## Derived fields -/

theorem glm.degrees_neg {α : Type} [LinearOrderedField α] [CMath α] (r : α) (h : r < 0) :
    glm.degrees r < 0 :=
  mul_neg_of_neg_of_pos h (div_pos (by linarith) CMath.pi_pos)

theorem glm.degrees_half_pi {α : Type} [LinearOrderedField α] [CMath α] :
    glm.degrees (CMath.pi / 2 : α) = 90 := by
  have hpi : (CMath.pi : α) ≠ 0 := ne_of_gt CMath.pi_pos
  show CMath.pi / 2 * (180 / CMath.pi) = (90 : α)
  field_simp
  ring

theorem glm.degrees_mono {α : Type} [LinearOrderedField α] [CMath α] (r s : α) (h : r ≤ s) :
    glm.degrees r ≤ glm.degrees s :=
  mul_le_mul_of_nonneg_right h (div_pos (by linarith) CMath.pi_pos).le

/-- On `[-1, 1]` the function `asin` takes values in `[-pi/2, pi/2]`. -/
theorem CMath.asin_range {α : Type} [LinearOrderedField α] [CMath α] (x : α) (h1 : -1 ≤ x)
    (h2 : x ≤ 1) : -(CMath.pi / 2) ≤ CMath.asin x ∧ CMath.asin x ≤ CMath.pi / 2 := by
  have hone : CMath.asin (1 : α) = CMath.pi / 2 := CMath.asin_one
  have hneg : CMath.asin (-1 : α) = -(CMath.pi / 2) := by rw [CMath.asin_neg, hone]
  constructor
  · rcases h1.lt_or_eq with h | h
    · have := CMath.asin_lt_asin (-1) x le_rfl h h2
      rw [hneg] at this
      exact this.le
    · rw [← h, hneg]
  · rcases h2.lt_or_eq with h | h
    · have := CMath.asin_lt_asin x 1 h1 h le_rfl
      rw [hone] at this
      exact this.le
    · rw [h, hone]

theorem glm.clamp_mem {α : Type} [LinearOrderedField α] (x : α) :
    -1 ≤ glm.clamp x (-1) 1 ∧ glm.clamp x (-1) 1 ≤ 1 := by
  show -1 ≤ glm.min (glm.max x (-1)) 1 ∧ glm.min (glm.max x (-1)) 1 ≤ 1
  have hmax : -1 ≤ glm.max x (-1) := by
    by_cases h : x < -1
    · have e : glm.max x (-1) = -1 := if_pos h
      exact e.ge
    · have e : glm.max x (-1) = x := if_neg h
      rw [e]
      exact not_lt.mp h
  by_cases h : 1 < glm.max x (-1)
  · have e : glm.min (glm.max x (-1)) 1 = 1 := if_pos h
    rw [e]
    exact ⟨by linarith, le_rfl⟩
  · have e : glm.min (glm.max x (-1)) 1 = glm.max x (-1) := if_neg h
    rw [e]
    exact ⟨hmax, not_lt.mp h⟩

/-- The Y Euler angle in degrees lies in `[-90, 90]`. -/
theorem glm.degrees_yaw_range {α : Type} [LinearOrderedField α] [CMath α] (q : Quat α) :
    -90 ≤ glm.degrees (glm.yaw q) ∧ glm.degrees (glm.yaw q) ≤ 90 := by
  obtain ⟨c1, c2⟩ := glm.clamp_mem (-2 * (q.x * q.z - q.w * q.y))
  obtain ⟨a1, a2⟩ := CMath.asin_range _ c1 c2
  have h2 : glm.degrees (-(CMath.pi / 2) : α) = -90 := by
    have h := glm.degrees_half_pi (α := α)
    show -(CMath.pi / 2) * (180 / CMath.pi) = (-90 : α)
    rw [neg_mul]
    exact congrArg Neg.neg h
  constructor
  · have h := glm.degrees_mono _ _ a1
    rw [h2] at h
    exact h
  · have h := glm.degrees_mono _ _ a2
    rw [glm.degrees_half_pi] at h
    exact h

/-- The heading that `UpdateDerivedValues` stores: the Y Euler angle in degrees, plus 360
when that is negative. -/
theorem Aircraft.derivedHeading_eq {α : Type} [LinearOrderedField α] [FloorRing α] [CMath α]
    (q : Quat α) :
    Aircraft.derivedHeading q =
      if 0 ≤ glm.degrees (glm.eulerAngles q).y then glm.degrees (glm.eulerAngles q).y
      else glm.degrees (glm.eulerAngles q).y + 360 := by
  have hr := glm.degrees_yaw_range q
  have hy : (glm.eulerAngles q).y = glm.yaw q := rfl
  rw [Aircraft.derivedHeading, hy]
  by_cases h : 0 ≤ glm.degrees (glm.yaw q)
  · rw [if_pos h, headingWrapUp_of_nonneg _ h, headingWrapDown_of_lt _ (by linarith)]
  · rw [if_neg h, headingWrapUp_of_neg _ (not_le.mp h),
      headingWrapUp_of_nonneg _ (by linarith), headingWrapDown_of_lt _ (by linarith [not_le.mp h])]

theorem Aircraft.UpdateDerivedValues_consistent {α : Type} [LinearOrderedField α]
    [FloorRing α] [CMath α] (a : Aircraft α) :
    a.UpdateDerivedValues.m_state.DerivedConsistent :=
  ⟨rfl, rfl, rfl, rfl, rfl, Aircraft.derivedHeading_eq _⟩

/-- After `SetOrientation` with the unit quaternion (4/5, 0, -3/5, 0) the heading is not the
degree conversion of the Y Euler angle: that angle is negative and the heading is not. -/
theorem Aircraft.heading_of_negative_yaw {α : Type} [LinearOrderedField α] [FloorRing α]
    [CMath α] :
    ((freshAircraft : Aircraft α).SetOrientation ⟨4 / 5, 0, -(3 / 5), 0⟩).m_state.heading ≠
      glm.degrees (glm.eulerAngles
        ((freshAircraft : Aircraft α).SetOrientation
          ⟨4 / 5, 0, -(3 / 5), 0⟩).m_state.orientation).y := by
  have hneg : glm.degrees (glm.eulerAngles (⟨4 / 5, 0, -(3 / 5), 0⟩ : Quat α)).y < 0 := by
    apply glm.degrees_neg
    show CMath.asin (glm.clamp (-2 * ((0 : α) * 0 - 4 / 5 * -(3 / 5))) (-1) 1) < 0
    have hv : (-2 : α) * (0 * 0 - 4 / 5 * -(3 / 5)) = -(24 / 25) := by ring
    rw [hv, glm.clamp_of_mem _ (by linarith) (by linarith)]
    have := CMath.asin_lt_asin (-(24 / 25) : α) 0 (by linarith) (by linarith) (by linarith)
    rwa [CMath.asin_zero] at this
  have hnn := (Aircraft.derivedHeading_range (⟨4 / 5, 0, -(3 / 5), 0⟩ : Quat α)).1
  intro h
  have h' : Aircraft.derivedHeading (⟨4 / 5, 0, -(3 / 5), 0⟩ : Quat α)
      = glm.degrees (glm.eulerAngles (⟨4 / 5, 0, -(3 / 5), 0⟩ : Quat α)).y := h
  linarith

/-- C4, as stated, fails: after `SetOrientation` with the unit quaternion
(4/5, 0, -3/5, 0) the heading is not the degree conversion of the Y Euler angle (that angle is
negative and the heading is 360 more). -/
theorem Aircraft.derived_heading_counterexample :
    ((freshAircraft : Aircraft ℝ).SetOrientation ⟨4 / 5, 0, -(3 / 5), 0⟩).m_state.heading ≠
      glm.degrees (glm.eulerAngles
        ((freshAircraft : Aircraft ℝ).SetOrientation
          ⟨4 / 5, 0, -(3 / 5), 0⟩).m_state.orientation).y :=
  Aircraft.heading_of_negative_yaw

/-- C4, amended. Derived fields are never stale: the freshly constructed state and the state
after each of `Update`, `Reset`, `SetPosition` and `SetOrientation` have airspeed = length of
the velocity, altitude = position.y, verticalSpeed = velocity.y, pitch and roll = the X and
Z Euler angles of the orientation in degrees, and heading = the Y Euler angle in degrees
wrapped into [0, 360): equal to it when it is non-negative and 360 more when it is negative. -/
theorem Aircraft.derived_never_stale {α : Type} [LinearOrderedField α] [FloorRing α] [CMath α]
    (a : Aircraft α) (deltaTime : α) (controls : ControlInputs α) (p : Vec3 α) (q : Quat α)
    (uninit : Mat3 α) :
    (Aircraft.new uninit).m_state.DerivedConsistent ∧
    (a.Update deltaTime controls).m_state.DerivedConsistent ∧
    a.Reset.m_state.DerivedConsistent ∧
    (a.SetPosition p).m_state.DerivedConsistent ∧
    (a.SetOrientation q).m_state.DerivedConsistent := by
  refine ⟨?_, Aircraft.UpdateDerivedValues_consistent _, Aircraft.UpdateDerivedValues_consistent _,
    Aircraft.UpdateDerivedValues_consistent _, Aircraft.UpdateDerivedValues_consistent _⟩
  have hl : glm.length (⟨0, 0, 0⟩ : Vec3 α) = 0 := by
    show CMath.sqrt ((0 : α) * 0 + 0 * 0 + 0 * 0) = 0
    rw [mul_zero, add_zero, add_zero, CMath.sqrt_zero]
  have he := glm.eulerAngles_identity (α := α)
  have hd := glm.degrees_zero (α := α)
  refine ⟨?_, rfl, rfl, ?_, ?_, ?_⟩
  · show (0 : α) = glm.length ⟨0, 0, 0⟩
    rw [hl]
  · show (0 : α) = glm.degrees (glm.eulerAngles ⟨1, 0, 0, 0⟩).x
    rw [he, hd]
  · show (0 : α) = glm.degrees (glm.eulerAngles ⟨1, 0, 0, 0⟩).z
    rw [he, hd]
  · show (0 : α) = if 0 ≤ glm.degrees (glm.eulerAngles ⟨1, 0, 0, 0⟩).y
      then glm.degrees (glm.eulerAngles ⟨1, 0, 0, 0⟩).y
      else glm.degrees (glm.eulerAngles ⟨1, 0, 0, 0⟩).y + 360
    have hy : glm.degrees (glm.eulerAngles (⟨1, 0, 0, 0⟩ : Quat α)).y = 0 := by rw [he, hd]
    rw [if_pos (le_of_eq hy.symm)]
    exact hy.symm

/-! ## The lift coefficient -/

theorem glm.stdClamp_eq {α : Type} [LinearOrderedField α] (v lo hi : α) (h : lo ≤ hi) :
    glm.stdClamp v lo hi = Max.max lo (Min.min v hi) := by
  by_cases h1 : v < lo
  · have e : glm.stdClamp v lo hi = lo := if_pos h1
    rw [e, max_eq_left]
    exact le_trans (min_le_left _ _) h1.le
  · by_cases h2 : hi < v
    · have e : glm.stdClamp v lo hi = hi := (if_neg h1).trans (if_pos h2)
      rw [e, min_eq_right h2.le, max_eq_right h]
    · have e : glm.stdClamp v lo hi = v := (if_neg h1).trans (if_neg h2)
      rw [e, min_eq_left (not_lt.mp h2), max_eq_right (not_lt.mp h1)]

/-- C6. Stall clamp: with `CLmax >= 0`, `CalculateLiftCoefficient(a, e)` is
`CL0 + CLa*a + CLde*e` clamped to `[-CLmax, CLmax]`; its absolute value is at most `CLmax`,
and it is the unclamped sum when that sum lies in `[-CLmax, CLmax]`. -/
theorem FlightDynamics.lift_coefficient_clamped {α : Type} [LinearOrderedField α]
    (d : FlightDynamics α) (angleOfAttack elevatorDeflection : α)
    (hmax : 0 ≤ d.m_aeroCoeffs.CLmax) :
    d.CalculateLiftCoefficient angleOfAttack elevatorDeflection =
        Max.max (-d.m_aeroCoeffs.CLmax)
          (Min.min (d.m_aeroCoeffs.CL0 + d.m_aeroCoeffs.CLa * angleOfAttack
            + d.m_aeroCoeffs.CLde * elevatorDeflection) d.m_aeroCoeffs.CLmax) ∧
    |d.CalculateLiftCoefficient angleOfAttack elevatorDeflection| ≤ d.m_aeroCoeffs.CLmax ∧
    (-d.m_aeroCoeffs.CLmax ≤ d.m_aeroCoeffs.CL0 + d.m_aeroCoeffs.CLa * angleOfAttack
          + d.m_aeroCoeffs.CLde * elevatorDeflection →
      d.m_aeroCoeffs.CL0 + d.m_aeroCoeffs.CLa * angleOfAttack
          + d.m_aeroCoeffs.CLde * elevatorDeflection ≤ d.m_aeroCoeffs.CLmax →
      d.CalculateLiftCoefficient angleOfAttack elevatorDeflection =
        d.m_aeroCoeffs.CL0 + d.m_aeroCoeffs.CLa * angleOfAttack
          + d.m_aeroCoeffs.CLde * elevatorDeflection) := by
  have hle : -d.m_aeroCoeffs.CLmax ≤ d.m_aeroCoeffs.CLmax := by linarith
  have heq : d.CalculateLiftCoefficient angleOfAttack elevatorDeflection =
      Max.max (-d.m_aeroCoeffs.CLmax)
        (Min.min (d.m_aeroCoeffs.CL0 + d.m_aeroCoeffs.CLa * angleOfAttack
          + d.m_aeroCoeffs.CLde * elevatorDeflection) d.m_aeroCoeffs.CLmax) :=
    glm.stdClamp_eq _ _ _ hle
  refine ⟨heq, ?_, ?_⟩
  · rw [heq, abs_le]
    exact ⟨le_max_left _ _, max_le hle (min_le_right _ _)⟩
  · intro h1 h2
    rw [heq, min_eq_left h2, max_eq_right h1]

theorem FlightDynamics.lift_coefficient_clamped_witness :
    (0 : ℝ) ≤ (FlightDynamics.new (⟨0, 0, 0, 0, 0, 0, 0, 0, 0⟩ : Mat3 ℝ)).m_aeroCoeffs.CLmax ∧
      |(FlightDynamics.new (⟨0, 0, 0, 0, 0, 0, 0, 0, 0⟩ : Mat3 ℝ)).CalculateLiftCoefficient
          100 (-50)|
        ≤ (FlightDynamics.new (⟨0, 0, 0, 0, 0, 0, 0, 0, 0⟩ : Mat3 ℝ)).m_aeroCoeffs.CLmax :=
  have h : (0 : ℝ) ≤
      (FlightDynamics.new (⟨0, 0, 0, 0, 0, 0, 0, 0, 0⟩ : Mat3 ℝ)).m_aeroCoeffs.CLmax := by
    show (0 : ℝ) ≤ 14 / 10
    norm_num
  ⟨h, (FlightDynamics.lift_coefficient_clamped _ 100 (-50) h).2.1⟩

/-! ## A step of zero duration -/

theorem Aircraft.integratedAngularVelocity_zero_dt {α : Type} [LinearOrderedField α]
    (a : Aircraft α) (torques : Vec3 α) :
    a.integratedAngularVelocity 0 torques = a.m_state.angularVelocity := by
  show (⟨a.m_state.angularVelocity.x + _ * 0, a.m_state.angularVelocity.y + _ * 0,
    a.m_state.angularVelocity.z + _ * 0⟩ : Vec3 α) = _
  rw [mul_zero, mul_zero, mul_zero, add_zero, add_zero, add_zero]

theorem glm.qadd_qscale_zero {α : Type} [LinearOrderedField α] (q p : Quat α) :
    glm.qadd q (glm.qscale p 0) = q := by
  show (⟨q.w + p.w * 0, q.x + p.x * 0, q.y + p.y * 0, q.z + p.z * 0⟩ : Quat α) = q
  rw [mul_zero, mul_zero, mul_zero, mul_zero, add_zero, add_zero, add_zero, add_zero]

/-- A zero step: position and velocity are kept when `position.y >= 0`, the orientation is
kept when it is a unit quaternion, and the angular velocity is multiplied by 0.99. -/
theorem Aircraft.Update_zero {α : Type} [LinearOrderedField α] [FloorRing α] [CMath α]
    (a : Aircraft α) (controls : ControlInputs α) :
    (0 ≤ a.m_state.position.y →
      (a.Update 0 controls).m_state.position = a.m_state.position ∧
      (a.Update 0 controls).m_state.velocity = a.m_state.velocity) ∧
    (glm.qlength a.m_state.orientation = 1 →
      (a.Update 0 controls).m_state.orientation = a.m_state.orientation) ∧
    (a.Update 0 controls).m_state.angularVelocity
      = glm.vscale a.m_state.angularVelocity (99 / 100) := by
  obtain ⟨hp, hv, hw, _⟩ := Aircraft.Update_state a 0 controls
  refine ⟨fun hy => ?_, fun hunit => ?_, ?_⟩
  · rw [hp, hv, Aircraft.integratedPosition_zero_dt, Aircraft.integratedVelocity_zero_dt,
      if_neg (not_lt.mpr hy), if_neg (not_lt.mpr hy)]
    exact ⟨rfl, rfl⟩
  · show glm.normalize (glm.qadd a.m_state.orientation (glm.qscale _ 0)) = _
    rw [glm.qadd_qscale_zero, glm.normalize_of_unit _ hunit]
  · rw [hw, Aircraft.integratedAngularVelocity_zero_dt]

/-- A zero step on the aircraft with angular velocity (1, 0, 0) leaves the angular
velocity (0.99, 0, 0). -/
theorem spinningAircraft_zero_step {α : Type} [LinearOrderedField α] [FloorRing α] [CMath α] :
    ((spinningAircraft : Aircraft α).Update 0 ControlInputs.initial).m_state.angularVelocity
      = ⟨99 / 100, 0, 0⟩ ∧
    ((spinningAircraft : Aircraft α).Update 0 ControlInputs.initial).m_state.angularVelocity ≠
      (spinningAircraft : Aircraft α).m_state.angularVelocity := by
  have h : ((spinningAircraft : Aircraft α).Update 0
      ControlInputs.initial).m_state.angularVelocity = ⟨99 / 100, 0, 0⟩ := by
    rw [(Aircraft.Update_zero _ _).2.2]
    show (⟨1 * (99 / 100), 0 * (99 / 100), 0 * (99 / 100)⟩ : Vec3 α) = _
    rw [one_mul, zero_mul]
  refine ⟨h, ?_⟩
  rw [h]
  intro hc
  have hx : (99 / 100 : α) = 1 := congrArg Vec3.x hc
  linarith

/-- C7, as stated, fails: a zero step on an aircraft with angular velocity (1, 0, 0) leaves
the angular velocity (0.99, 0, 0), not (1, 0, 0). -/
theorem Aircraft.zero_step_counterexample :
    ((spinningAircraft : Aircraft ℝ).Update 0 ControlInputs.initial).m_state.angularVelocity
      = ⟨99 / 100, 0, 0⟩ ∧
    ((spinningAircraft : Aircraft ℝ).Update 0 ControlInputs.initial).m_state.angularVelocity ≠
      (spinningAircraft : Aircraft ℝ).m_state.angularVelocity :=
  spinningAircraft_zero_step

/-- C7, amended. A zero step on a state with unit orientation and `position.y >= 0` leaves
position, velocity and orientation unchanged and multiplies the angular velocity by 0.99 (so
the angular velocity is unchanged when it is zero). -/
theorem Aircraft.zero_step_effect {α : Type} [LinearOrderedField α] [FloorRing α] [CMath α]
    (a : Aircraft α) (controls : ControlInputs α)
    (hunit : glm.qlength a.m_state.orientation = 1) (hy : 0 ≤ a.m_state.position.y) :
    (a.Update 0 controls).m_state.position = a.m_state.position ∧
    (a.Update 0 controls).m_state.velocity = a.m_state.velocity ∧
    (a.Update 0 controls).m_state.orientation = a.m_state.orientation ∧
    (a.Update 0 controls).m_state.angularVelocity
      = glm.vscale a.m_state.angularVelocity (99 / 100) ∧
    (a.m_state.angularVelocity = ⟨0, 0, 0⟩ →
      (a.Update 0 controls).m_state.angularVelocity = a.m_state.angularVelocity) := by
  obtain ⟨h1, h2, h3⟩ := Aircraft.Update_zero a controls
  refine ⟨(h1 hy).1, (h1 hy).2, h2 hunit, h3, ?_⟩
  intro h0
  rw [h3, h0]
  show (⟨0 * (99 / 100), 0 * (99 / 100), 0 * (99 / 100)⟩ : Vec3 α) = _
  rw [zero_mul]

theorem Aircraft.zero_step_effect_witness :
    glm.qlength (spinningAircraft : Aircraft ℝ).m_state.orientation = 1 ∧
    0 ≤ (spinningAircraft : Aircraft ℝ).m_state.position.y ∧
    ((spinningAircraft : Aircraft ℝ).Update 0 fullAileron).m_state.position
      = (spinningAircraft : Aircraft ℝ).m_state.position :=
  have h1 : glm.qlength (spinningAircraft : Aircraft ℝ).m_state.orientation = 1 :=
    glm.qlength_identity
  have h2 : 0 ≤ (spinningAircraft : Aircraft ℝ).m_state.position.y := by
    show (0 : ℝ) ≤ 1000
    norm_num
  ⟨h1, h2, (Aircraft.zero_step_effect spinningAircraft fullAileron h1 h2).1⟩

/-! ## Flight with the orientation about the world Y axis -/

theorem glm.rotate_y_of_aboutY {α : Type} [LinearOrderedField α] (q : Quat α) (v : Vec3 α)
    (hx : q.x = 0) (hz : q.z = 0) : (glm.rotate q v).y = v.y := by
  show v.y + ((q.z * v.x - v.z * q.x) * q.w
    + (q.z * (q.y * v.z - v.y * q.z) - (q.x * v.y - v.x * q.y) * q.x)) * 2 = v.y
  rw [hx, hz]
  ring

theorem Aircraft.netForce_y {α : Type} [LinearOrderedField α] [CMath α] (a : Aircraft α)
    (controls : ControlInputs α) (hx : a.m_state.orientation.x = 0)
    (hz : a.m_state.orientation.z = 0) (hr : controls.rudder = 0) :
    (a.netForce controls).y = -a.m_dynamics.m_mass * (981 / 100) := by
  show (glm.rotate a.m_state.orientation _).y + -a.m_dynamics.m_mass * (981 / 100)
    + (glm.rotate a.m_state.orientation ⟨0, 0, 1⟩).y * (controls.throttle * a.m_maxThrust) = _
  rw [glm.rotate_y_of_aboutY _ _ hx hz, glm.rotate_y_of_aboutY _ _ hx hz]
  show a.m_dynamics.m_aeroCoeffs.Cydr * controls.rudder * _ * _
    + -a.m_dynamics.m_mass * (981 / 100) + 0 * (controls.throttle * a.m_maxThrust) = _
  rw [hr]
  ring

theorem glm.normalize_xz_of_zero {α : Type} [LinearOrderedField α] [CMath α] (q : Quat α)
    (hx : q.x = 0) (hz : q.z = 0) : (glm.normalize q).x = 0 ∧ (glm.normalize q).z = 0 := by
  rcases le_or_lt (glm.qlength q) 0 with h | h
  · rw [glm.normalize_of_nonpos q h]
    exact ⟨rfl, rfl⟩
  · rw [glm.normalize_of_pos q h]
    show q.x * _ = 0 ∧ q.z * _ = 0
    rw [hx, hz, zero_mul]
    exact ⟨rfl, rfl⟩

/-- With the constructor's inertia tensor, without aileron and rudder, an angular velocity
along Y stays along Y in the integration. -/
theorem Aircraft.integratedAngularVelocity_xz {α : Type} [LinearOrderedField α] [CMath α]
    (a : Aircraft α) (deltaTime : α) (controls : ControlInputs α)
    (hI : a.m_inertiaTensor = ⟨2000, 0, 0, 0, 3000, 0, 0, 0, 4000⟩)
    (hwx : a.m_state.angularVelocity.x = 0) (hwz : a.m_state.angularVelocity.z = 0)
    (ha : controls.aileron = 0) (hr : controls.rudder = 0) :
    (a.integratedAngularVelocity deltaTime
      (a.m_dynamics.CalculateForces a.m_state controls).2).x = 0 ∧
    (a.integratedAngularVelocity deltaTime
      (a.m_dynamics.CalculateForces a.m_state controls).2).z = 0 := by
  have hτx : (a.m_dynamics.CalculateForces a.m_state controls).2.x = 0 := by
    show a.m_dynamics.m_aeroCoeffs.Clda * controls.aileron * _ * _ * _ = 0
    rw [ha, mul_zero, zero_mul, zero_mul, zero_mul]
  have hτz : (a.m_dynamics.CalculateForces a.m_state controls).2.z = 0 := by
    show a.m_dynamics.m_aeroCoeffs.Cndr * controls.rudder * _ * _ * _ = 0
    rw [hr, mul_zero, zero_mul, zero_mul, zero_mul]
  unfold Aircraft.integratedAngularVelocity
  rw [hI]
  simp only [glm.vadd, glm.vscale, glm.mmulVec, glm.minverse, hτx, hτz, hwx, hwz]
  constructor <;> ring

theorem Aircraft.AboutY_Update {α : Type} [LinearOrderedField α] [FloorRing α] [CMath α]
    (a : Aircraft α) (deltaTime : α) (controls : ControlInputs α)
    (hI : a.m_inertiaTensor = ⟨2000, 0, 0, 0, 3000, 0, 0, 0, 4000⟩)
    (hY : a.m_state.AboutY) (ha : controls.aileron = 0) (hr : controls.rudder = 0) :
    (a.Update deltaTime controls).m_state.AboutY := by
  obtain ⟨hx, hz, hwx, hwz⟩ := hY
  obtain ⟨hix, hiz⟩ :=
    Aircraft.integratedAngularVelocity_xz a deltaTime controls hI hwx hwz ha hr
  have hq : (a.Update deltaTime controls).m_state.orientation =
      glm.normalize (glm.qadd a.m_state.orientation (glm.qscale (glm.qmul (glm.qscale
        ⟨0, (a.integratedAngularVelocity deltaTime
              (a.m_dynamics.CalculateForces a.m_state controls).2).x,
            (a.integratedAngularVelocity deltaTime
              (a.m_dynamics.CalculateForces a.m_state controls).2).y,
            (a.integratedAngularVelocity deltaTime
              (a.m_dynamics.CalculateForces a.m_state controls).2).z⟩ (1 / 2))
        a.m_state.orientation) deltaTime)) := rfl
  have hn := glm.normalize_xz_of_zero
    (glm.qadd a.m_state.orientation (glm.qscale (glm.qmul (glm.qscale
        ⟨0, (a.integratedAngularVelocity deltaTime
              (a.m_dynamics.CalculateForces a.m_state controls).2).x,
            (a.integratedAngularVelocity deltaTime
              (a.m_dynamics.CalculateForces a.m_state controls).2).y,
            (a.integratedAngularVelocity deltaTime
              (a.m_dynamics.CalculateForces a.m_state controls).2).z⟩ (1 / 2))
        a.m_state.orientation) deltaTime))
    (by simp only [glm.qadd, glm.qscale, glm.qmul, hix, hiz, hx, hz]; ring)
    (by simp only [glm.qadd, glm.qscale, glm.qmul, hix, hiz, hx, hz]; ring)
  have hω := (Aircraft.Update_state a deltaTime controls).2.2.1
  refine ⟨?_, ?_, ?_, ?_⟩
  · rw [hq]
    exact hn.1
  · rw [hq]
    exact hn.2
  · rw [hω]
    show _ * (99 / 100) = (0 : α)
    rw [hix, zero_mul]
  · rw [hω]
    show _ * (99 / 100) = (0 : α)
    rw [hiz, zero_mul]

/-- The vertical part of one step in flight about the Y axis without rudder: the integrated
vertical velocity is the old one minus `9.81 * deltaTime`, and the integrated height follows
from it. -/
theorem Aircraft.integrated_y {α : Type} [LinearOrderedField α] [CMath α] (a : Aircraft α)
    (deltaTime : α) (controls : ControlInputs α) (hpar : a.HasConstructorMass)
    (hY : a.m_state.AboutY) (hr : controls.rudder = 0) :
    (a.integratedVelocity deltaTime (a.netForce controls)).y =
      a.m_state.velocity.y - 981 / 100 * deltaTime ∧
    (a.integratedPosition deltaTime (a.netForce controls)).y =
      a.m_state.position.y + (a.m_state.velocity.y - 981 / 100 * deltaTime) * deltaTime := by
  obtain ⟨hm, hdm, _⟩ := hpar
  have hF := Aircraft.netForce_y a controls hY.1 hY.2.1 hr
  have hv : (a.integratedVelocity deltaTime (a.netForce controls)).y =
      a.m_state.velocity.y - 981 / 100 * deltaTime := by
    show a.m_state.velocity.y + (a.netForce controls).y / a.m_mass * deltaTime = _
    rw [hF, hm, hdm]
    ring
  refine ⟨hv, ?_⟩
  show a.m_state.position.y
    + (a.integratedVelocity deltaTime (a.netForce controls)).y * deltaTime = _
  rw [hv]

/-! ## Falling: the vertical motion without rudder and aileron -/

theorem Aircraft.UpdateN_add {α : Type} [LinearOrderedField α] [FloorRing α] [CMath α]
    (a : Aircraft α) (deltaTime : α) (controls : ControlInputs α) (n m : ℕ) :
    a.UpdateN deltaTime controls (n + m) =
      (a.UpdateN deltaTime controls n).UpdateN deltaTime controls m := by
  induction m with
  | zero => rfl
  | succ m ih =>
    show (a.UpdateN deltaTime controls (n + m)).Update deltaTime controls = _
    rw [ih]
    rfl

/-- One step of a fall. From a state about the Y axis, with the constructor masses, a
vertical velocity that is not upward and a positive time step, a step without aileron and
rudder keeps all that; when the ground check does not fire the height changes by
`(velocity.y - 9.81 dt) dt` and the vertical velocity by `-9.81 dt`, when it fires both
become 0. -/
theorem Aircraft.fall_step {α : Type} [LinearOrderedField α] [FloorRing α] [CMath α]
    (a : Aircraft α) (deltaTime : α) (controls : ControlInputs α)
    (hpar : a.HasConstructorMass) (hY : a.m_state.AboutY) (hv : a.m_state.velocity.y ≤ 0)
    (hdt : 0 < deltaTime) (ha : controls.aileron = 0) (hr : controls.rudder = 0) :
    (a.Update deltaTime controls).HasConstructorMass ∧
    (a.Update deltaTime controls).m_state.AboutY ∧
    (a.Update deltaTime controls).m_state.velocity.y ≤ 0 ∧
    (¬ a.ClampEngages deltaTime controls →
      (a.Update deltaTime controls).m_state.position.y =
        a.m_state.position.y + (a.m_state.velocity.y - 981 / 100 * deltaTime) * deltaTime ∧
      (a.Update deltaTime controls).m_state.velocity.y =
        a.m_state.velocity.y - 981 / 100 * deltaTime) ∧
    (a.ClampEngages deltaTime controls →
      (a.Update deltaTime controls).m_state.position.y = 0 ∧
      (a.Update deltaTime controls).m_state.velocity.y = 0) := by
  obtain ⟨hvy, hpy⟩ := Aircraft.integrated_y a deltaTime controls hpar hY hr
  have hneg : a.m_state.velocity.y - 981 / 100 * deltaTime < 0 := by nlinarith
  obtain ⟨hP, hV, _, _⟩ := Aircraft.Update_state a deltaTime controls
  have hmax : glm.stdMax 0 (a.integratedVelocity deltaTime (a.netForce controls)).y = 0 := by
    rw [hvy, glm.stdMax_eq_max, max_eq_left hneg.le]
  refine ⟨hpar, Aircraft.AboutY_Update a deltaTime controls hpar.2.2 hY ha hr, ?_, ?_, ?_⟩
  · by_cases h : (a.integratedPosition deltaTime (a.netForce controls)).y < 0
    · rw [hV, if_pos h]
      exact le_of_eq hmax
    · rw [hV, if_neg h, hvy]
      exact hneg.le
  · intro h
    have h' : ¬ (a.integratedPosition deltaTime (a.netForce controls)).y < 0 := h
    rw [hP, hV, if_neg h', if_neg h', hvy, hpy]
    exact ⟨rfl, rfl⟩
  · intro h
    have h' : (a.integratedPosition deltaTime (a.netForce controls)).y < 0 := h
    rw [hP, hV, if_pos h', if_pos h']
    exact ⟨rfl, hmax⟩

/-- The invariants of a fall hold after any number of steps. -/
theorem Aircraft.fall_invariant {α : Type} [LinearOrderedField α] [FloorRing α] [CMath α]
    (a : Aircraft α) (deltaTime : α) (controls : ControlInputs α)
    (hpar : a.HasConstructorMass) (hY : a.m_state.AboutY) (hv : a.m_state.velocity.y ≤ 0)
    (hdt : 0 < deltaTime) (ha : controls.aileron = 0) (hr : controls.rudder = 0) (n : ℕ) :
    (a.UpdateN deltaTime controls n).HasConstructorMass ∧
    (a.UpdateN deltaTime controls n).m_state.AboutY ∧
    (a.UpdateN deltaTime controls n).m_state.velocity.y ≤ 0 := by
  induction n with
  | zero => exact ⟨hpar, hY, hv⟩
  | succ n ih =>
    obtain ⟨i1, i2, i3⟩ := ih
    have h := Aircraft.fall_step _ deltaTime controls i1 i2 i3 hdt ha hr
    exact ⟨h.1, h.2.1, h.2.2.1⟩

/-- Once on the ground, always on the ground: from height 0 in a fall, every later state has
height 0 and vertical velocity 0. -/
theorem Aircraft.fall_grounded {α : Type} [LinearOrderedField α] [FloorRing α] [CMath α]
    (a : Aircraft α) (deltaTime : α) (controls : ControlInputs α)
    (hpar : a.HasConstructorMass) (hY : a.m_state.AboutY)
    (hy : a.m_state.position.y = 0) (hv : a.m_state.velocity.y = 0)
    (hdt : 0 < deltaTime) (ha : controls.aileron = 0) (hr : controls.rudder = 0) (m : ℕ) :
    (a.UpdateN deltaTime controls m).m_state.position.y = 0 ∧
    (a.UpdateN deltaTime controls m).m_state.velocity.y = 0 := by
  induction m with
  | zero => exact ⟨hy, hv⟩
  | succ m ih =>
    obtain ⟨i1, i2, _⟩ := Aircraft.fall_invariant a deltaTime controls hpar hY hv.le hdt ha hr m
    have hstep := Aircraft.fall_step _ deltaTime controls i1 i2 ih.2.le hdt ha hr
    have heng : (a.UpdateN deltaTime controls m).ClampEngages deltaTime controls := by
      show (Aircraft.integratedPosition _ deltaTime _).y < 0
      rw [(Aircraft.integrated_y _ deltaTime controls i1 i2 hr).2, ih.1, ih.2]
      nlinarith
    exact hstep.2.2.2.2 heng

/-- Closed form of a fall that starts with no vertical velocity: while the closed-form
height `y0 - 9.81 dt^2 n(n+1)/2` is not negative, it is the height after `n` steps, and the
vertical velocity is `-9.81 n dt`. -/
theorem Aircraft.fall_closed_form {α : Type} [LinearOrderedField α] [FloorRing α] [CMath α]
    (a : Aircraft α) (deltaTime : α) (controls : ControlInputs α)
    (hpar : a.HasConstructorMass) (hY : a.m_state.AboutY) (hv : a.m_state.velocity.y = 0)
    (hdt : 0 < deltaTime) (ha : controls.aileron = 0) (hr : controls.rudder = 0) (n : ℕ)
    (hn : 0 ≤ a.m_state.position.y - 981 / 100 * deltaTime * deltaTime * (n * (n + 1) / 2)) :
    (a.UpdateN deltaTime controls n).m_state.position.y =
        a.m_state.position.y - 981 / 100 * deltaTime * deltaTime * (n * (n + 1) / 2) ∧
    (a.UpdateN deltaTime controls n).m_state.velocity.y = -(981 / 100) * n * deltaTime := by
  induction n with
  | zero =>
    show a.m_state.position.y = _ ∧ a.m_state.velocity.y = _
    rw [hv, Nat.cast_zero]
    constructor <;> ring
  | succ n ih =>
    have hsq : 0 < deltaTime * deltaTime := mul_pos hdt hdt
    have hnn : (0 : α) ≤ n := Nat.cast_nonneg n
    rw [Nat.cast_succ] at hn
    have hn' : 0 ≤ a.m_state.position.y
        - 981 / 100 * deltaTime * deltaTime * (n * (n + 1) / 2) := by
      nlinarith
    obtain ⟨ihp, ihv⟩ := ih hn'
    obtain ⟨i1, i2, i3⟩ := Aircraft.fall_invariant a deltaTime controls hpar hY hv.le hdt ha hr n
    have hne : ¬ (a.UpdateN deltaTime controls n).ClampEngages deltaTime controls := by
      show ¬ (Aircraft.integratedPosition _ deltaTime _).y < 0
      rw [(Aircraft.integrated_y _ deltaTime controls i1 i2 hr).2, ihp, ihv, not_lt]
      nlinarith
    have hstep := (Aircraft.fall_step _ deltaTime controls i1 i2 i3 hdt ha hr).2.2.2.1 hne
    show ((a.UpdateN deltaTime controls n).Update deltaTime controls).m_state.position.y = _ ∧
      ((a.UpdateN deltaTime controls n).Update deltaTime controls).m_state.velocity.y = _
    rw [hstep.1, hstep.2, ihp, ihv, Nat.cast_succ]
    constructor <;> ring

/-! ## The first step from rest -/

theorem glm.rotate_zero {α : Type} [LinearOrderedField α] (q : Quat α) :
    glm.rotate q ⟨0, 0, 0⟩ = ⟨0, 0, 0⟩ := by
  simp only [glm.rotate, glm.cross, glm.vadd, glm.vscale]
  ext <;> ring

theorem glm.rotate_identity {α : Type} [LinearOrderedField α] (v : Vec3 α) :
    glm.rotate ⟨1, 0, 0, 0⟩ v = v := by
  simp only [glm.rotate, glm.cross, glm.vadd, glm.vscale]
  ext <;> ring

theorem FlightDynamics.GetDynamicPressure_of_rest {α : Type} [LinearOrderedField α] [CMath α]
    (d : FlightDynamics α) (s : AircraftState α) (hv : s.velocity = ⟨0, 0, 0⟩) :
    d.GetDynamicPressure s = 0 := by
  have hl : glm.length s.velocity = 0 := by
    rw [hv]
    show CMath.sqrt ((0 : α) * 0 + 0 * 0 + 0 * 0) = 0
    rw [mul_zero, add_zero, add_zero, CMath.sqrt_zero]
  show 1 / 2 * d.GetAirDensity s.altitude * glm.length s.velocity * glm.length s.velocity = 0
  rw [hl, mul_zero]

/-- At rest there is no aerodynamic force and no aerodynamic torque, and without throttle
the net force is the weight. -/
theorem Aircraft.forces_of_rest {α : Type} [LinearOrderedField α] [CMath α] (a : Aircraft α)
    (c : ControlInputs α) (hv : a.m_state.velocity = ⟨0, 0, 0⟩) :
    (a.m_dynamics.CalculateForces a.m_state c).2 = ⟨0, 0, 0⟩ ∧
    (c.throttle = 0 → a.netForce c = ⟨0, -a.m_dynamics.m_mass * (981 / 100), 0⟩) := by
  have hQ := FlightDynamics.GetDynamicPressure_of_rest a.m_dynamics a.m_state hv
  constructor
  · show a.m_dynamics.CalculateAerodynamicTorques a.m_state c = _
    simp only [FlightDynamics.CalculateAerodynamicTorques, hQ, mul_zero, zero_mul]
  · intro ht
    have hA : a.m_dynamics.CalculateAerodynamicForces a.m_state c = ⟨0, 0, 0⟩ := by
      simp only [FlightDynamics.CalculateAerodynamicForces, FlightDynamics.BodyToWorld, hQ,
        mul_zero, zero_mul, neg_zero]
      exact glm.rotate_zero _
    show glm.vadd (glm.vadd (a.m_dynamics.CalculateAerodynamicForces a.m_state c)
      (a.m_dynamics.CalculateGravityForce a.m_state))
      (a.m_dynamics.CalculateThrustForce a.m_state c.throttle a.m_maxThrust) = _
    rw [hA]
    simp only [FlightDynamics.CalculateThrustForce, FlightDynamics.CalculateGravityForce, ht,
      glm.vadd, glm.vscale, zero_mul, mul_zero, add_zero, zero_add]

/-- The integrated velocity and position of a step from rest without throttle. -/
theorem Aircraft.integrated_of_rest {α : Type} [LinearOrderedField α] [CMath α]
    (a : Aircraft α) (deltaTime : α) (c : ControlInputs α) (hpar : a.HasConstructorMass)
    (hv : a.m_state.velocity = ⟨0, 0, 0⟩) (ht : c.throttle = 0) :
    a.integratedVelocity deltaTime (a.netForce c) = ⟨0, -(981 / 100 * deltaTime), 0⟩ ∧
    a.integratedPosition deltaTime (a.netForce c) =
      ⟨a.m_state.position.x, a.m_state.position.y - 981 / 100 * deltaTime * deltaTime,
        a.m_state.position.z⟩ := by
  obtain ⟨hm, hdm, _⟩ := hpar
  have hV : a.integratedVelocity deltaTime (a.netForce c) = ⟨0, -(981 / 100 * deltaTime), 0⟩ := by
    rw [(Aircraft.forces_of_rest a c hv).2 ht]
    unfold Aircraft.integratedVelocity
    rw [hv, hm, hdm]
    simp only [glm.vadd, glm.vscale, glm.vdiv]
    ext <;> ring
  refine ⟨hV, ?_⟩
  unfold Aircraft.integratedPosition
  rw [hV]
  simp only [glm.vadd, glm.vscale]
  ext <;> ring

/-- From rest, with zero angular velocity and a unit orientation, a step leaves the
orientation and the (zero) angular velocity as they are; without throttle, if it stays above
ground, it ends with velocity `(0, -9.81 dt, 0)` and the height lowered by `9.81 dt^2`. -/
theorem Aircraft.Update_of_rest {α : Type} [LinearOrderedField α] [FloorRing α] [CMath α]
    (a : Aircraft α) (deltaTime : α) (c : ControlInputs α)
    (hv : a.m_state.velocity = ⟨0, 0, 0⟩) :
    (a.m_state.angularVelocity = ⟨0, 0, 0⟩ → glm.qlength a.m_state.orientation = 1 →
      (a.Update deltaTime c).m_state.orientation = a.m_state.orientation ∧
      (a.Update deltaTime c).m_state.angularVelocity = ⟨0, 0, 0⟩) ∧
    (a.HasConstructorMass → c.throttle = 0 →
      0 ≤ a.m_state.position.y - 981 / 100 * deltaTime * deltaTime →
      (a.Update deltaTime c).m_state.velocity = ⟨0, -(981 / 100 * deltaTime), 0⟩ ∧
      (a.Update deltaTime c).m_state.position =
        ⟨a.m_state.position.x, a.m_state.position.y - 981 / 100 * deltaTime * deltaTime,
          a.m_state.position.z⟩) := by
  obtain ⟨hP, hV, hW, _⟩ := Aircraft.Update_state a deltaTime c
  have hτ := (Aircraft.forces_of_rest a c hv).1
  constructor
  · intro hw hq
    have hi : a.integratedAngularVelocity deltaTime
        (a.m_dynamics.CalculateForces a.m_state c).2 = ⟨0, 0, 0⟩ := by
      rw [hτ]
      unfold Aircraft.integratedAngularVelocity
      rw [hw]
      simp only [glm.vadd, glm.vscale, glm.mmulVec]
      ext <;> ring
    constructor
    · show glm.normalize (glm.qadd a.m_state.orientation (glm.qscale (glm.qmul (glm.qscale
        ⟨0, (a.integratedAngularVelocity deltaTime
              (a.m_dynamics.CalculateForces a.m_state c).2).x,
            (a.integratedAngularVelocity deltaTime
              (a.m_dynamics.CalculateForces a.m_state c).2).y,
            (a.integratedAngularVelocity deltaTime
              (a.m_dynamics.CalculateForces a.m_state c).2).z⟩ (1 / 2))
        a.m_state.orientation) deltaTime)) = _
      rw [hi]
      have h : glm.qadd a.m_state.orientation (glm.qscale (glm.qmul (glm.qscale
          (⟨0, 0, 0, 0⟩ : Quat α) (1 / 2)) a.m_state.orientation) deltaTime)
          = a.m_state.orientation := by
        simp only [glm.qadd, glm.qscale, glm.qmul]
        ext <;> ring
      rw [h, glm.normalize_of_unit _ hq]
    · rw [hW, hi]
      simp only [glm.vscale]
      ext <;> ring
  · intro hpar ht hy
    obtain ⟨hvel, hp⟩ := Aircraft.integrated_of_rest a deltaTime c hpar hv ht
    have hnot : ¬ (a.integratedPosition deltaTime (a.netForce c)).y < 0 := by
      rw [hp]
      exact not_lt.mpr hy
    rw [hV, hP, if_neg hnot, if_neg hnot]
    exact ⟨hvel, hp⟩

/-! ## The aerodynamic force at the identity orientation -/

theorem FlightDynamics.GetDynamicPressure_pos {α : Type} [LinearOrderedField α] [CMath α]
    (d : FlightDynamics α) (s : AircraftState α) (hv : 0 < glm.vdot s.velocity s.velocity) :
    0 < d.GetDynamicPressure s := by
  have hl : 0 < glm.length s.velocity := CMath.sqrt_pos _ hv
  have hd : 0 < d.GetAirDensity s.altitude :=
    mul_pos (div_pos (by linarith) (by linarith)) (CMath.exp_pos _)
  show 0 < 1 / 2 * d.GetAirDensity s.altitude * glm.length s.velocity * glm.length s.velocity
  exact mul_pos (mul_pos (mul_pos (by linarith) hd) hl) hl

theorem Aircraft.netForce_x_of_identity {α : Type} [LinearOrderedField α] [CMath α]
    (a : Aircraft α) (c : ControlInputs α) (hq : a.m_state.orientation = ⟨1, 0, 0, 0⟩) :
    (a.netForce c).x =
      -(a.m_dynamics.CalculateDragCoefficient
          (a.m_dynamics.CalculateLiftCoefficient (a.m_dynamics.GetAngleOfAttack a.m_state)
            c.elevator)
        * a.m_dynamics.GetDynamicPressure a.m_state * a.m_dynamics.m_wingArea) := by
  unfold Aircraft.netForce FlightDynamics.CalculateForces FlightDynamics.CalculateThrustForce
    FlightDynamics.CalculateAerodynamicForces FlightDynamics.CalculateGravityForce
    FlightDynamics.BodyToWorld
  simp only [hq, glm.rotate_identity, glm.vadd, glm.vscale]
  ring

theorem FlightDynamics.CalculateDragCoefficient_pos {α : Type} [LinearOrderedField α]
    (d : FlightDynamics α) (cl : α) (h0 : 0 < d.m_aeroCoeffs.CD0)
    (hi : 0 ≤ d.m_aeroCoeffs.CDi) : 0 < d.CalculateDragCoefficient cl := by
  have : 0 ≤ d.m_aeroCoeffs.CDi * cl * cl := by
    rw [mul_assoc]
    exact mul_nonneg hi (mul_self_nonneg cl)
  show 0 < d.m_aeroCoeffs.CD0 + d.m_aeroCoeffs.CDi * cl * cl
  linarith

theorem freshAircraft_mass {α : Type} [LinearOrderedField α] :
    (freshAircraft : Aircraft α).HasConstructorMass := ⟨rfl, rfl, rfl⟩

/-- The freshly constructed aircraft after one step of one second with zero controls. -/
theorem freshAircraft_step1 {α : Type} [LinearOrderedField α] [FloorRing α] [CMath α] :
    ((freshAircraft : Aircraft α).Update 1 ControlInputs.initial).m_state.velocity
      = ⟨0, -(981 / 100), 0⟩ ∧
    ((freshAircraft : Aircraft α).Update 1 ControlInputs.initial).m_state.position
      = ⟨0, 99019 / 100, 0⟩ ∧
    ((freshAircraft : Aircraft α).Update 1 ControlInputs.initial).m_state.orientation
      = ⟨1, 0, 0, 0⟩ ∧
    ((freshAircraft : Aircraft α).Update 1 ControlInputs.initial).m_state.angularVelocity
      = ⟨0, 0, 0⟩ := by
  obtain ⟨h2, h1⟩ := Aircraft.Update_of_rest (freshAircraft : Aircraft α) 1
    ControlInputs.initial rfl
  obtain ⟨h2a, h2b⟩ := h2 rfl glm.qlength_identity
  obtain ⟨h1a, h1b⟩ := h1 freshAircraft_mass rfl
    (by show (0 : α) ≤ 1000 - 981 / 100 * 1 * 1; linarith)
  refine ⟨?_, ?_, h2a, h2b⟩
  · rw [h1a, mul_one]
  · rw [h1b]
    show (⟨0, 1000 - 981 / 100 * 1 * 1, 0⟩ : Vec3 α) = ⟨0, 99019 / 100, 0⟩
    ext
    · rfl
    · show (1000 : α) - 981 / 100 * 1 * 1 = 99019 / 100
      ring
    · rfl

/-- The freshly constructed aircraft (at rest, identity orientation, 1000 m up), stepped
twice by one second with zero controls, is still above ground but has moved in x. -/
theorem freshAircraft_step2 {α : Type} [LinearOrderedField α] [FloorRing α] [CMath α] :
    ¬ (freshAircraft : Aircraft α).ClampEngages 1 ControlInputs.initial ∧
    ¬ ((freshAircraft : Aircraft α).UpdateN 1 ControlInputs.initial 1).ClampEngages 1
        ControlInputs.initial ∧
    ((freshAircraft : Aircraft α).UpdateN 1 ControlInputs.initial 2).m_state.position.x < 0 := by
  obtain ⟨hv, hp, hq, hw⟩ := freshAircraft_step1 (α := α)
  have hmass : ((freshAircraft : Aircraft α).Update 1 ControlInputs.initial).HasConstructorMass :=
    freshAircraft_mass
  have hY : ((freshAircraft : Aircraft α).Update 1 ControlInputs.initial).m_state.AboutY := by
    refine ⟨?_, ?_, ?_, ?_⟩
    · rw [hq]
    · rw [hq]
    · rw [hw]
    · rw [hw]
  have hQ : 0 < ((freshAircraft : Aircraft α).Update 1
      ControlInputs.initial).m_dynamics.GetDynamicPressure
      ((freshAircraft : Aircraft α).Update 1 ControlInputs.initial).m_state := by
    apply FlightDynamics.GetDynamicPressure_pos
    rw [hv]
    show (0 : α) < 0 * 0 + -(981 / 100) * -(981 / 100) + 0 * 0
    nlinarith
  have hCD : ∀ cl, 0 < ((freshAircraft : Aircraft α).Update 1
      ControlInputs.initial).m_dynamics.CalculateDragCoefficient cl := by
    intro cl
    apply FlightDynamics.CalculateDragCoefficient_pos
    · show (0 : α) < 3 / 100
      exact div_pos (by linarith) (by linarith)
    · show (0 : α) ≤ 4 / 100
      exact (div_pos (by linarith) (by linarith)).le
  have hFx := Aircraft.netForce_x_of_identity
    ((freshAircraft : Aircraft α).Update 1 ControlInputs.initial) ControlInputs.initial hq
  have hS : ((freshAircraft : Aircraft α).Update 1
      ControlInputs.initial).m_dynamics.m_wingArea = 16 := rfl
  have hm : ((freshAircraft : Aircraft α).Update 1 ControlInputs.initial).m_mass = 1500 := rfl
  refine ⟨?_, ?_, ?_⟩
  · show ¬ (Aircraft.integratedPosition _ 1 _).y < 0
    rw [(Aircraft.integrated_of_rest (freshAircraft : Aircraft α) 1 ControlInputs.initial
      freshAircraft_mass rfl rfl).2]
    show ¬ ((1000 : α) - 981 / 100 * 1 * 1 < 0)
    rw [not_lt]
    linarith
  · have hU : (freshAircraft : Aircraft α).UpdateN 1 ControlInputs.initial 1
        = (freshAircraft : Aircraft α).Update 1 ControlInputs.initial := rfl
    rw [hU]
    show ¬ (Aircraft.integratedPosition
      ((freshAircraft : Aircraft α).Update 1 ControlInputs.initial) 1
      (Aircraft.netForce ((freshAircraft : Aircraft α).Update 1 ControlInputs.initial)
        ControlInputs.initial)).y < 0
    rw [(Aircraft.integrated_y _ 1 ControlInputs.initial hmass hY rfl).2, hv, hp, not_lt]
    show (0 : α) ≤ 99019 / 100 + (-(981 / 100) - 981 / 100 * 1) * 1
    linarith
  · show (((freshAircraft : Aircraft α).Update 1 ControlInputs.initial).Update 1
      ControlInputs.initial).m_state.position.x < 0
    have hx : (((freshAircraft : Aircraft α).Update 1 ControlInputs.initial).Update 1
        ControlInputs.initial).m_state.position.x
        = (Aircraft.integratedPosition ((freshAircraft : Aircraft α).Update 1
            ControlInputs.initial) 1
          (Aircraft.netForce ((freshAircraft : Aircraft α).Update 1 ControlInputs.initial)
            ControlInputs.initial)).x := by
      rw [(Aircraft.Update_state _ _ _).1]
      split_ifs <;> rfl
    rw [hx]
    show ((freshAircraft : Aircraft α).Update 1 ControlInputs.initial).m_state.position.x
      + (((freshAircraft : Aircraft α).Update 1 ControlInputs.initial).m_state.velocity.x
        + (Aircraft.netForce ((freshAircraft : Aircraft α).Update 1 ControlInputs.initial)
            ControlInputs.initial).x
          / ((freshAircraft : Aircraft α).Update 1 ControlInputs.initial).m_mass * 1) * 1 < 0
    rw [hv, hp, hFx, hS, hm]
    have hpos := mul_pos (mul_pos (hCD (((freshAircraft : Aircraft α).Update 1
      ControlInputs.initial).m_dynamics.CalculateLiftCoefficient
      (((freshAircraft : Aircraft α).Update 1 ControlInputs.initial).m_dynamics.GetAngleOfAttack
        ((freshAircraft : Aircraft α).Update 1 ControlInputs.initial).m_state)
      (ControlInputs.initial : ControlInputs α).elevator)) hQ) (by linarith : (0 : α) < 16)
    have hdiv := div_pos hpos (by linarith : (0 : α) < 1500)
    rw [neg_div]
    linarith

/-! ## A fall with the aircraft tilted about the X axis -/

theorem glm.atan2_of_neg_neg {α : Type} [LinearOrderedField α] [CMath α] (y x : α)
    (hx : x < 0) (hy : y < 0) : glm.atan2 y x < -(CMath.pi / 2) := by
  have e : glm.atan2 y x = CMath.atan (y / x) - CMath.pi :=
    (if_neg (not_lt.mpr hx.le)).trans ((if_pos hx).trans (if_neg (not_le.mpr hy)))
  rw [e]
  linarith [CMath.atan_lt_pi_div_two (y / x)]

theorem tiltedAircraft_qlength {α : Type} [LinearOrderedField α] [FloorRing α] [CMath α] :
    glm.qlength (tiltedAircraft : Aircraft α).m_state.orientation = 1 := by
  show CMath.sqrt ((-(4 / 5) : α) * -(4 / 5) + 0 * 0 + 0 * 0 + 3 / 5 * (3 / 5)) = 1
  rw [show (-(4 / 5) : α) * -(4 / 5) + 0 * 0 + 0 * 0 + 3 / 5 * (3 / 5) = 1 by ring,
    CMath.sqrt_one]

theorem tiltedAircraft_mass {α : Type} [LinearOrderedField α] [FloorRing α] [CMath α] :
    (tiltedAircraft : Aircraft α).HasConstructorMass := ⟨rfl, rfl, rfl⟩

/-- The tilted aircraft after one step of one second with zero controls. -/
theorem tiltedAircraft_step1 {α : Type} [LinearOrderedField α] [FloorRing α] [CMath α] :
    ((tiltedAircraft : Aircraft α).Update 1 ControlInputs.initial).m_state.velocity
      = ⟨0, -(981 / 100), 0⟩ ∧
    ((tiltedAircraft : Aircraft α).Update 1 ControlInputs.initial).m_state.position
      = ⟨0, 99019 / 100, 0⟩ ∧
    ((tiltedAircraft : Aircraft α).Update 1 ControlInputs.initial).m_state.orientation
      = ⟨3 / 5, -(4 / 5), 0, 0⟩ := by
  obtain ⟨h2, h1⟩ := Aircraft.Update_of_rest (tiltedAircraft : Aircraft α) 1
    ControlInputs.initial rfl
  obtain ⟨h2a, _⟩ := h2 rfl tiltedAircraft_qlength
  obtain ⟨h1a, h1b⟩ := h1 tiltedAircraft_mass rfl
    (by show (0 : α) ≤ 1000 - 981 / 100 * 1 * 1; linarith)
  refine ⟨?_, ?_, h2a⟩
  · rw [h1a, mul_one]
  · rw [h1b]
    show (⟨0, 1000 - 981 / 100 * 1 * 1, 0⟩ : Vec3 α) = ⟨0, 99019 / 100, 0⟩
    ext
    · rfl
    · show (1000 : α) - 981 / 100 * 1 * 1 = 99019 / 100
      ring
    · rfl

/-- In the second step of the tilted aircraft the lift coefficient is at its lower stop. -/
theorem tiltedAircraft_lift {α : Type} [LinearOrderedField α] [FloorRing α] [CMath α] :
    ((tiltedAircraft : Aircraft α).Update 1 ControlInputs.initial).m_dynamics.CalculateLiftCoefficient
      (((tiltedAircraft : Aircraft α).Update 1 ControlInputs.initial).m_dynamics.GetAngleOfAttack
        ((tiltedAircraft : Aircraft α).Update 1 ControlInputs.initial).m_state) 0
      = -(14 / 10) := by
  obtain ⟨hv, _, hq⟩ := tiltedAircraft_step1 (α := α)
  have hbv : ((tiltedAircraft : Aircraft α).Update 1 ControlInputs.initial).m_dynamics.WorldToBody
      ((tiltedAircraft : Aircraft α).Update 1 ControlInputs.initial).m_state.velocity
      ((tiltedAircraft : Aircraft α).Update 1 ControlInputs.initial).m_state.orientation
      = ⟨0, 6867 / 2500, -(5886 / 625)⟩ := by
    rw [hv, hq]
    unfold FlightDynamics.WorldToBody
    simp only [glm.qinverse, glm.conjugate, glm.qdivScalar, glm.qdot, glm.rotate, glm.cross,
      glm.vadd, glm.vscale]
    ext <;> norm_num
  have hA : ((tiltedAircraft : Aircraft α).Update 1
      ControlInputs.initial).m_dynamics.GetAngleOfAttack
      ((tiltedAircraft : Aircraft α).Update 1 ControlInputs.initial).m_state
      < -(CMath.pi / 2) := by
    unfold FlightDynamics.GetAngleOfAttack
    simp only [hbv]
    rw [if_pos (by
      intro h0
      have : (0 : α) < 5886 / 625 := div_pos (by linarith) (by linarith)
      linarith)]
    exact glm.atan2_of_neg_neg _ _
      (by
        have : (0 : α) < 5886 / 625 := div_pos (by linarith) (by linarith)
        linarith)
      (by
        have : (0 : α) < 6867 / 2500 := div_pos (by linarith) (by linarith)
        linarith)
  have hpi := CMath.pi_gt_three (α := α)
  have hlt : (4 / 10 : α) + 57 / 10 * ((tiltedAircraft : Aircraft α).Update 1
      ControlInputs.initial).m_dynamics.GetAngleOfAttack
      ((tiltedAircraft : Aircraft α).Update 1 ControlInputs.initial).m_state + 4 / 10 * 0
      < -(14 / 10) := by
    linarith
  exact if_pos hlt

theorem Aircraft.netForce_y_of_tilt {α : Type} [LinearOrderedField α] [CMath α]
    (a : Aircraft α) (c : ControlInputs α)
    (hq : a.m_state.orientation = ⟨3 / 5, -(4 / 5), 0, 0⟩) (hr : c.rudder = 0)
    (ht : c.throttle = 0) :
    (a.netForce c).y =
      -(24 / 25) * (a.m_dynamics.CalculateLiftCoefficient
          (a.m_dynamics.GetAngleOfAttack a.m_state) c.elevator
        * a.m_dynamics.GetDynamicPressure a.m_state * a.m_dynamics.m_wingArea)
      - a.m_dynamics.m_mass * (981 / 100) := by
  unfold Aircraft.netForce FlightDynamics.CalculateForces FlightDynamics.CalculateThrustForce
    FlightDynamics.CalculateAerodynamicForces FlightDynamics.CalculateGravityForce
    FlightDynamics.BodyToWorld
  simp only [hq, hr, ht, glm.rotate, glm.cross, glm.vadd, glm.vscale]
  ring

/-- The second step of the tilted aircraft stays above ground and ends with a vertical
velocity above `-9.81 * 2`: the lift has an upward part. -/
theorem tiltedAircraft_step2 {α : Type} [LinearOrderedField α] [FloorRing α] [CMath α] :
    ¬ (tiltedAircraft : Aircraft α).ClampEngages 1 ControlInputs.initial ∧
    ¬ ((tiltedAircraft : Aircraft α).UpdateN 1 ControlInputs.initial 1).ClampEngages 1
        ControlInputs.initial ∧
    -(981 / 100) * 2 * 1
      < ((tiltedAircraft : Aircraft α).UpdateN 1 ControlInputs.initial 2).m_state.velocity.y := by
  obtain ⟨hv, hp, hq⟩ := tiltedAircraft_step1 (α := α)
  have hQ : 0 < ((tiltedAircraft : Aircraft α).Update 1
      ControlInputs.initial).m_dynamics.GetDynamicPressure
      ((tiltedAircraft : Aircraft α).Update 1 ControlInputs.initial).m_state := by
    apply FlightDynamics.GetDynamicPressure_pos
    rw [hv]
    show (0 : α) < 0 * 0 + -(981 / 100) * -(981 / 100) + 0 * 0
    nlinarith
  have hFy := Aircraft.netForce_y_of_tilt
    ((tiltedAircraft : Aircraft α).Update 1 ControlInputs.initial) ControlInputs.initial hq
    rfl rfl
  have hL : ((tiltedAircraft : Aircraft α).Update 1
      ControlInputs.initial).m_dynamics.CalculateLiftCoefficient
      (((tiltedAircraft : Aircraft α).Update 1 ControlInputs.initial).m_dynamics.GetAngleOfAttack
        ((tiltedAircraft : Aircraft α).Update 1 ControlInputs.initial).m_state)
      (ControlInputs.initial : ControlInputs α).elevator = -(14 / 10) :=
    tiltedAircraft_lift
  have hS : ((tiltedAircraft : Aircraft α).Update 1
      ControlInputs.initial).m_dynamics.m_wingArea = 16 := rfl
  have hmd : ((tiltedAircraft : Aircraft α).Update 1
      ControlInputs.initial).m_dynamics.m_mass = 1500 := rfl
  have hm : ((tiltedAircraft : Aircraft α).Update 1 ControlInputs.initial).m_mass = 1500 := rfl
  rw [hL, hS, hmd] at hFy
  have hvy : -(981 / 100) * 2 * 1 <
      (Aircraft.integratedVelocity ((tiltedAircraft : Aircraft α).Update 1
          ControlInputs.initial) 1
        (Aircraft.netForce ((tiltedAircraft : Aircraft α).Update 1 ControlInputs.initial)
          ControlInputs.initial)).y := by
    show -(981 / 100) * 2 * 1 <
      ((tiltedAircraft : Aircraft α).Update 1 ControlInputs.initial).m_state.velocity.y
      + (Aircraft.netForce ((tiltedAircraft : Aircraft α).Update 1 ControlInputs.initial)
          ControlInputs.initial).y
        / ((tiltedAircraft : Aircraft α).Update 1 ControlInputs.initial).m_mass * 1
    rw [hv, hFy, hm]
    show -(981 / 100) * 2 * 1 < -(981 / 100) + (-(24 / 25) * (-(14 / 10) * _ * 16)
      - 1500 * (981 / 100)) / 1500 * 1
    have h2 : -(1500 * (981 / 100) : α) < -(24 / 25) * (-(14 / 10)
        * ((tiltedAircraft : Aircraft α).Update 1
          ControlInputs.initial).m_dynamics.GetDynamicPressure
          ((tiltedAircraft : Aircraft α).Update 1 ControlInputs.initial).m_state * 16)
        - 1500 * (981 / 100) := by
      nlinarith
    have h3 := div_lt_div_of_pos_right h2 (by linarith : (0 : α) < 1500)
    have h4 : -(1500 * (981 / 100) : α) / 1500 = -(981 / 100) := by
      field_simp
      ring
    rw [h4] at h3
    linarith
  have hne : ¬ (Aircraft.integratedPosition ((tiltedAircraft : Aircraft α).Update 1
          ControlInputs.initial) 1
        (Aircraft.netForce ((tiltedAircraft : Aircraft α).Update 1 ControlInputs.initial)
          ControlInputs.initial)).y < 0 := by
    show ¬ (((tiltedAircraft : Aircraft α).Update 1 ControlInputs.initial).m_state.position.y
      + (Aircraft.integratedVelocity ((tiltedAircraft : Aircraft α).Update 1
          ControlInputs.initial) 1
        (Aircraft.netForce ((tiltedAircraft : Aircraft α).Update 1 ControlInputs.initial)
          ControlInputs.initial)).y * 1 < 0)
    rw [hp, not_lt]
    show (0 : α) ≤ 99019 / 100 + _ * 1
    linarith
  refine ⟨?_, hne, ?_⟩
  · show ¬ (Aircraft.integratedPosition _ 1 _).y < 0
    rw [(Aircraft.integrated_of_rest (tiltedAircraft : Aircraft α) 1 ControlInputs.initial
      tiltedAircraft_mass rfl rfl).2]
    show ¬ ((1000 : α) - 981 / 100 * 1 * 1 < 0)
    rw [not_lt]
    linarith
  · show -(981 / 100) * 2 * 1 < (((tiltedAircraft : Aircraft α).Update 1
      ControlInputs.initial).Update 1 ControlInputs.initial).m_state.velocity.y
    rw [(Aircraft.Update_state _ _ _).2.1, if_neg hne]
    exact hvy

/-! ## Free fall from rest -/

/-- C8, as stated, fails. (1) The freshly constructed aircraft (at rest, identity
orientation, 1000 m up), stepped twice by one second with zero controls, is still above
ground but `position.x` has changed. (2) The aircraft at rest with the unit orientation
(3/5, -4/5, 0, 0), stepped the same way, is still above ground but `velocity.y` after the
two steps is not `-9.81 * 2 * 1`. -/
theorem Aircraft.free_fall_counterexample :
    ((freshAircraft : Aircraft ℝ).m_state.velocity = ⟨0, 0, 0⟩ ∧
      glm.qlength (freshAircraft : Aircraft ℝ).m_state.orientation = 1 ∧
      (freshAircraft : Aircraft ℝ).m_state.position = ⟨0, 1000, 0⟩ ∧
      ¬ (freshAircraft : Aircraft ℝ).ClampEngages 1 ControlInputs.initial ∧
      ¬ ((freshAircraft : Aircraft ℝ).UpdateN 1 ControlInputs.initial 1).ClampEngages 1
          ControlInputs.initial ∧
      ((freshAircraft : Aircraft ℝ).UpdateN 1 ControlInputs.initial 2).m_state.position.x ≠
        (freshAircraft : Aircraft ℝ).m_state.position.x) ∧
    ((tiltedAircraft : Aircraft ℝ).m_state.velocity = ⟨0, 0, 0⟩ ∧
      glm.qlength (tiltedAircraft : Aircraft ℝ).m_state.orientation = 1 ∧
      (tiltedAircraft : Aircraft ℝ).m_state.position = ⟨0, 1000, 0⟩ ∧
      ¬ (tiltedAircraft : Aircraft ℝ).ClampEngages 1 ControlInputs.initial ∧
      ¬ ((tiltedAircraft : Aircraft ℝ).UpdateN 1 ControlInputs.initial 1).ClampEngages 1
          ControlInputs.initial ∧
      ((tiltedAircraft : Aircraft ℝ).UpdateN 1 ControlInputs.initial 2).m_state.velocity.y ≠
        -(981 / 100) * 2 * 1) :=
  ⟨⟨rfl, glm.qlength_identity, rfl, freshAircraft_step2.1, freshAircraft_step2.2.1,
      ne_of_lt freshAircraft_step2.2.2⟩,
    ⟨rfl, tiltedAircraft_qlength, rfl, tiltedAircraft_step2.1, tiltedAircraft_step2.2.1,
      ne_of_gt tiltedAircraft_step2.2.2⟩⟩

/-! ## The height in flight without aileron and rudder from `Reset` -/

/-- From the `Reset` state of a freshly constructed aircraft, with any constant throttle and
the other controls at 0, the altitude after 600 steps of 1/60 s is 508.6825 m. -/
theorem freshAircraft_level_flight {α : Type} [LinearOrderedField α] [FloorRing α] [CMath α]
    (throttle deltaTime : α) (hdt : deltaTime = 1 / 60) :
    ((freshAircraft : Aircraft α).Reset.UpdateN deltaTime (throttleOnly throttle)
        600).m_state.altitude = 5086825 / 10000 ∧
    50 < |((freshAircraft : Aircraft α).Reset.UpdateN deltaTime (throttleOnly throttle)
        600).m_state.altitude - 1000| := by
  have hs := Aircraft.Reset_state (freshAircraft : Aircraft α)
  have hY : (freshAircraft : Aircraft α).Reset.m_state.AboutY := by
    rw [hs]
    exact ⟨rfl, rfl, rfl, rfl⟩
  have hv : (freshAircraft : Aircraft α).Reset.m_state.velocity.y = 0 := by rw [hs]
  have hy : (freshAircraft : Aircraft α).Reset.m_state.position.y = 1000 := by rw [hs]
  have hpos : (0 : α) < deltaTime := by
    rw [hdt]
    exact div_pos (by linarith) (by linarith)
  have h := Aircraft.fall_closed_form (freshAircraft : Aircraft α).Reset deltaTime
    (throttleOnly throttle) freshAircraft_mass hY hv hpos rfl rfl 600
    (by rw [hy, hdt]; norm_num)
  have halt : ((freshAircraft : Aircraft α).Reset.UpdateN deltaTime (throttleOnly throttle)
      600).m_state.altitude = 5086825 / 10000 := by
    show ((freshAircraft : Aircraft α).Reset.UpdateN deltaTime (throttleOnly throttle)
      600).m_state.position.y = 5086825 / 10000
    rw [h.1, hy, hdt]
    norm_num
  refine ⟨halt, ?_⟩
  have hneg : (5086825 / 10000 : α) - 1000 < 0 := by linarith
  rw [halt, abs_of_neg hneg]
  linarith

/-- C9, the code at the failing input: from the `Reset` state of a freshly constructed
aircraft, with aileron = elevator = rudder = flaps = brakes = 0 and any constant throttle,
the altitude after 600 steps of 1/60 s is 508.6825 m, more than 50 m away from 1000 m. -/
theorem Aircraft.level_flight_altitude (throttle : ℝ) :
    ((freshAircraft : Aircraft ℝ).Reset.UpdateN (1 / 60) (throttleOnly throttle)
        600).m_state.altitude = 5086825 / 10000 ∧
    50 < |((freshAircraft : Aircraft ℝ).Reset.UpdateN (1 / 60) (throttleOnly throttle)
        600).m_state.altitude - 1000| :=
  freshAircraft_level_flight throttle (1 / 60) rfl

/-! ## Roll and pitch after a small rotation about the X and Y axes -/

theorem glm.abs_degrees {α : Type} [LinearOrderedField α] [CMath α] (r : α) :
    |glm.degrees r| = |r| * (180 / CMath.pi) := by
  show |r * (180 / CMath.pi)| = _
  rw [abs_mul, abs_of_pos (div_pos (by linarith : (0 : α) < 180) CMath.pi_pos)]

theorem CMath.abs_atan_lt {α : Type} [LinearOrderedField α] [CMath α] (r p : α)
    (h1 : -p < r) (h2 : r < p) : |CMath.atan r| < CMath.atan p := by
  rw [abs_lt]
  constructor
  · rw [← CMath.atan_neg]
    exact CMath.atan_lt_atan _ _ h1
  · exact CMath.atan_lt_atan _ _ h2

/-- The two quotients handed to `atan` for roll and pitch of a scaled `(1, a, b, 0)`. -/
theorem glm.small_rotation_quotients {α : Type} [LinearOrderedField α] [CMath α]
    (a b K : α) (ha : 0 < a) (ha1 : a < 1 / 2) (hb0 : -(1 / 2) < b) (hb1 : b < 1 / 2)
    (hK : K * (1 + a * a + b * b) = 1) :
    1 / 3 < (1 - a * a - b * b) * K ∧ 1 / 3 < (1 + a * a - b * b) * K ∧
    |CMath.atan (2 * a * b * K / ((1 + a * a - b * b) * K))|
      < CMath.atan (2 * a * K / ((1 - a * a - b * b) * K)) := by
  have haa : a * a < 1 / 4 := by
    have := mul_pos (by linarith : 0 < 1 / 2 - a) (by linarith : 0 < 1 / 2 + a)
    linarith
  have hbb : b * b < 1 / 4 := by
    have := mul_pos (by linarith : 0 < 1 / 2 - b) (by linarith : 0 < 1 / 2 + b)
    linarith
  have haa0 : 0 ≤ a * a := mul_self_nonneg a
  have hbb0 : 0 ≤ b * b := mul_self_nonneg b
  have hKpos : 0 < K := by
    by_contra hc
    have : K * (1 + a * a + b * b) ≤ 0 :=
      mul_nonpos_of_nonpos_of_nonneg (not_lt.mp hc) (by linarith)
    linarith
  have hKa : 0 ≤ K * (a * a) := mul_nonneg hKpos.le haa0
  have hKb : 0 ≤ K * (b * b) := mul_nonneg hKpos.le hbb0
  have hKa1 : 0 < K * (1 / 4 - a * a) := mul_pos hKpos (by linarith)
  have hKb1 : 0 < K * (1 / 4 - b * b) := mul_pos hKpos (by linarith)
  have hKlow : 2 / 3 < K := by linarith
  have hXp_low : 1 / 3 < (1 - a * a - b * b) * K := by linarith
  have hXr_low : 1 / 3 < (1 + a * a - b * b) * K := by linarith
  refine ⟨hXp_low, hXr_low, ?_⟩
  have hXp_pos : 0 < (1 - a * a - b * b) * K := by linarith
  have hXr_pos : 0 < (1 + a * a - b * b) * K := by linarith
  have hle : (1 - a * a - b * b) * K ≤ (1 + a * a - b * b) * K := by linarith
  have haK : 0 < a * K := mul_pos ha hKpos
  have hYp_pos : 0 < 2 * a * K := by linarith
  have hp : 2 * a * K / ((1 + a * a - b * b) * K) ≤ 2 * a * K / ((1 - a * a - b * b) * K) :=
    (div_le_div_iff_of_pos_left hYp_pos hXr_pos hXp_pos).mpr hle
  apply CMath.abs_atan_lt
  · have h1 : -(2 * a * K) < 2 * a * b * K := by
      have := mul_pos haK (by linarith : 0 < 1 + b)
      linarith
    have h3 := div_lt_div_of_pos_right h1 hXr_pos
    rw [neg_div] at h3
    exact lt_of_le_of_lt (neg_le_neg hp) h3
  · have h2 : 2 * a * b * K < 2 * a * K := by
      have := mul_pos haK (by linarith : 0 < 1 - b)
      linarith
    exact lt_of_lt_of_le (div_lt_div_of_pos_right h2 hXr_pos) hp

/-- For the normalised quaternion of `(1, a, b, 0)` with small `a > 0` and small `b`, the
Z Euler angle (roll) is smaller in magnitude than the X Euler angle (pitch). -/
theorem glm.roll_lt_pitch_of_small {α : Type} [LinearOrderedField α] [CMath α] (a b : α)
    (ha : 0 < a) (ha1 : a < 1 / 2) (hb0 : -(1 / 2) < b) (hb1 : b < 1 / 2) :
    |glm.roll (glm.normalize ⟨1, a, b, 0⟩)| < glm.pitch (glm.normalize ⟨1, a, b, 0⟩) := by
  have hdot : glm.qdot (⟨1, a, b, 0⟩ : Quat α) ⟨1, a, b, 0⟩ = 1 + a * a + b * b := by
    show a * a + b * b + 0 * 0 + 1 * 1 = 1 + a * a + b * b
    ring
  have hdpos : 0 < 1 + a * a + b * b := by
    have h1 := mul_self_nonneg a
    have h2 := mul_self_nonneg b
    linarith
  have hL : 0 < glm.qlength (⟨1, a, b, 0⟩ : Quat α) := by
    show 0 < CMath.sqrt (glm.qdot (⟨1, a, b, 0⟩ : Quat α) ⟨1, a, b, 0⟩)
    rw [hdot]
    exact CMath.sqrt_pos _ hdpos
  have hLsq : glm.qlength (⟨1, a, b, 0⟩ : Quat α) * glm.qlength (⟨1, a, b, 0⟩ : Quat α)
      = 1 + a * a + b * b := by
    rw [glm.qlength_mul_self, hdot]
  rw [glm.normalize_of_pos _ hL]
  have hK : (1 / glm.qlength (⟨1, a, b, 0⟩ : Quat α)) * (1 / glm.qlength (⟨1, a, b, 0⟩ : Quat α))
      * (1 + a * a + b * b) = 1 := by
    rw [← hLsq]
    field_simp
  generalize 1 / glm.qlength (⟨1, a, b, 0⟩ : Quat α) = k at hK
  obtain ⟨hXp_low, hXr_low, hlt⟩ :=
    glm.small_rotation_quotients a b (k * k) ha ha1 hb0 hb1 hK
  have hXr : 1 * k * (1 * k) + a * k * (a * k) - b * k * (b * k) - 0 * k * (0 * k)
      = (1 + a * a - b * b) * (k * k) := by ring
  have hYr : 2 * (a * k * (b * k) + 1 * k * (0 * k)) = 2 * a * b * (k * k) := by ring
  have hXp : 1 * k * (1 * k) - a * k * (a * k) - b * k * (b * k) + 0 * k * (0 * k)
      = (1 - a * a - b * b) * (k * k) := by ring
  have hYp : 2 * (b * k * (0 * k) + 1 * k * (a * k)) = 2 * a * (k * k) := by ring
  have hroll : glm.roll (⟨1 * k, a * k, b * k, 0 * k⟩ : Quat α) =
      CMath.atan (2 * a * b * (k * k) / ((1 + a * a - b * b) * (k * k))) := by
    rw [glm.roll_of_pos _ (by
      show 1 / 3 < 1 * k * (1 * k) + a * k * (a * k) - b * k * (b * k) - 0 * k * (0 * k)
      rw [hXr]
      exact hXr_low)]
    show CMath.atan (2 * (a * k * (b * k) + 1 * k * (0 * k))
      / (1 * k * (1 * k) + a * k * (a * k) - b * k * (b * k) - 0 * k * (0 * k))) = _
    rw [hXr, hYr]
  have hpitch : glm.pitch (⟨1 * k, a * k, b * k, 0 * k⟩ : Quat α) =
      CMath.atan (2 * a * (k * k) / ((1 - a * a - b * b) * (k * k))) := by
    rw [glm.pitch_of_pos _ (by
      show 1 / 3 < 1 * k * (1 * k) - a * k * (a * k) - b * k * (b * k) + 0 * k * (0 * k)
      rw [hXp]
      exact hXp_low)]
    show CMath.atan (2 * (b * k * (0 * k) + 1 * k * (a * k))
      / (1 * k * (1 * k) - a * k * (a * k) - b * k * (b * k) + 0 * k * (0 * k))) = _
    rw [hXp, hYp]
  rw [hroll, hpitch]
  exact hlt

/-! ## The first step from `Reset` with full aileron -/

/-- The dynamic pressure of the `Reset` state is positive and below 552, and its angle of
attack is 0. -/
theorem FlightDynamics.reset_pressure_and_angle {α : Type} [LinearOrderedField α] [FloorRing α]
    [CMath α] (a : Aircraft α) :
    0 < a.Reset.m_dynamics.GetDynamicPressure a.Reset.m_state ∧
    a.Reset.m_dynamics.GetDynamicPressure a.Reset.m_state < 552 ∧
    a.Reset.m_dynamics.GetAngleOfAttack a.Reset.m_state = 0 := by
  have hQ : a.Reset.m_dynamics.GetDynamicPressure a.Reset.m_state
      = 1 / 2 * (1225 / 1000 * CMath.exp (-1000 / 8400)) * 30 * 30 := by
    rw [Aircraft.Reset_state]
    show 1 / 2 * (1225 / 1000 * CMath.exp (-1000 / 8400)) * glm.length ⟨0, 0, 30⟩
      * glm.length ⟨0, 0, 30⟩ = _
    rw [glm.length_reset_velocity]
  have h0 : (0 : α) < CMath.exp (-1000 / 8400) := CMath.exp_pos _
  have h1 : CMath.exp (-1000 / 8400 : α) < 1 := by
    have := CMath.exp_lt_exp (-1000 / 8400 : α) 0
      (div_neg_of_neg_of_pos (by linarith) (by linarith))
    rwa [CMath.exp_zero] at this
  refine ⟨?_, ?_, ?_⟩
  · rw [hQ]
    linarith
  · rw [hQ]
    linarith
  · rw [Aircraft.Reset_state]
    have hbv : a.Reset.m_dynamics.WorldToBody (⟨0, 0, 30⟩ : Vec3 α) ⟨1, 0, 0, 0⟩
        = ⟨0, 0, 30⟩ := by
      unfold FlightDynamics.WorldToBody
      simp only [glm.qinverse, glm.conjugate, glm.qdivScalar, glm.qdot, glm.rotate, glm.cross,
        glm.vadd, glm.vscale]
      ext <;> norm_num
    unfold FlightDynamics.GetAngleOfAttack
    simp only [hbv]
    rw [if_pos (by
      intro h30
      have : (0 : α) < 30 := by linarith
      linarith), glm.atan2_of_pos _ _ (by linarith), neg_zero, zero_div, CMath.atan_zero]

/-- The orientation after the first step from `Reset` with full aileron, in terms of the
dynamic pressure `Q` of the `Reset` state: the normalised `(1, Q/450000, -Q/5400000, 0)`. -/
theorem Aircraft.reset_aileron_orientation {α : Type} [LinearOrderedField α] [FloorRing α]
    [CMath α] (deltaTime : α) (hdt : deltaTime = 1 / 60) :
    ((freshAircraft : Aircraft α).Reset.Update deltaTime fullAileron).m_state.orientation =
      glm.normalize
        ⟨1, (freshAircraft : Aircraft α).Reset.m_dynamics.GetDynamicPressure
              (freshAircraft : Aircraft α).Reset.m_state / 450000,
          -((freshAircraft : Aircraft α).Reset.m_dynamics.GetDynamicPressure
              (freshAircraft : Aircraft α).Reset.m_state / 5400000), 0⟩ := by
  have hA := (FlightDynamics.reset_pressure_and_angle (freshAircraft : Aircraft α)).2.2
  have hs := Aircraft.Reset_state (freshAircraft : Aircraft α)
  have hq : (freshAircraft : Aircraft α).Reset.m_state.orientation = ⟨1, 0, 0, 0⟩ := by rw [hs]
  have hw : (freshAircraft : Aircraft α).Reset.m_state.angularVelocity = ⟨0, 0, 0⟩ := by
    rw [hs]
  have hI : (freshAircraft : Aircraft α).Reset.m_inertiaTensor
      = ⟨2000, 0, 0, 0, 3000, 0, 0, 0, 4000⟩ := rfl
  have hτ : ((freshAircraft : Aircraft α).Reset.m_dynamics.CalculateForces
      (freshAircraft : Aircraft α).Reset.m_state fullAileron).2 =
      ⟨32 * (freshAircraft : Aircraft α).Reset.m_dynamics.GetDynamicPressure
          (freshAircraft : Aircraft α).Reset.m_state,
        -(4 * (freshAircraft : Aircraft α).Reset.m_dynamics.GetDynamicPressure
          (freshAircraft : Aircraft α).Reset.m_state),
        0⟩ := by
    show (⟨(2 / 10 : α) * 1 * _ * 16 * 10,
      (-(1 / 10) + -(8 / 10) * FlightDynamics.GetAngleOfAttack _ _ + -(12 / 10) * 0)
        * _ * 16 * (10 * (1 / 4)),
      -(1 / 10 : α) * 0 * _ * 16 * 10⟩ : Vec3 α) = _
    rw [hA]
    ext <;> ring
  show glm.normalize (glm.qadd (freshAircraft : Aircraft α).Reset.m_state.orientation
    (glm.qscale (glm.qmul (glm.qscale
      ⟨0, (Aircraft.integratedAngularVelocity (freshAircraft : Aircraft α).Reset deltaTime
            ((freshAircraft : Aircraft α).Reset.m_dynamics.CalculateForces
              (freshAircraft : Aircraft α).Reset.m_state fullAileron).2).x,
          (Aircraft.integratedAngularVelocity (freshAircraft : Aircraft α).Reset deltaTime
            ((freshAircraft : Aircraft α).Reset.m_dynamics.CalculateForces
              (freshAircraft : Aircraft α).Reset.m_state fullAileron).2).y,
          (Aircraft.integratedAngularVelocity (freshAircraft : Aircraft α).Reset deltaTime
            ((freshAircraft : Aircraft α).Reset.m_dynamics.CalculateForces
              (freshAircraft : Aircraft α).Reset.m_state fullAileron).2).z⟩ (1 / 2))
      (freshAircraft : Aircraft α).Reset.m_state.orientation) deltaTime)) = _
  unfold Aircraft.integratedAngularVelocity
  rw [hτ, hq, hw, hI, hdt]
  congr 1
  simp only [glm.qadd, glm.qscale, glm.qmul, glm.vadd, glm.vscale, glm.mmulVec, glm.minverse]
  ext <;> norm_num <;> ring

/-- After the first step of 1/60 s from the `Reset` state of a freshly constructed aircraft
with full aileron, the pitch is positive and the roll is smaller in magnitude than the
change in pitch from its `Reset` value 0. -/
theorem freshAircraft_pure_roll {α : Type} [LinearOrderedField α] [FloorRing α] [CMath α]
    (deltaTime : α) (hdt : deltaTime = 1 / 60) :
    (freshAircraft : Aircraft α).Reset.m_state.pitch = 0 ∧
    0 < ((freshAircraft : Aircraft α).Reset.Update deltaTime fullAileron).m_state.pitch ∧
    |((freshAircraft : Aircraft α).Reset.Update deltaTime fullAileron).m_state.roll| <
      |((freshAircraft : Aircraft α).Reset.Update deltaTime fullAileron).m_state.pitch
        - (freshAircraft : Aircraft α).Reset.m_state.pitch| := by
  have hp0 : (freshAircraft : Aircraft α).Reset.m_state.pitch = 0 := by
    rw [Aircraft.Reset_state]
  obtain ⟨hQ0, hQ1, _⟩ := FlightDynamics.reset_pressure_and_angle (freshAircraft : Aircraft α)
  have hlt := glm.roll_lt_pitch_of_small
    ((freshAircraft : Aircraft α).Reset.m_dynamics.GetDynamicPressure
      (freshAircraft : Aircraft α).Reset.m_state / 450000)
    (-((freshAircraft : Aircraft α).Reset.m_dynamics.GetDynamicPressure
      (freshAircraft : Aircraft α).Reset.m_state / 5400000))
    (div_pos hQ0 (by linarith))
    (by rw [div_lt_iff₀ (by linarith)]; linarith)
    (by rw [neg_lt_neg_iff, div_lt_iff₀ (by linarith)]; linarith)
    (by
      have : 0 < (freshAircraft : Aircraft α).Reset.m_dynamics.GetDynamicPressure
          (freshAircraft : Aircraft α).Reset.m_state / 5400000 := div_pos hQ0 (by linarith)
      linarith)
  rw [← Aircraft.reset_aileron_orientation deltaTime hdt] at hlt
  have hroll : ((freshAircraft : Aircraft α).Reset.Update deltaTime fullAileron).m_state.roll =
      glm.degrees (glm.roll
        ((freshAircraft : Aircraft α).Reset.Update deltaTime fullAileron).m_state.orientation) :=
    rfl
  have hpitch : ((freshAircraft : Aircraft α).Reset.Update deltaTime fullAileron).m_state.pitch =
      glm.degrees (glm.pitch
        ((freshAircraft : Aircraft α).Reset.Update deltaTime fullAileron).m_state.orientation) :=
    rfl
  have hk : (0 : α) < 180 / CMath.pi := div_pos (by linarith) CMath.pi_pos
  have hppos : 0 < glm.pitch
      ((freshAircraft : Aircraft α).Reset.Update deltaTime fullAileron).m_state.orientation :=
    lt_of_le_of_lt (abs_nonneg _) hlt
  have hdpos : 0 < ((freshAircraft : Aircraft α).Reset.Update deltaTime
      fullAileron).m_state.pitch := by
    rw [hpitch]
    exact mul_pos hppos hk
  refine ⟨hp0, hdpos, ?_⟩
  rw [hp0, sub_zero, abs_of_pos hdpos, hroll, hpitch, glm.abs_degrees]
  exact mul_lt_mul_of_pos_right hlt hk

/-- C10, the code at the failing input: after the first step of 1/60 s from the `Reset`
state of a freshly constructed aircraft with aileron = +1 and the other five controls 0,
the pitch is positive and the roll is smaller in magnitude than the change in pitch from its
`Reset` value 0. -/
theorem Aircraft.pure_roll_first_step :
    (freshAircraft : Aircraft ℝ).Reset.m_state.pitch = 0 ∧
    0 < ((freshAircraft : Aircraft ℝ).Reset.Update (1 / 60) fullAileron).m_state.pitch ∧
    |((freshAircraft : Aircraft ℝ).Reset.Update (1 / 60) fullAileron).m_state.roll| <
      |((freshAircraft : Aircraft ℝ).Reset.Update (1 / 60) fullAileron).m_state.pitch
        - (freshAircraft : Aircraft ℝ).Reset.m_state.pitch| :=
  freshAircraft_pure_roll (1 / 60) rfl

/-! ## The glide to the ground -/

/-- In a fall, as long as the ground check has not fired the height after `n` steps is at
most the initial height minus `9.81 dt^2 n`. -/
theorem Aircraft.fall_height_bound {α : Type} [LinearOrderedField α] [FloorRing α] [CMath α]
    (a : Aircraft α) (deltaTime : α) (controls : ControlInputs α)
    (hpar : a.HasConstructorMass) (hY : a.m_state.AboutY) (hv : a.m_state.velocity.y ≤ 0)
    (hdt : 0 < deltaTime) (ha : controls.aileron = 0) (hr : controls.rudder = 0) (n : ℕ)
    (hne : ∀ k, k < n → ¬ (a.UpdateN deltaTime controls k).ClampEngages deltaTime controls) :
    (a.UpdateN deltaTime controls n).m_state.position.y ≤
      a.m_state.position.y - 981 / 100 * deltaTime * deltaTime * n := by
  induction n with
  | zero =>
    show a.m_state.position.y ≤ _
    rw [Nat.cast_zero, mul_zero, sub_zero]
  | succ n ih =>
    have ih' := ih (fun k hk => hne k (Nat.lt_succ_of_lt hk))
    obtain ⟨i1, i2, i3⟩ := Aircraft.fall_invariant a deltaTime controls hpar hY hv hdt ha hr n
    have hstep := (Aircraft.fall_step _ deltaTime controls i1 i2 i3 hdt ha hr).2.2.2.1
      (hne n (Nat.lt_succ_self n))
    show ((a.UpdateN deltaTime controls n).Update deltaTime controls).m_state.position.y ≤ _
    rw [hstep.1, Nat.cast_succ]
    have h1 : (a.UpdateN deltaTime controls n).m_state.velocity.y * deltaTime ≤ 0 :=
      mul_nonpos_of_nonpos_of_nonneg i3 hdt.le
    linarith

/-- In a fall the ground check fires at some step. -/
theorem Aircraft.fall_reaches_ground {α : Type} [LinearOrderedField α] [FloorRing α] [CMath α]
    (a : Aircraft α) (deltaTime : α) (controls : ControlInputs α)
    (hpar : a.HasConstructorMass) (hY : a.m_state.AboutY) (hv : a.m_state.velocity.y ≤ 0)
    (hdt : 0 < deltaTime) (ha : controls.aileron = 0) (hr : controls.rudder = 0) :
    ∃ n, (a.UpdateN deltaTime controls n).ClampEngages deltaTime controls := by
  by_contra hcon
  have hall : ∀ n, ¬ (a.UpdateN deltaTime controls n).ClampEngages deltaTime controls :=
    fun n hn => hcon ⟨n, hn⟩
  have hg : 0 < 981 / 100 * deltaTime * deltaTime :=
    mul_pos (mul_pos (by linarith) hdt) hdt
  obtain ⟨n, hn⟩ := exists_nat_gt (a.m_state.position.y / (981 / 100 * deltaTime * deltaTime))
  rw [div_lt_iff₀ hg] at hn
  have hb := Aircraft.fall_height_bound a deltaTime controls hpar hY hv hdt ha hr n
    (fun k _ => hall k)
  obtain ⟨i1, i2, i3⟩ := Aircraft.fall_invariant a deltaTime controls hpar hY hv hdt ha hr n
  have hnot : ¬ (Aircraft.integratedPosition (a.UpdateN deltaTime controls n) deltaTime
      (Aircraft.netForce (a.UpdateN deltaTime controls n) controls)).y < 0 := hall n
  rw [(Aircraft.integrated_y _ deltaTime controls i1 i2 hr).2, not_lt] at hnot
  have h1 : (a.UpdateN deltaTime controls n).m_state.velocity.y * deltaTime ≤ 0 :=
    mul_nonpos_of_nonpos_of_nonneg i3 hdt.le
  linarith

/-- A fall ends on the ground: from some step on the height is 0 after every step. -/
theorem Aircraft.fall_stays_grounded {α : Type} [LinearOrderedField α] [FloorRing α] [CMath α]
    (a : Aircraft α) (deltaTime : α) (controls : ControlInputs α)
    (hpar : a.HasConstructorMass) (hY : a.m_state.AboutY) (hv : a.m_state.velocity.y ≤ 0)
    (hdt : 0 < deltaTime) (ha : controls.aileron = 0) (hr : controls.rudder = 0) :
    ∃ N : ℕ, 0 < N ∧ ∀ m : ℕ, (a.UpdateN deltaTime controls (N + m)).m_state.position.y = 0 := by
  obtain ⟨n, heng⟩ := Aircraft.fall_reaches_ground a deltaTime controls hpar hY hv hdt ha hr
  obtain ⟨i1, i2, i3⟩ := Aircraft.fall_invariant a deltaTime controls hpar hY hv hdt ha hr n
  obtain ⟨j1, j2, _⟩ :=
    Aircraft.fall_invariant a deltaTime controls hpar hY hv hdt ha hr (n + 1)
  have hstep := (Aircraft.fall_step _ deltaTime controls i1 i2 i3 hdt ha hr).2.2.2.2 heng
  refine ⟨n + 1, Nat.succ_pos n, fun m => ?_⟩
  rw [Aircraft.UpdateN_add]
  exact (Aircraft.fall_grounded (a.UpdateN deltaTime controls (n + 1)) deltaTime controls
    j1 j2 hstep.1 hstep.2 hdt ha hr m).1

/-- The height is never negative after any number of steps from a state of non-negative
height. -/
theorem Aircraft.UpdateN_height_nonneg {α : Type} [LinearOrderedField α] [FloorRing α]
    [CMath α] (a : Aircraft α) (deltaTime : α) (controls : ControlInputs α)
    (h0 : 0 ≤ a.m_state.position.y) (n : ℕ) :
    0 ≤ (a.UpdateN deltaTime controls n).m_state.position.y := by
  cases n with
  | zero => exact h0
  | succ n =>
    show 0 ≤ ((a.UpdateN deltaTime controls n).Update deltaTime controls).m_state.position.y
    rw [Aircraft.Update_position]
    by_cases h : (Aircraft.integratedPosition (a.UpdateN deltaTime controls n) deltaTime
        (Aircraft.netForce (a.UpdateN deltaTime controls n) controls)).y < 0
    · rw [if_pos h]
    · rw [if_neg h]
      exact not_lt.mp h

/-- C11. Zero-throttle glide: from the `Reset` state of an aircraft with the constructor
masses, with all six controls zero and a fixed `deltaTime > 0`, the height `position.y` is
never negative after a step, and there is a step number `N >= 1` such that `position.y = 0`
after step `N` and after every later step. -/
theorem Aircraft.glide_reaches_ground {α : Type} [LinearOrderedField α] [FloorRing α]
    [CMath α] (a : Aircraft α) (deltaTime : α) (hpar : a.HasConstructorMass)
    (hdt : 0 < deltaTime) :
    (∀ k : ℕ, 0 ≤ (a.Reset.UpdateN deltaTime ControlInputs.initial k).m_state.position.y) ∧
    ∃ N : ℕ, 0 < N ∧ ∀ m : ℕ,
      (a.Reset.UpdateN deltaTime ControlInputs.initial (N + m)).m_state.position.y = 0 := by
  have hs := Aircraft.Reset_state a
  have hY : a.Reset.m_state.AboutY := by
    rw [hs]
    exact ⟨rfl, rfl, rfl, rfl⟩
  have hv : a.Reset.m_state.velocity.y ≤ 0 := by rw [hs]
  have hy : 0 ≤ a.Reset.m_state.position.y := by
    rw [hs]
    show (0 : α) ≤ 1000
    linarith
  exact ⟨Aircraft.UpdateN_height_nonneg a.Reset deltaTime ControlInputs.initial hy,
    Aircraft.fall_stays_grounded a.Reset deltaTime ControlInputs.initial hpar hY hv hdt rfl rfl⟩

theorem Aircraft.glide_reaches_ground_witness :
    (freshAircraft : Aircraft ℝ).HasConstructorMass ∧ (0 : ℝ) < 1 ∧
    ((∀ k : ℕ, 0 ≤ ((freshAircraft : Aircraft ℝ).Reset.UpdateN 1 ControlInputs.initial
        k).m_state.position.y) ∧
      ∃ N : ℕ, 0 < N ∧ ∀ m : ℕ,
        ((freshAircraft : Aircraft ℝ).Reset.UpdateN 1 ControlInputs.initial
          (N + m)).m_state.position.y = 0) :=
  ⟨freshAircraft_mass, one_pos,
    Aircraft.glide_reaches_ground freshAircraft 1 freshAircraft_mass one_pos⟩

/-! ## Gravity -/

/-- The force that `Update` hands to `IntegratePhysics` is the aerodynamic force plus the
thrust plus the weight. -/
theorem Aircraft.netForce_eq {α : Type} [LinearOrderedField α] [CMath α] (a : Aircraft α)
    (controls : ControlInputs α) :
    a.netForce controls =
      glm.vadd
        (glm.vadd (a.m_dynamics.CalculateAerodynamicForces a.m_state controls)
          (a.m_dynamics.CalculateThrustForce a.m_state controls.throttle a.m_maxThrust))
        ⟨0, -(a.m_dynamics.m_mass * (981 / 100)), 0⟩ := by
  show glm.vadd (glm.vadd (a.m_dynamics.CalculateAerodynamicForces a.m_state controls)
      ⟨0, -a.m_dynamics.m_mass * (981 / 100), 0⟩)
      (a.m_dynamics.CalculateThrustForce a.m_state controls.throttle a.m_maxThrust) = _
  ext
  · show _ + 0 + _ = _ + _ + 0
    ring
  · show _ + -a.m_dynamics.m_mass * (981 / 100) + _ = _ + _ + -(a.m_dynamics.m_mass * (981 / 100))
    ring
  · show _ + 0 + _ = _ + _ + 0
    ring

/-- C12. Gravity is constant and summed exactly once per step: `CalculateGravityForce` is
`(0, -mass * 9.81, 0)` for every state; `Update` hands the aerodynamic force plus the thrust
plus `(0, -mass * 9.81, 0)` to `IntegratePhysics`; the aircraft mass and the flight-dynamics
mass are both 1500 after construction and after `Initialize`; and with these masses the
acceleration `forces / m_mass` is the acceleration of the aerodynamic force and thrust plus
exactly `(0, -9.81, 0)`. -/
theorem Aircraft.gravity_once {α : Type} [LinearOrderedField α] [FloorRing α] [CMath α]
    (a : Aircraft α) (state : AircraftState α) (deltaTime : α) (controls : ControlInputs α)
    (uninit : Mat3 α) :
    a.m_dynamics.CalculateGravityForce state = ⟨0, -(a.m_dynamics.m_mass * (981 / 100)), 0⟩ ∧
    a.Update deltaTime controls =
      (a.IntegratePhysics deltaTime
        (glm.vadd
          (glm.vadd (a.m_dynamics.CalculateAerodynamicForces a.m_state controls)
            (a.m_dynamics.CalculateThrustForce a.m_state controls.throttle a.m_maxThrust))
          ⟨0, -(a.m_dynamics.m_mass * (981 / 100)), 0⟩)
        (a.m_dynamics.CalculateAerodynamicTorques a.m_state controls)).UpdateDerivedValues ∧
    ((Aircraft.new uninit).m_mass = 1500 ∧ (Aircraft.new uninit).m_dynamics.m_mass = 1500) ∧
    ((Aircraft.new uninit).Initialize.m_mass = 1500 ∧
      (Aircraft.new uninit).Initialize.m_dynamics.m_mass = 1500) ∧
    (a.m_mass = 1500 → a.m_dynamics.m_mass = 1500 →
      glm.vdiv (a.netForce controls) a.m_mass =
        glm.vadd
          (glm.vdiv
            (glm.vadd (a.m_dynamics.CalculateAerodynamicForces a.m_state controls)
              (a.m_dynamics.CalculateThrustForce a.m_state controls.throttle a.m_maxThrust))
            a.m_mass)
          ⟨0, -(981 / 100), 0⟩) := by
  refine ⟨?_, ?_, ⟨rfl, rfl⟩, ⟨rfl, rfl⟩, ?_⟩
  · show (⟨0, -a.m_dynamics.m_mass * (981 / 100), 0⟩ : Vec3 α) = _
    rw [neg_mul]
  · rw [Aircraft.Update_eq, Aircraft.netForce_eq]
    rfl
  · intro hm hdm
    rw [Aircraft.netForce_eq, hm, hdm]
    ext
    · show (_ + 0) / 1500 = _ / 1500 + 0
      rw [add_zero, add_zero]
    · show (_ + -(1500 * (981 / 100))) / (1500 : α) = _ / 1500 + -(981 / 100)
      rw [add_div]
      congr 1
      rw [neg_div, mul_div_cancel_left₀ _ (ne_of_gt (by linarith : (0 : α) < 1500))]
    · show (_ + 0) / 1500 = _ / 1500 + 0
      rw [add_zero, add_zero]

/-! ## Rotation by a unit quaternion -/

theorem CMath.sqrt_mul_self_abs {α : Type} [LinearOrderedField α] [CMath α] (a : α) :
    CMath.sqrt (a * a) = |a| := by
  rw [← abs_mul_abs_self a]
  exact CMath.sqrt_mul_self_eq _ (abs_nonneg a)

theorem glm.qdot_of_unit {α : Type} [LinearOrderedField α] [CMath α] (q : Quat α)
    (h : glm.qlength q = 1) : q.x * q.x + q.y * q.y + q.z * q.z + q.w * q.w = 1 := by
  have h1 := glm.qlength_mul_self q
  rw [h, mul_one] at h1
  exact h1.symm

theorem glm.rotate_forward {α : Type} [LinearOrderedField α] (q : Quat α) :
    glm.rotate q ⟨0, 0, 1⟩ =
      ⟨2 * (q.w * q.y + q.x * q.z), 2 * (q.y * q.z - q.w * q.x),
        1 - 2 * (q.x * q.x + q.y * q.y)⟩ := by
  simp only [glm.rotate, glm.cross, glm.vadd, glm.vscale]
  ext <;> ring

theorem glm.rotate_right {α : Type} [LinearOrderedField α] (q : Quat α) :
    glm.rotate q ⟨1, 0, 0⟩ =
      ⟨1 - 2 * (q.y * q.y + q.z * q.z), 2 * (q.w * q.z + q.x * q.y),
        2 * (q.x * q.z - q.w * q.y)⟩ := by
  simp only [glm.rotate, glm.cross, glm.vadd, glm.vscale]
  ext <;> ring

theorem glm.rotate_up {α : Type} [LinearOrderedField α] (q : Quat α) :
    glm.rotate q ⟨0, 1, 0⟩ =
      ⟨2 * (q.x * q.y - q.w * q.z), 1 - 2 * (q.x * q.x + q.z * q.z),
        2 * (q.w * q.x + q.y * q.z)⟩ := by
  simp only [glm.rotate, glm.cross, glm.vadd, glm.vscale]
  ext <;> ring

/-- The three body axes of a unit quaternion: squared lengths, dot products and the cross
product of the right and up axes. -/
theorem glm.axes_of_unit {α : Type} [LinearOrderedField α] (q : Quat α)
    (h : q.x * q.x + q.y * q.y + q.z * q.z + q.w * q.w = 1) :
    (glm.vdot (glm.rotate q ⟨0, 0, 1⟩) (glm.rotate q ⟨0, 0, 1⟩) = 1 ∧
      glm.vdot (glm.rotate q ⟨1, 0, 0⟩) (glm.rotate q ⟨1, 0, 0⟩) = 1 ∧
      glm.vdot (glm.rotate q ⟨0, 1, 0⟩) (glm.rotate q ⟨0, 1, 0⟩) = 1) ∧
    (glm.vdot (glm.rotate q ⟨0, 0, 1⟩) (glm.rotate q ⟨1, 0, 0⟩) = 0 ∧
      glm.vdot (glm.rotate q ⟨0, 0, 1⟩) (glm.rotate q ⟨0, 1, 0⟩) = 0 ∧
      glm.vdot (glm.rotate q ⟨1, 0, 0⟩) (glm.rotate q ⟨0, 1, 0⟩) = 0) ∧
    glm.cross (glm.rotate q ⟨1, 0, 0⟩) (glm.rotate q ⟨0, 1, 0⟩) = glm.rotate q ⟨0, 0, 1⟩ := by
  rw [glm.rotate_forward, glm.rotate_right, glm.rotate_up]
  simp only [glm.vdot, glm.cross]
  refine ⟨⟨?_, ?_, ?_⟩, ⟨?_, ?_, ?_⟩, ?_⟩
  · linear_combination (4 * (q.x * q.x + q.y * q.y)) * h
  · linear_combination (4 * (q.y * q.y + q.z * q.z)) * h
  · linear_combination (4 * (q.x * q.x + q.z * q.z)) * h
  · linear_combination (-(4 * (q.x * q.z))) * h
  · linear_combination (-(4 * (q.y * q.z))) * h
  · linear_combination (-(4 * (q.x * q.y))) * h
  · ext
    · show _ = 2 * (q.w * q.y + q.x * q.z)
      linear_combination (4 * (q.z * q.x)) * h
    · show _ = 2 * (q.y * q.z - q.w * q.x)
      linear_combination (4 * (q.z * q.y)) * h
    · show _ = 1 - 2 * (q.x * q.x + q.y * q.y)
      linear_combination (4 * (q.z * q.z)) * h

theorem glm.length_vscale_of_unit {α : Type} [LinearOrderedField α] [CMath α] (v : Vec3 α)
    (s : α) (h : glm.vdot v v = 1) : glm.length (glm.vscale v s) = |s| := by
  have h1 : glm.vdot (glm.vscale v s) (glm.vscale v s) = s * s := by
    have h2 : v.x * v.x + v.y * v.y + v.z * v.z = 1 := h
    show v.x * s * (v.x * s) + v.y * s * (v.y * s) + v.z * s * (v.z * s) = s * s
    linear_combination (s * s) * h2
  rw [glm.length, h1, CMath.sqrt_mul_self_abs]

/-! ## Thrust -/

/-- C13. Thrust: `CalculateThrustForce` is `orientation * (0,0,1)` times
`throttle * maxThrust`, that is `GetForward()` times `throttle * maxThrust`; for a unit
orientation and `maxThrust >= 0` its length is `|throttle| * maxThrust`, with no clamping of
the throttle (length `2 * maxThrust` at throttle 2, and the opposite vector at the negated
throttle); at the identity orientation it is `(0, 0, throttle * maxThrust)`. -/
theorem FlightDynamics.thrust_along_forward {α : Type} [LinearOrderedField α] [CMath α]
    (a : Aircraft α) (throttle maxThrust : α)
    (hunit : glm.qlength a.m_state.orientation = 1) (hmax : 0 ≤ maxThrust) :
    a.m_dynamics.CalculateThrustForce a.m_state throttle maxThrust =
      glm.vscale (glm.rotate a.m_state.orientation ⟨0, 0, 1⟩) (throttle * maxThrust) ∧
    a.m_dynamics.CalculateThrustForce a.m_state throttle maxThrust =
      glm.vscale a.GetForward (throttle * maxThrust) ∧
    glm.length (a.m_dynamics.CalculateThrustForce a.m_state throttle maxThrust) =
      |throttle| * maxThrust ∧
    glm.length (a.m_dynamics.CalculateThrustForce a.m_state 2 maxThrust) = 2 * maxThrust ∧
    a.m_dynamics.CalculateThrustForce a.m_state (-throttle) maxThrust =
      glm.vscale a.GetForward (-(throttle * maxThrust)) ∧
    a.m_dynamics.CalculateThrustForce { a.m_state with orientation := ⟨1, 0, 0, 0⟩ } throttle
      maxThrust = ⟨0, 0, throttle * maxThrust⟩ := by
  have hf := (glm.axes_of_unit a.m_state.orientation
    (glm.qdot_of_unit a.m_state.orientation hunit)).1.1
  have hlen : ∀ t : α, glm.length (a.m_dynamics.CalculateThrustForce a.m_state t maxThrust) =
      |t| * maxThrust := by
    intro t
    show glm.length (glm.vscale (glm.rotate a.m_state.orientation ⟨0, 0, 1⟩) (t * maxThrust)) = _
    rw [glm.length_vscale_of_unit _ _ hf, abs_mul, abs_of_nonneg hmax]
  refine ⟨rfl, rfl, hlen throttle, ?_, ?_, ?_⟩
  · rw [hlen 2, abs_of_pos (by linarith : (0 : α) < 2)]
  · show glm.vscale (glm.rotate a.m_state.orientation ⟨0, 0, 1⟩) (-throttle * maxThrust) = _
    rw [neg_mul]
    rfl
  · show glm.vscale (glm.rotate ⟨1, 0, 0, 0⟩ ⟨0, 0, 1⟩) (throttle * maxThrust) = _
    rw [glm.rotate_identity]
    show (⟨0 * (throttle * maxThrust), 0 * (throttle * maxThrust),
      1 * (throttle * maxThrust)⟩ : Vec3 α) = _
    rw [zero_mul, one_mul]

theorem FlightDynamics.thrust_along_forward_witness :
    glm.qlength (tiltedAircraft : Aircraft ℝ).m_state.orientation = 1 ∧ (0 : ℝ) ≤ 8000 ∧
    glm.length ((tiltedAircraft : Aircraft ℝ).m_dynamics.CalculateThrustForce
      (tiltedAircraft : Aircraft ℝ).m_state (-(1 / 2)) 8000) = |(-(1 / 2) : ℝ)| * 8000 :=
  have h : (0 : ℝ) ≤ 8000 := by norm_num
  ⟨tiltedAircraft_qlength, h,
    (FlightDynamics.thrust_along_forward tiltedAircraft (-(1 / 2)) 8000 tiltedAircraft_qlength
      h).2.2.1⟩

/-! ## The atmosphere -/

/-- C14. Atmosphere: `GetAirDensity(h)` is `1.225 * exp(-h / 8400)`; it is 1.225 at `h = 0`,
strictly positive for every `h`, and strictly decreasing in `h`. -/
theorem FlightDynamics.air_density {α : Type} [LinearOrderedField α] [CMath α]
    (d : FlightDynamics α) (h : α) :
    d.GetAirDensity h = 1225 / 1000 * CMath.exp (-h / 8400) ∧
    d.GetAirDensity 0 = 1225 / 1000 ∧
    0 < d.GetAirDensity h ∧
    ∀ h₁ h₂ : α, h₁ < h₂ → d.GetAirDensity h₂ < d.GetAirDensity h₁ := by
  have hpos : (0 : α) < 1225 / 1000 := div_pos (by linarith) (by linarith)
  refine ⟨rfl, ?_, mul_pos hpos (CMath.exp_pos _), ?_⟩
  · show (1225 / 1000 : α) * CMath.exp (-0 / 8400) = 1225 / 1000
    rw [neg_zero, zero_div, CMath.exp_zero, mul_one]
  · intro h₁ h₂ hlt
    show (1225 / 1000 : α) * CMath.exp (-h₂ / 8400) < 1225 / 1000 * CMath.exp (-h₁ / 8400)
    exact mul_lt_mul_of_pos_left
      (CMath.exp_lt_exp _ _ (div_lt_div_of_pos_right (neg_lt_neg hlt) (by linarith))) hpos

/-! ## `SetPosition` and `SetOrientation` -/

/-- C15. Direct external override: `SetPosition(p)` sets the position to exactly `p`, with
no ground clamp (`position.y` and the altitude are `p.y`, also when `p.y < 0`), and leaves
velocity, orientation and angular velocity unchanged; `SetOrientation(q)` sets the
orientation to exactly `q`, with no renormalisation (its length is that of `q`), and leaves
position, velocity and angular velocity unchanged. -/
theorem Aircraft.set_position_orientation {α : Type} [LinearOrderedField α] [FloorRing α]
    [CMath α] (a : Aircraft α) (p : Vec3 α) (q : Quat α) :
    ((a.SetPosition p).m_state.position = p ∧
      (a.SetPosition p).m_state.position.y = p.y ∧
      (a.SetPosition p).m_state.altitude = p.y ∧
      (p.y < 0 → (a.SetPosition p).m_state.position.y < 0 ∧
        (a.SetPosition p).m_state.altitude < 0) ∧
      (a.SetPosition p).m_state.velocity = a.m_state.velocity ∧
      (a.SetPosition p).m_state.orientation = a.m_state.orientation ∧
      (a.SetPosition p).m_state.angularVelocity = a.m_state.angularVelocity) ∧
    ((a.SetOrientation q).m_state.orientation = q ∧
      glm.qlength (a.SetOrientation q).m_state.orientation = glm.qlength q ∧
      (glm.qlength q ≠ 1 → glm.qlength (a.SetOrientation q).m_state.orientation ≠ 1) ∧
      (a.SetOrientation q).m_state.position = a.m_state.position ∧
      (a.SetOrientation q).m_state.velocity = a.m_state.velocity ∧
      (a.SetOrientation q).m_state.angularVelocity = a.m_state.angularVelocity) :=
  ⟨⟨rfl, rfl, rfl, fun h => ⟨h, h⟩, rfl, rfl, rfl⟩, ⟨rfl, rfl, fun h => h, rfl, rfl, rfl⟩⟩

/-! ## The body axes -/

/-- C16. Body axes: `GetForward()`, `GetRight()` and `GetUp()` are `q * (0,0,1)`,
`q * (1,0,0)` and `q * (0,1,0)`; for a unit orientation `q` they are unit vectors, pairwise
orthogonal, with right x up = forward; at the identity orientation they are (0,0,1), (1,0,0)
and (0,1,0). -/
theorem Aircraft.body_axes {α : Type} [LinearOrderedField α] [FloorRing α] [CMath α]
    (a : Aircraft α) (hunit : glm.qlength a.m_state.orientation = 1) :
    (a.GetForward = glm.rotate a.m_state.orientation ⟨0, 0, 1⟩ ∧
      a.GetRight = glm.rotate a.m_state.orientation ⟨1, 0, 0⟩ ∧
      a.GetUp = glm.rotate a.m_state.orientation ⟨0, 1, 0⟩) ∧
    (glm.length a.GetForward = 1 ∧ glm.length a.GetRight = 1 ∧ glm.length a.GetUp = 1) ∧
    (glm.vdot a.GetForward a.GetRight = 0 ∧ glm.vdot a.GetForward a.GetUp = 0 ∧
      glm.vdot a.GetRight a.GetUp = 0) ∧
    glm.cross a.GetRight a.GetUp = a.GetForward ∧
    ((a.SetOrientation ⟨1, 0, 0, 0⟩).GetForward = ⟨0, 0, 1⟩ ∧
      (a.SetOrientation ⟨1, 0, 0, 0⟩).GetRight = ⟨1, 0, 0⟩ ∧
      (a.SetOrientation ⟨1, 0, 0, 0⟩).GetUp = ⟨0, 1, 0⟩) := by
  obtain ⟨⟨h1, h2, h3⟩, hdot, hcross⟩ := glm.axes_of_unit a.m_state.orientation
    (glm.qdot_of_unit a.m_state.orientation hunit)
  refine ⟨⟨rfl, rfl, rfl⟩, ⟨?_, ?_, ?_⟩, hdot, hcross,
    ⟨glm.rotate_identity _, glm.rotate_identity _, glm.rotate_identity _⟩⟩
  · show CMath.sqrt (glm.vdot (glm.rotate a.m_state.orientation ⟨0, 0, 1⟩)
      (glm.rotate a.m_state.orientation ⟨0, 0, 1⟩)) = 1
    rw [h1, CMath.sqrt_one]
  · show CMath.sqrt (glm.vdot (glm.rotate a.m_state.orientation ⟨1, 0, 0⟩)
      (glm.rotate a.m_state.orientation ⟨1, 0, 0⟩)) = 1
    rw [h2, CMath.sqrt_one]
  · show CMath.sqrt (glm.vdot (glm.rotate a.m_state.orientation ⟨0, 1, 0⟩)
      (glm.rotate a.m_state.orientation ⟨0, 1, 0⟩)) = 1
    rw [h3, CMath.sqrt_one]

theorem Aircraft.body_axes_witness :
    glm.qlength (tiltedAircraft : Aircraft ℝ).m_state.orientation = 1 ∧
    glm.cross (tiltedAircraft : Aircraft ℝ).GetRight (tiltedAircraft : Aircraft ℝ).GetUp =
      (tiltedAircraft : Aircraft ℝ).GetForward :=
  ⟨tiltedAircraft_qlength, (Aircraft.body_axes tiltedAircraft tiltedAircraft_qlength).2.2.2.1⟩

/-! ## The environment record -/

/-- C17. Wind and environment have no effect: for any two `EnvironmentData` values installed
with `SetEnvironment`, `CalculateForces`, `GetDynamicPressure`, `GetAirDensity`,
`GetAngleOfAttack` and `GetSideslipAngle` return the same results for the same state and
controls (and the same as without the call). -/
theorem FlightDynamics.environment_unused {α : Type} [LinearOrderedField α] [CMath α]
    (d : FlightDynamics α) (env₁ env₂ : EnvironmentData α) (state : AircraftState α)
    (controls : ControlInputs α) (altitude : α) :
    ((d.SetEnvironment env₁).CalculateForces state controls =
        (d.SetEnvironment env₂).CalculateForces state controls ∧
      (d.SetEnvironment env₁).GetDynamicPressure state =
        (d.SetEnvironment env₂).GetDynamicPressure state ∧
      (d.SetEnvironment env₁).GetAirDensity altitude =
        (d.SetEnvironment env₂).GetAirDensity altitude ∧
      (d.SetEnvironment env₁).GetAngleOfAttack state =
        (d.SetEnvironment env₂).GetAngleOfAttack state ∧
      (d.SetEnvironment env₁).GetSideslipAngle state =
        (d.SetEnvironment env₂).GetSideslipAngle state) ∧
    ((d.SetEnvironment env₁).CalculateForces state controls = d.CalculateForces state controls ∧
      (d.SetEnvironment env₁).GetDynamicPressure state = d.GetDynamicPressure state ∧
      (d.SetEnvironment env₁).GetAirDensity altitude = d.GetAirDensity altitude ∧
      (d.SetEnvironment env₁).GetAngleOfAttack state = d.GetAngleOfAttack state ∧
      (d.SetEnvironment env₁).GetSideslipAngle state = d.GetSideslipAngle state) :=
  ⟨⟨rfl, rfl, rfl, rfl, rfl⟩, ⟨rfl, rfl, rfl, rfl, rfl⟩⟩

/-! ## The aerodynamic force and torque -/

theorem glm.length_mul_self {α : Type} [LinearOrderedField α] [CMath α] (v : Vec3 α) :
    glm.length v * glm.length v = glm.vdot v v :=
  CMath.sqrt_mul_self _ (by
    show 0 ≤ v.x * v.x + v.y * v.y + v.z * v.z
    have h1 := mul_self_nonneg v.x
    have h2 := mul_self_nonneg v.y
    have h3 := mul_self_nonneg v.z
    linarith)

/-- C19. Aerodynamic force: for a state with unit orientation `q`,
`CalculateAerodynamicForces` is `q * (-D, Y, -L)` with `L = CL * qd * S`,
`D = (CD0 + CDi * CL^2) * qd * S`, `Y = Cydr * rudder * qd * S`, where `CL` is the lift
coefficient clamped to `[-CLmax, CLmax]` (by `std::clamp`) of the angle of attack and the
elevator, `S` the wing area and `qd = 0.5 * GetAirDensity(altitude) * |velocity|^2` the
dynamic pressure of the world-frame speed. -/
theorem FlightDynamics.aerodynamic_force {α : Type} [LinearOrderedField α] [CMath α]
    (d : FlightDynamics α) (state : AircraftState α) (controls : ControlInputs α) (CL qd : α)
    (hunit : glm.qlength state.orientation = 1)
    (hCL : CL = glm.stdClamp
      (d.m_aeroCoeffs.CL0 + d.m_aeroCoeffs.CLa * d.GetAngleOfAttack state
        + d.m_aeroCoeffs.CLde * controls.elevator)
      (-d.m_aeroCoeffs.CLmax) d.m_aeroCoeffs.CLmax)
    (hqd : qd = 1 / 2 * d.GetAirDensity state.altitude
      * (state.velocity.x ^ 2 + state.velocity.y ^ 2 + state.velocity.z ^ 2)) :
    d.CalculateAerodynamicForces state controls =
      glm.rotate state.orientation
        ⟨-((d.m_aeroCoeffs.CD0 + d.m_aeroCoeffs.CDi * CL ^ 2) * qd * d.m_wingArea),
          d.m_aeroCoeffs.Cydr * controls.rudder * qd * d.m_wingArea,
          -(CL * qd * d.m_wingArea)⟩ ∧
    qd = d.GetDynamicPressure state ∧
    qd = 1 / 2 * d.GetAirDensity state.altitude * glm.length state.velocity ^ 2 := by
  have hlen := glm.length_mul_self state.velocity
  have hq : qd = d.GetDynamicPressure state := by
    show qd = 1 / 2 * d.GetAirDensity state.altitude * glm.length state.velocity
      * glm.length state.velocity
    rw [hqd, mul_assoc (1 / 2 * d.GetAirDensity state.altitude), hlen]
    show _ = 1 / 2 * d.GetAirDensity state.altitude
      * (state.velocity.x * state.velocity.x + state.velocity.y * state.velocity.y
        + state.velocity.z * state.velocity.z)
    ring
  have hCL' : CL = d.CalculateLiftCoefficient (d.GetAngleOfAttack state) controls.elevator :=
    hCL
  refine ⟨?_, hq, ?_⟩
  · show glm.rotate state.orientation
      ⟨-((d.m_aeroCoeffs.CD0 + d.m_aeroCoeffs.CDi
            * d.CalculateLiftCoefficient (d.GetAngleOfAttack state) controls.elevator
            * d.CalculateLiftCoefficient (d.GetAngleOfAttack state) controls.elevator)
          * d.GetDynamicPressure state * d.m_wingArea),
        d.m_aeroCoeffs.Cydr * controls.rudder * d.GetDynamicPressure state * d.m_wingArea,
        -(d.CalculateLiftCoefficient (d.GetAngleOfAttack state) controls.elevator
          * d.GetDynamicPressure state * d.m_wingArea)⟩ = _
    rw [← hCL', ← hq, pow_two, mul_assoc d.m_aeroCoeffs.CDi]
  · rw [hq]
    show 1 / 2 * d.GetAirDensity state.altitude * glm.length state.velocity
      * glm.length state.velocity = _
    ring

theorem FlightDynamics.aerodynamic_force_witness :
    glm.qlength (freshAircraft : Aircraft ℝ).Reset.m_state.orientation = 1 ∧
    1 / 2 * (freshAircraft : Aircraft ℝ).m_dynamics.GetAirDensity 1000
        * ((0 : ℝ) ^ 2 + 0 ^ 2 + 30 ^ 2) =
      (freshAircraft : Aircraft ℝ).m_dynamics.GetDynamicPressure
        (freshAircraft : Aircraft ℝ).Reset.m_state :=
  have hunit : glm.qlength (freshAircraft : Aircraft ℝ).Reset.m_state.orientation = 1 := by
    rw [Aircraft.Reset_state]
    exact glm.qlength_identity
  ⟨hunit,
    (FlightDynamics.aerodynamic_force (freshAircraft : Aircraft ℝ).m_dynamics
      (freshAircraft : Aircraft ℝ).Reset.m_state fullAileron _ _ hunit rfl rfl).2.1⟩

/-- C20. Aerodynamic torque: `CalculateAerodynamicTorques` returns
`(Clda * aileron * qd * S * b, (Cm0 + Cma * AoA + Cmde * elevator) * qd * S * (b * 0.25),
Cndr * rudder * qd * S * b)`, in this (roll, pitch, yaw) order and not rotated by the
orientation, with `b` the wingspan, `S` the wing area and `qd` the dynamic pressure; it is
the torque output of `CalculateForces`; with aileron = 0 and rudder = 0 its first and third
components are 0. -/
theorem FlightDynamics.aerodynamic_torque {α : Type} [LinearOrderedField α] [CMath α]
    (d : FlightDynamics α) (state : AircraftState α) (controls : ControlInputs α) :
    d.CalculateAerodynamicTorques state controls =
      ⟨d.m_aeroCoeffs.Clda * controls.aileron * d.GetDynamicPressure state * d.m_wingArea
          * d.m_wingspan,
        (d.m_aeroCoeffs.Cm0 + d.m_aeroCoeffs.Cma * d.GetAngleOfAttack state
            + d.m_aeroCoeffs.Cmde * controls.elevator)
          * d.GetDynamicPressure state * d.m_wingArea * (d.m_wingspan * (1 / 4)),
        d.m_aeroCoeffs.Cndr * controls.rudder * d.GetDynamicPressure state * d.m_wingArea
          * d.m_wingspan⟩ ∧
    (d.CalculateForces state controls).2 = d.CalculateAerodynamicTorques state controls ∧
    (controls.aileron = 0 → controls.rudder = 0 →
      (d.CalculateAerodynamicTorques state controls).x = 0 ∧
      (d.CalculateAerodynamicTorques state controls).z = 0) := by
  refine ⟨rfl, rfl, fun ha hr => ⟨?_, ?_⟩⟩
  · show d.m_aeroCoeffs.Clda * controls.aileron * _ * _ * _ = 0
    rw [ha, mul_zero, zero_mul, zero_mul, zero_mul]
  · show d.m_aeroCoeffs.Cndr * controls.rudder * _ * _ * _ = 0
    rw [hr, mul_zero, zero_mul, zero_mul, zero_mul]

/-! ## The ranges of the control inputs -/

theorem glm.stdMin_add_range {α : Type} [LinearOrderedField α] (x s lo : α) (hs : 0 ≤ s)
    (hlo : lo ≤ 1) (h : lo ≤ x) :
    lo ≤ glm.stdMin (x + s) 1 ∧ glm.stdMin (x + s) 1 ≤ 1 := by
  by_cases h1 : 1 < x + s
  · have e : glm.stdMin (x + s) 1 = 1 := if_pos h1
    rw [e]
    exact ⟨hlo, le_rfl⟩
  · have e : glm.stdMin (x + s) 1 = x + s := if_neg h1
    rw [e]
    exact ⟨by linarith, not_lt.mp h1⟩

theorem glm.stdMax_sub_range {α : Type} [LinearOrderedField α] (x s lo : α) (hs : 0 ≤ s)
    (hlo : lo ≤ 1) (h : x ≤ 1) :
    lo ≤ glm.stdMax (x - s) lo ∧ glm.stdMax (x - s) lo ≤ 1 := by
  by_cases h1 : x - s < lo
  · have e : glm.stdMax (x - s) lo = lo := if_pos h1
    rw [e]
    exact ⟨le_rfl, hlo⟩
  · have e : glm.stdMax (x - s) lo = x - s := if_neg h1
    rw [e]
    exact ⟨not_lt.mp h1, by linarith⟩

theorem ControlInputs.centre_range {α : Type} [LinearOrderedField α] (x : α) (h1 : -1 ≤ x)
    (h2 : x ≤ 1) : -1 ≤ x * (95 / 100) ∧ x * (95 / 100) ≤ 1 :=
  ⟨by linarith, by linarith⟩

theorem InputManager.ifThen_inRange {α : Type} [LinearOrderedField α] (cond : Bool)
    (body : ControlInputs α → ControlInputs α)
    (hbody : ∀ c : ControlInputs α, c.InRange → (body c).InRange) (c : ControlInputs α)
    (hc : c.InRange) : (InputManager.ifThen cond body c).InRange := by
  cases cond
  · exact hc
  · exact hbody c hc

/-- The member `ProcessFlightControls` keeps the control inputs in their ranges. -/
theorem InputManager.ProcessFlightControls_inRange {α : Type} [LinearOrderedField α]
    (im : InputManager α) (h : im.m_controlInputs.InRange) :
    im.ProcessFlightControls.m_controlInputs.InRange := by
  have h2 : (0 : α) ≤ 2 / 100 := div_nonneg (by linarith) (by linarith)
  have hl : (-1 : α) ≤ 1 := by linarith
  refine InputManager.ifThen_inRange _ _ (fun c hc => ?_) _
    (InputManager.ifThen_inRange _ _ (fun c hc => ?_) _
    (InputManager.ifThen_inRange _ _ (fun c hc => ?_) _
    (InputManager.ifThen_inRange _ _ (fun c hc => ?_) _
    (InputManager.ifThen_inRange _ _ (fun c hc => ?_) _
    (InputManager.ifThen_inRange _ _ (fun c hc => ?_) _
    (InputManager.ifThen_inRange _ _ (fun c hc => ?_) _
    (InputManager.ifThen_inRange _ _ (fun c hc => ?_) _
    (InputManager.ifThen_inRange _ _ (fun c hc => ?_) _ h))))))))
  · exact ⟨hc.1, hc.2.1, ControlInputs.centre_range _ hc.2.2.1.1 hc.2.2.1.2, hc.2.2.2⟩
  · exact ⟨ControlInputs.centre_range _ hc.1.1 hc.1.2, hc.2⟩
  · exact ⟨hc.1, ControlInputs.centre_range _ hc.2.1.1 hc.2.1.2, hc.2.2⟩
  · exact ⟨hc.1, hc.2.1, glm.stdMin_add_range _ _ _ h2 hl hc.2.2.1.1, hc.2.2.2⟩
  · exact ⟨hc.1, hc.2.1, glm.stdMax_sub_range _ _ _ h2 hl hc.2.2.1.2, hc.2.2.2⟩
  · exact ⟨glm.stdMin_add_range _ _ _ h2 hl hc.1.1, hc.2⟩
  · exact ⟨glm.stdMax_sub_range _ _ _ h2 hl hc.1.2, hc.2⟩
  · exact ⟨hc.1, glm.stdMax_sub_range _ _ _ h2 hl hc.2.1.2, hc.2.2⟩
  · exact ⟨hc.1, glm.stdMin_add_range _ _ _ h2 hl hc.2.1.1, hc.2.2⟩

/-- The member `ProcessThrottleControls` keeps the control inputs in their ranges. -/
theorem InputManager.ProcessThrottleControls_inRange {α : Type} [LinearOrderedField α]
    (im : InputManager α) (h : im.m_controlInputs.InRange) :
    im.ProcessThrottleControls.m_controlInputs.InRange := by
  have h1 : (0 : α) ≤ 1 / 100 := div_nonneg (by linarith) (by linarith)
  refine InputManager.ifThen_inRange _ _ (fun c hc => ?_) _
    (InputManager.ifThen_inRange _ _ (fun c hc => ?_) _ h)
  · exact ⟨hc.1, hc.2.1, hc.2.2.1,
      glm.stdMax_sub_range _ _ _ h1 zero_le_one hc.2.2.2.1.2, hc.2.2.2.2⟩
  · exact ⟨hc.1, hc.2.1, hc.2.2.1,
      glm.stdMin_add_range _ _ _ h1 zero_le_one hc.2.2.2.1.1, hc.2.2.2.2⟩

/-- One call of `GetControlInputs` keeps the control inputs in their ranges, whatever the
keys, and returns the stored record. -/
theorem InputManager.GetControlInputs_inRange {α : Type} [LinearOrderedField α]
    (im : InputManager α) (h : im.m_controlInputs.InRange) :
    im.GetControlInputs.2.m_controlInputs.InRange ∧
    im.GetControlInputs.1 = im.GetControlInputs.2.m_controlInputs :=
  ⟨InputManager.ProcessThrottleControls_inRange _
    (InputManager.ProcessFlightControls_inRange im h), rfl⟩

theorem InputManager.pollSeq_inRange {α : Type} [LinearOrderedField α]
    (im : InputManager α) (h : im.m_controlInputs.InRange) (ks : List (Nat → Bool)) :
    (im.pollSeq ks).m_controlInputs.InRange := by
  induction ks generalizing im with
  | nil => exact h
  | cons keys rest ih =>
    exact ih _ (InputManager.GetControlInputs_inRange { im with m_keys := keys } h).1

theorem InputManager.new_inRange {α : Type} [LinearOrderedField α] :
    (InputManager.new : InputManager α).m_controlInputs.InRange :=
  ⟨⟨by show (-1 : α) ≤ 0; linarith, zero_le_one⟩, ⟨by show (-1 : α) ≤ 0; linarith, zero_le_one⟩,
    ⟨by show (-1 : α) ≤ 0; linarith, zero_le_one⟩, ⟨le_rfl, zero_le_one⟩, rfl, rfl⟩

/-- C18. Control-input ranges: starting from the default `ControlInputs` of a constructed
`InputManager` (all six fields 0), after any number of `GetControlInputs` calls under any key
states, the stored record and the record returned by one more call (under any key state)
have aileron, elevator and rudder in `[-1, 1]`, throttle in `[0, 1]` and flaps = brakes = 0. -/
theorem InputManager.control_inputs_in_range {α : Type} [LinearOrderedField α]
    (ks : List (Nat → Bool)) (keys : Nat → Bool) :
    (InputManager.new : InputManager α).m_controlInputs = ControlInputs.initial ∧
    ((InputManager.new : InputManager α).pollSeq ks).m_controlInputs.InRange ∧
    ({ (InputManager.new : InputManager α).pollSeq ks with
        m_keys := keys } : InputManager α).GetControlInputs.1.InRange := by
  have h := InputManager.pollSeq_inRange (InputManager.new : InputManager α)
    InputManager.new_inRange ks
  refine ⟨rfl, h, ?_⟩
  have h2 := InputManager.GetControlInputs_inRange
    ({ (InputManager.new : InputManager α).pollSeq ks with m_keys := keys } : InputManager α) h
  rw [h2.2]
  exact h2.1

/-! ## The conjugate and inverse of a unit quaternion -/

theorem glm.qinverse_of_unit {α : Type} [LinearOrderedField α] [CMath α] (q : Quat α)
    (h : glm.qlength q = 1) : glm.qinverse q = glm.conjugate q := by
  have h1 : glm.qdot q q = 1 := glm.qdot_of_unit q h
  show (⟨q.w / glm.qdot q q, -q.x / glm.qdot q q, -q.y / glm.qdot q q,
    -q.z / glm.qdot q q⟩ : Quat α) = ⟨q.w, -q.x, -q.y, -q.z⟩
  rw [h1, div_one, div_one, div_one, div_one]

theorem FlightDynamics.WorldToBody_identity {α : Type} [LinearOrderedField α] [CMath α]
    (d : FlightDynamics α) (v : Vec3 α) : d.WorldToBody v ⟨1, 0, 0, 0⟩ = v := by
  show glm.rotate (glm.qinverse ⟨1, 0, 0, 0⟩) v = v
  rw [glm.qinverse_of_unit _ glm.qlength_identity]
  show glm.rotate ⟨1, -0, -0, -0⟩ v = v
  rw [neg_zero]
  exact glm.rotate_identity v

/-! ## The angle of attack and the sideslip angle -/

theorem FlightDynamics.GetAngleOfAttack_of_ne {α : Type} [LinearOrderedField α] [CMath α]
    (d : FlightDynamics α) (state : AircraftState α)
    (h : (d.WorldToBody state.velocity state.orientation).z ≠ 0) :
    d.GetAngleOfAttack state =
      glm.atan2 (-(d.WorldToBody state.velocity state.orientation).y)
        (d.WorldToBody state.velocity state.orientation).z :=
  if_pos h

theorem FlightDynamics.GetAngleOfAttack_of_eq {α : Type} [LinearOrderedField α] [CMath α]
    (d : FlightDynamics α) (state : AircraftState α)
    (h : (d.WorldToBody state.velocity state.orientation).z = 0) :
    d.GetAngleOfAttack state = 0 :=
  if_neg (not_not.mpr h)

/-- In the state `rising` (identity orientation, velocity (0, 1, 0)) the angle of attack
returned is 0, and `atan2(-bv.y, bv.z)` is `-pi/2`. -/
theorem FlightDynamics.rising_angle_of_attack {α : Type} [LinearOrderedField α] [CMath α]
    (d : FlightDynamics α) :
    glm.qlength (AircraftState.rising : AircraftState α).orientation = 1 ∧
    d.GetAngleOfAttack AircraftState.rising = 0 ∧
    glm.atan2
      (-(d.WorldToBody (AircraftState.rising : AircraftState α).velocity
          (AircraftState.rising : AircraftState α).orientation).y)
      (d.WorldToBody (AircraftState.rising : AircraftState α).velocity
          (AircraftState.rising : AircraftState α).orientation).z = -(CMath.pi / 2) ∧
    d.GetAngleOfAttack AircraftState.rising ≠
      glm.atan2
        (-(d.WorldToBody (AircraftState.rising : AircraftState α).velocity
            (AircraftState.rising : AircraftState α).orientation).y)
        (d.WorldToBody (AircraftState.rising : AircraftState α).velocity
            (AircraftState.rising : AircraftState α).orientation).z := by
  have hbv : d.WorldToBody (AircraftState.rising : AircraftState α).velocity
      (AircraftState.rising : AircraftState α).orientation = ⟨0, 1, 0⟩ :=
    FlightDynamics.WorldToBody_identity d _
  have h0 : d.GetAngleOfAttack (AircraftState.rising : AircraftState α) = 0 :=
    FlightDynamics.GetAngleOfAttack_of_eq d _ (by rw [hbv])
  have hneg : (-1 : α) < 0 := neg_neg_of_pos one_pos
  have hat : glm.atan2 (-(1 : α)) 0 = -(CMath.pi / 2) := by
    unfold glm.atan2
    rw [if_neg (lt_irrefl 0), if_neg (lt_irrefl 0), if_neg (not_lt.mpr hneg.le), if_pos hneg]
  refine ⟨glm.qlength_identity, h0, ?_, ?_⟩
  · rw [hbv]
    exact hat
  · rw [h0, hbv]
    show (0 : α) ≠ glm.atan2 (-(1 : α)) 0
    rw [hat]
    exact ne_of_gt (neg_neg_of_pos (half_pos CMath.pi_pos))

/-- C21, as stated, fails: in the state with identity (unit) orientation and velocity
(0, 1, 0) the body-frame velocity is (0, 1, 0), `GetAngleOfAttack` returns 0, and
`atan2(-bv.y, bv.z)` is `-pi/2`. -/
theorem FlightDynamics.angle_of_attack_counterexample :
    glm.qlength (AircraftState.rising : AircraftState ℝ).orientation = 1 ∧
    (freshAircraft : Aircraft ℝ).m_dynamics.GetAngleOfAttack AircraftState.rising = 0 ∧
    glm.atan2
      (-((freshAircraft : Aircraft ℝ).m_dynamics.WorldToBody
          (AircraftState.rising : AircraftState ℝ).velocity
          (AircraftState.rising : AircraftState ℝ).orientation).y)
      ((freshAircraft : Aircraft ℝ).m_dynamics.WorldToBody
          (AircraftState.rising : AircraftState ℝ).velocity
          (AircraftState.rising : AircraftState ℝ).orientation).z = -(CMath.pi / 2) ∧
    (freshAircraft : Aircraft ℝ).m_dynamics.GetAngleOfAttack AircraftState.rising ≠
      glm.atan2
        (-((freshAircraft : Aircraft ℝ).m_dynamics.WorldToBody
            (AircraftState.rising : AircraftState ℝ).velocity
            (AircraftState.rising : AircraftState ℝ).orientation).y)
        ((freshAircraft : Aircraft ℝ).m_dynamics.WorldToBody
            (AircraftState.rising : AircraftState ℝ).velocity
            (AircraftState.rising : AircraftState ℝ).orientation).z :=
  FlightDynamics.rising_angle_of_attack _

/-- C21, amended. Angle of attack: for every state with unit orientation, with
`bv = inverse(orientation) * velocity` the body-frame velocity (for a unit orientation the
inverse is the conjugate), `GetAngleOfAttack(state)` is `atan2(-bv.y, bv.z)` when
`bv.z != 0`, and 0 when `bv.z = 0`. -/
theorem FlightDynamics.angle_of_attack {α : Type} [LinearOrderedField α] [CMath α]
    (d : FlightDynamics α) (state : AircraftState α)
    (hunit : glm.qlength state.orientation = 1) :
    d.WorldToBody state.velocity state.orientation =
      glm.rotate (glm.qinverse state.orientation) state.velocity ∧
    d.WorldToBody state.velocity state.orientation =
      glm.rotate (glm.conjugate state.orientation) state.velocity ∧
    ((d.WorldToBody state.velocity state.orientation).z ≠ 0 →
      d.GetAngleOfAttack state =
        glm.atan2 (-(d.WorldToBody state.velocity state.orientation).y)
          (d.WorldToBody state.velocity state.orientation).z) ∧
    ((d.WorldToBody state.velocity state.orientation).z = 0 →
      d.GetAngleOfAttack state = 0) := by
  refine ⟨rfl, ?_, FlightDynamics.GetAngleOfAttack_of_ne d state,
    FlightDynamics.GetAngleOfAttack_of_eq d state⟩
  show glm.rotate (glm.qinverse state.orientation) state.velocity = _
  rw [glm.qinverse_of_unit _ hunit]

theorem FlightDynamics.angle_of_attack_witness :
    glm.qlength (freshAircraft : Aircraft ℝ).Reset.m_state.orientation = 1 ∧
    ((freshAircraft : Aircraft ℝ).m_dynamics.WorldToBody
        (freshAircraft : Aircraft ℝ).Reset.m_state.velocity
        (freshAircraft : Aircraft ℝ).Reset.m_state.orientation).z ≠ 0 ∧
    (freshAircraft : Aircraft ℝ).m_dynamics.GetAngleOfAttack
        (freshAircraft : Aircraft ℝ).Reset.m_state =
      glm.atan2
        (-((freshAircraft : Aircraft ℝ).m_dynamics.WorldToBody
            (freshAircraft : Aircraft ℝ).Reset.m_state.velocity
            (freshAircraft : Aircraft ℝ).Reset.m_state.orientation).y)
        ((freshAircraft : Aircraft ℝ).m_dynamics.WorldToBody
            (freshAircraft : Aircraft ℝ).Reset.m_state.velocity
            (freshAircraft : Aircraft ℝ).Reset.m_state.orientation).z :=
  have hunit : glm.qlength (freshAircraft : Aircraft ℝ).Reset.m_state.orientation = 1 := by
    rw [Aircraft.Reset_state]
    exact glm.qlength_identity
  have hz : ((freshAircraft : Aircraft ℝ).m_dynamics.WorldToBody
      (freshAircraft : Aircraft ℝ).Reset.m_state.velocity
      (freshAircraft : Aircraft ℝ).Reset.m_state.orientation).z ≠ 0 := by
    rw [Aircraft.Reset_state, FlightDynamics.WorldToBody_identity]
    show (30 : ℝ) ≠ 0
    norm_num
  ⟨hunit, hz,
    (FlightDynamics.angle_of_attack (freshAircraft : Aircraft ℝ).m_dynamics
      (freshAircraft : Aircraft ℝ).Reset.m_state hunit).2.2.1 hz⟩

/-- C22. Zero-velocity degeneracy: for a state with velocity (0,0,0) and a unit orientation,
`GetAngleOfAttack` and `GetSideslipAngle` return 0 through their guards: the body-frame
velocity is (0,0,0), so the conditions `bv.z != 0` and `velocityMagnitudeXZ != 0` are false
and no `atan2` is evaluated, and the divisor `dot(q, q)` of the quaternion inverse is 1, not
0; both functions return a value for every state. -/
theorem FlightDynamics.zero_velocity_angles {α : Type} [LinearOrderedField α] [CMath α]
    (d : FlightDynamics α) (state : AircraftState α)
    (hv : state.velocity = ⟨0, 0, 0⟩) (hunit : glm.qlength state.orientation = 1) :
    d.GetAngleOfAttack state = 0 ∧ d.GetSideslipAngle state = 0 ∧
    d.WorldToBody state.velocity state.orientation = ⟨0, 0, 0⟩ ∧
    ¬ (d.WorldToBody state.velocity state.orientation).z ≠ 0 ∧
    ¬ CMath.sqrt
        ((d.WorldToBody state.velocity state.orientation).x
            * (d.WorldToBody state.velocity state.orientation).x
          + (d.WorldToBody state.velocity state.orientation).z
            * (d.WorldToBody state.velocity state.orientation).z) ≠ 0 ∧
    glm.qdot state.orientation state.orientation = 1 ∧
    glm.qdot state.orientation state.orientation ≠ 0 ∧
    (∀ s : AircraftState α, ∃ r : α, d.GetAngleOfAttack s = r) ∧
    (∀ s : AircraftState α, ∃ r : α, d.GetSideslipAngle s = r) := by
  have hbv : d.WorldToBody state.velocity state.orientation = ⟨0, 0, 0⟩ := by
    rw [hv]
    exact glm.rotate_zero _
  have hdot : glm.qdot state.orientation state.orientation = 1 :=
    glm.qdot_of_unit _ hunit
  have hmag : CMath.sqrt
      ((d.WorldToBody state.velocity state.orientation).x
          * (d.WorldToBody state.velocity state.orientation).x
        + (d.WorldToBody state.velocity state.orientation).z
          * (d.WorldToBody state.velocity state.orientation).z) = 0 := by
    rw [hbv]
    show CMath.sqrt ((0 : α) * 0 + 0 * 0) = 0
    rw [mul_zero, add_zero, CMath.sqrt_zero]
  have hz : (d.WorldToBody state.velocity state.orientation).z = 0 := by rw [hbv]
  refine ⟨FlightDynamics.GetAngleOfAttack_of_eq d state hz, if_neg (not_not.mpr hmag), hbv,
    not_not.mpr hz, not_not.mpr hmag, hdot, ?_, fun s => ⟨_, rfl⟩, fun s => ⟨_, rfl⟩⟩
  rw [hdot]
  exact one_ne_zero

theorem FlightDynamics.zero_velocity_angles_witness :
    (tiltedAircraft : Aircraft ℝ).m_state.velocity = ⟨0, 0, 0⟩ ∧
    glm.qlength (tiltedAircraft : Aircraft ℝ).m_state.orientation = 1 ∧
    (tiltedAircraft : Aircraft ℝ).m_dynamics.GetAngleOfAttack
      (tiltedAircraft : Aircraft ℝ).m_state = 0 ∧
    (tiltedAircraft : Aircraft ℝ).m_dynamics.GetSideslipAngle
      (tiltedAircraft : Aircraft ℝ).m_state = 0 :=
  ⟨rfl, tiltedAircraft_qlength,
    (FlightDynamics.zero_velocity_angles (tiltedAircraft : Aircraft ℝ).m_dynamics
      (tiltedAircraft : Aircraft ℝ).m_state rfl tiltedAircraft_qlength).1,
    (FlightDynamics.zero_velocity_angles (tiltedAircraft : Aircraft ℝ).m_dynamics
      (tiltedAircraft : Aircraft ℝ).m_state rfl tiltedAircraft_qlength).2.1⟩

/-! ## The linear and the angular part of `IntegratePhysics` -/

/-- C23. Semi-implicit Euler for linear motion: when the ground check does not fire (the
integrated height `position.y + (velocity.y + F.y / mass * dt) * dt` is not negative),
`IntegratePhysics` produces `velocity' = velocity + (F / mass) * dt` and
`position' = position + velocity' * dt`, the position being advanced with the updated
velocity, so `position' = position + velocity * dt + (F / mass) * dt^2`. -/
theorem Aircraft.semi_implicit_euler {α : Type} [LinearOrderedField α] [CMath α]
    (a : Aircraft α) (deltaTime : α) (forces torques : Vec3 α)
    (hno : ¬ a.m_state.position.y
      + (a.m_state.velocity.y + forces.y / a.m_mass * deltaTime) * deltaTime < 0) :
    (a.IntegratePhysics deltaTime forces torques).m_state.velocity =
      glm.vadd a.m_state.velocity (glm.vscale (glm.vdiv forces a.m_mass) deltaTime) ∧
    (a.IntegratePhysics deltaTime forces torques).m_state.position =
      glm.vadd a.m_state.position
        (glm.vscale (a.IntegratePhysics deltaTime forces torques).m_state.velocity deltaTime) ∧
    (a.IntegratePhysics deltaTime forces torques).m_state.position =
      ⟨a.m_state.position.x + a.m_state.velocity.x * deltaTime
          + forces.x / a.m_mass * deltaTime ^ 2,
        a.m_state.position.y + a.m_state.velocity.y * deltaTime
          + forces.y / a.m_mass * deltaTime ^ 2,
        a.m_state.position.z + a.m_state.velocity.z * deltaTime
          + forces.z / a.m_mass * deltaTime ^ 2⟩ := by
  have hno' : ¬ (a.integratedPosition deltaTime forces).y < 0 := hno
  have hv := Aircraft.IntegratePhysics_velocity a deltaTime forces torques
  have hp := Aircraft.IntegratePhysics_position a deltaTime forces torques
  rw [if_neg hno'] at hv hp
  refine ⟨hv, ?_, ?_⟩
  · rw [hp, hv]
    rfl
  · rw [hp]
    show (⟨a.m_state.position.x
        + (a.m_state.velocity.x + forces.x / a.m_mass * deltaTime) * deltaTime,
      a.m_state.position.y
        + (a.m_state.velocity.y + forces.y / a.m_mass * deltaTime) * deltaTime,
      a.m_state.position.z
        + (a.m_state.velocity.z + forces.z / a.m_mass * deltaTime) * deltaTime⟩ : Vec3 α) = _
    ext <;> ring

theorem Aircraft.semi_implicit_euler_witness :
    (¬ (freshAircraft : Aircraft ℝ).m_state.position.y
      + ((freshAircraft : Aircraft ℝ).m_state.velocity.y
          + (⟨3, 0, 6⟩ : Vec3 ℝ).y / (freshAircraft : Aircraft ℝ).m_mass * 2) * 2 < 0) ∧
    ((freshAircraft : Aircraft ℝ).IntegratePhysics 2 ⟨3, 0, 6⟩ ⟨0, 0, 0⟩).m_state.velocity =
      glm.vadd (freshAircraft : Aircraft ℝ).m_state.velocity
        (glm.vscale (glm.vdiv ⟨3, 0, 6⟩ (freshAircraft : Aircraft ℝ).m_mass) 2) :=
  have hno : ¬ (freshAircraft : Aircraft ℝ).m_state.position.y
      + ((freshAircraft : Aircraft ℝ).m_state.velocity.y
          + (⟨3, 0, 6⟩ : Vec3 ℝ).y / (freshAircraft : Aircraft ℝ).m_mass * 2) * 2 < 0 := by
    show ¬ (1000 : ℝ) + (0 + 0 / 1500 * 2) * 2 < 0
    norm_num
  ⟨hno, (Aircraft.semi_implicit_euler freshAircraft 2 ⟨3, 0, 6⟩ ⟨0, 0, 0⟩ hno).1⟩

theorem glm.mmulVec_minverse_constructor {α : Type} [LinearOrderedField α] (t : Vec3 α) :
    glm.mmulVec (glm.minverse ⟨2000, 0, 0, 0, 3000, 0, 0, 0, 4000⟩) t =
      ⟨t.x / 2000, t.y / 3000, t.z / 4000⟩ := by
  simp only [glm.mmulVec, glm.minverse]
  ext
  · show _ = t.x / 2000
    field_simp
    ring
  · show _ = t.y / 3000
    field_simp
    ring
  · show _ = t.z / 4000
    field_simp
    ring

theorem glm.mmulVec_zero {α : Type} [LinearOrderedField α] (m : Mat3 α) :
    glm.mmulVec m ⟨0, 0, 0⟩ = ⟨0, 0, 0⟩ := by
  show (⟨m.c00 * 0 + m.c10 * 0 + m.c20 * 0, m.c01 * 0 + m.c11 * 0 + m.c21 * 0,
    m.c02 * 0 + m.c12 * 0 + m.c22 * 0⟩ : Vec3 α) = _
  rw [mul_zero, mul_zero, mul_zero, mul_zero, mul_zero, mul_zero, mul_zero, mul_zero, mul_zero,
    add_zero, add_zero]

/-- With zero torque one call of `IntegratePhysics` multiplies the angular velocity by
0.99, whatever the time step and the inertia tensor. -/
theorem Aircraft.IntegratePhysics_zero_torque {α : Type} [LinearOrderedField α] [CMath α]
    (a : Aircraft α) (deltaTime : α) (forces : Vec3 α) :
    (a.IntegratePhysics deltaTime forces ⟨0, 0, 0⟩).m_state.angularVelocity =
      glm.vscale a.m_state.angularVelocity (99 / 100) := by
  rw [Aircraft.IntegratePhysics_angularVelocity]
  show glm.vscale (glm.vadd a.m_state.angularVelocity
    (glm.vscale (glm.mmulVec (glm.minverse a.m_inertiaTensor) ⟨0, 0, 0⟩) deltaTime)) _ = _
  rw [glm.mmulVec_zero]
  show glm.vscale ⟨a.m_state.angularVelocity.x + 0 * deltaTime,
    a.m_state.angularVelocity.y + 0 * deltaTime,
    a.m_state.angularVelocity.z + 0 * deltaTime⟩ (99 / 100) = _
  rw [zero_mul, add_zero, add_zero, add_zero]

theorem Aircraft.IntegrateSeq_zero_torque {α : Type} [LinearOrderedField α] [CMath α]
    (a : Aircraft α) (steps : List (α × Vec3 α × Vec3 α))
    (h : ∀ s ∈ steps, s.2.2 = ⟨0, 0, 0⟩) :
    (a.IntegrateSeq steps).m_state.angularVelocity =
      glm.vscale a.m_state.angularVelocity ((99 / 100) ^ steps.length) := by
  induction steps generalizing a with
  | nil =>
    show a.m_state.angularVelocity = ⟨a.m_state.angularVelocity.x * (99 / 100) ^ 0,
      a.m_state.angularVelocity.y * (99 / 100) ^ 0, a.m_state.angularVelocity.z * (99 / 100) ^ 0⟩
    rw [pow_zero, mul_one, mul_one, mul_one]
  | cons s rest ih =>
    have hs : s.2.2 = ⟨0, 0, 0⟩ := h s (List.mem_cons_self s rest)
    show ((a.IntegratePhysics s.1 s.2.1 s.2.2).IntegrateSeq rest).m_state.angularVelocity = _
    rw [ih _ (fun t ht => h t (List.mem_cons_of_mem s ht)), hs,
      Aircraft.IntegratePhysics_zero_torque, List.length_cons, pow_succ]
    show (⟨a.m_state.angularVelocity.x * (99 / 100) * (99 / 100) ^ rest.length,
      a.m_state.angularVelocity.y * (99 / 100) * (99 / 100) ^ rest.length,
      a.m_state.angularVelocity.z * (99 / 100) * (99 / 100) ^ rest.length⟩ : Vec3 α) =
      ⟨a.m_state.angularVelocity.x * ((99 / 100) ^ rest.length * (99 / 100)),
        a.m_state.angularVelocity.y * ((99 / 100) ^ rest.length * (99 / 100)),
        a.m_state.angularVelocity.z * ((99 / 100) ^ rest.length * (99 / 100))⟩
    rw [mul_comm ((99 / 100 : α) ^ rest.length), mul_assoc, mul_assoc, mul_assoc]

/-- C24. Angular update and damping: with the inertia tensor of the constructor,
`IntegratePhysics` produces
`angularVelocity' = 0.99 * (angularVelocity + (tx/2000, ty/3000, tz/4000) * dt)`; the factor
0.99 is applied once per call whatever `dt` is, so after any run of `n` calls with zero
torque (any time steps and forces) the angular velocity is `0.99^n` times the initial one. -/
theorem Aircraft.angular_update_damped {α : Type} [LinearOrderedField α] [CMath α]
    (a : Aircraft α) (deltaTime : α) (forces torques : Vec3 α)
    (steps : List (α × Vec3 α × Vec3 α))
    (hI : a.m_inertiaTensor = ⟨2000, 0, 0, 0, 3000, 0, 0, 0, 4000⟩) :
    (a.IntegratePhysics deltaTime forces torques).m_state.angularVelocity =
      glm.vscale
        (glm.vadd a.m_state.angularVelocity
          (glm.vscale ⟨torques.x / 2000, torques.y / 3000, torques.z / 4000⟩ deltaTime))
        (99 / 100) ∧
    ((∀ s ∈ steps, s.2.2 = ⟨0, 0, 0⟩) →
      (a.IntegrateSeq steps).m_state.angularVelocity =
        glm.vscale a.m_state.angularVelocity ((99 / 100) ^ steps.length)) := by
  refine ⟨?_, Aircraft.IntegrateSeq_zero_torque a steps⟩
  rw [Aircraft.IntegratePhysics_angularVelocity]
  show glm.vscale (glm.vadd a.m_state.angularVelocity
    (glm.vscale (glm.mmulVec (glm.minverse a.m_inertiaTensor) torques) deltaTime)) _ = _
  rw [hI, glm.mmulVec_minverse_constructor]

theorem Aircraft.angular_update_damped_witness :
    (spinningAircraft : Aircraft ℝ).m_inertiaTensor = ⟨2000, 0, 0, 0, 3000, 0, 0, 0, 4000⟩ ∧
    ((spinningAircraft : Aircraft ℝ).IntegratePhysics 2 ⟨0, 0, 0⟩
        ⟨4000, 3000, 0⟩).m_state.angularVelocity =
      glm.vscale
        (glm.vadd (spinningAircraft : Aircraft ℝ).m_state.angularVelocity
          (glm.vscale ⟨4000 / 2000, 3000 / 3000, 0 / 4000⟩ 2))
        (99 / 100) :=
  ⟨rfl, (Aircraft.angular_update_damped spinningAircraft 2 ⟨0, 0, 0⟩ ⟨4000, 3000, 0⟩ [] rfl).1⟩

/-! ## Flight without aileron and rudder, with changing time steps, throttle and elevator -/

/-- Without aileron and rudder, the constructor masses and the rotation about the Y axis are
kept by every step of a run, whatever the time steps and the other controls. -/
theorem Aircraft.UpdateStream_aboutY {α : Type} [LinearOrderedField α] [FloorRing α]
    [CMath α] (a : Aircraft α) (deltaTime : ℕ → α) (controls : ℕ → ControlInputs α)
    (hpar : a.HasConstructorMass) (hY : a.m_state.AboutY)
    (hc : ∀ k, (controls k).aileron = 0 ∧ (controls k).rudder = 0) (n : ℕ) :
    (a.UpdateStream deltaTime controls n).HasConstructorMass ∧
    (a.UpdateStream deltaTime controls n).m_state.AboutY := by
  induction n with
  | zero => exact ⟨hpar, hY⟩
  | succ n ih =>
    exact ⟨ih.1, Aircraft.AboutY_Update _ (deltaTime n) (controls n) ih.1.2.2 ih.2 (hc n).1
      (hc n).2⟩

/-- Closed form of the vertical motion with a fixed time step, without aileron and rudder,
from a state with no vertical velocity: while the ground check has not fired, the vertical
velocity after `n` steps is `-9.81 n dt` and the height is `y0 - 9.81 dt^2 n(n+1)/2`. -/
theorem Aircraft.UpdateStream_closed_form {α : Type} [LinearOrderedField α] [FloorRing α]
    [CMath α] (a : Aircraft α) (deltaTime : α) (controls : ℕ → ControlInputs α)
    (hpar : a.HasConstructorMass) (hY : a.m_state.AboutY) (hv : a.m_state.velocity.y = 0)
    (hc : ∀ k, (controls k).aileron = 0 ∧ (controls k).rudder = 0) (n : ℕ)
    (hne : ∀ k, k < n →
      ¬ (a.UpdateStream (fun _ => deltaTime) controls k).ClampEngages deltaTime (controls k)) :
    (a.UpdateStream (fun _ => deltaTime) controls n).m_state.velocity.y =
      -(981 / 100) * n * deltaTime ∧
    (a.UpdateStream (fun _ => deltaTime) controls n).m_state.position.y =
      a.m_state.position.y - 981 / 100 * deltaTime ^ 2 * n * (n + 1) / 2 := by
  induction n with
  | zero =>
    show a.m_state.velocity.y = _ ∧ a.m_state.position.y = _
    rw [hv, Nat.cast_zero]
    constructor <;> ring
  | succ n ih =>
    obtain ⟨ihv, ihp⟩ := ih (fun k hk => hne k (Nat.lt_succ_of_lt hk))
    obtain ⟨i1, i2⟩ :=
      Aircraft.UpdateStream_aboutY a (fun _ => deltaTime) controls hpar hY hc n
    obtain ⟨hvy, hpy⟩ := Aircraft.integrated_y _ deltaTime (controls n) i1 i2 (hc n).2
    have hno : ¬ (Aircraft.integratedPosition (a.UpdateStream (fun _ => deltaTime) controls n)
        deltaTime (Aircraft.netForce (a.UpdateStream (fun _ => deltaTime) controls n)
          (controls n))).y < 0 := hne n (Nat.lt_succ_self n)
    obtain ⟨hP, hV, _, _⟩ :=
      Aircraft.Update_state (a.UpdateStream (fun _ => deltaTime) controls n) deltaTime
        (controls n)
    rw [if_neg hno] at hP hV
    show ((a.UpdateStream (fun _ => deltaTime) controls n).Update deltaTime
        (controls n)).m_state.velocity.y = _ ∧
      ((a.UpdateStream (fun _ => deltaTime) controls n).Update deltaTime
        (controls n)).m_state.position.y = _
    rw [hP, hV, hvy, hpy, ihv, ihp, Nat.cast_succ]
    constructor <;> ring

/-- C25. Lift never opposes gravity in rudder-free, aileron-free flight from `Reset`: for an
aircraft with the constructor masses, every sequence of time steps and every sequence of
controls with aileron = 0 and rudder = 0 (any elevator and throttle), after every `Update`
the orientation and the angular velocity have x = z = 0 and the net vertical force of the
next step is exactly `-mass * 9.81`; so with a fixed `dt`, as long as the ground check has
not fired, `velocity.y` after `n` steps is `-9.81 * n * dt` and `position.y` is
`1000 - 9.81 * dt^2 * n * (n + 1) / 2`. -/
theorem Aircraft.no_lift_against_gravity {α : Type} [LinearOrderedField α] [FloorRing α]
    [CMath α] (a : Aircraft α) (deltaTimes : ℕ → α) (deltaTime : α)
    (controls : ℕ → ControlInputs α) (n : ℕ)
    (hpar : a.HasConstructorMass)
    (hc : ∀ k, (controls k).aileron = 0 ∧ (controls k).rudder = 0) :
    ((a.Reset.UpdateStream deltaTimes controls n).m_state.orientation.x = 0 ∧
      (a.Reset.UpdateStream deltaTimes controls n).m_state.orientation.z = 0 ∧
      (a.Reset.UpdateStream deltaTimes controls n).m_state.angularVelocity.x = 0 ∧
      (a.Reset.UpdateStream deltaTimes controls n).m_state.angularVelocity.z = 0 ∧
      ((a.Reset.UpdateStream deltaTimes controls n).netForce (controls n)).y =
        -(a.Reset.UpdateStream deltaTimes controls n).m_dynamics.m_mass * (981 / 100) ∧
      (a.Reset.UpdateStream deltaTimes controls n).m_dynamics.m_mass = 1500) ∧
    ((∀ k, k < n →
        ¬ (a.Reset.UpdateStream (fun _ => deltaTime) controls k).ClampEngages deltaTime
            (controls k)) →
      (a.Reset.UpdateStream (fun _ => deltaTime) controls n).m_state.velocity.y =
        -(981 / 100) * n * deltaTime ∧
      (a.Reset.UpdateStream (fun _ => deltaTime) controls n).m_state.position.y =
        1000 - 981 / 100 * deltaTime ^ 2 * n * (n + 1) / 2) := by
  have hs := Aircraft.Reset_state a
  have hY : a.Reset.m_state.AboutY := by
    rw [hs]
    exact ⟨rfl, rfl, rfl, rfl⟩
  have hv : a.Reset.m_state.velocity.y = 0 := by rw [hs]
  have hy : a.Reset.m_state.position.y = 1000 := by rw [hs]
  obtain ⟨i1, i2⟩ := Aircraft.UpdateStream_aboutY a.Reset deltaTimes controls hpar hY hc n
  refine ⟨⟨i2.1, i2.2.1, i2.2.2.1, i2.2.2.2,
    Aircraft.netForce_y _ (controls n) i2.1 i2.2.1 (hc n).2, i1.2.1⟩, fun hne => ?_⟩
  have h := Aircraft.UpdateStream_closed_form a.Reset deltaTime controls hpar hY hv hc n hne
  rw [hy] at h
  exact h

theorem Aircraft.no_lift_against_gravity_witness :
    (freshAircraft : Aircraft ℝ).HasConstructorMass ∧
    (∀ k : ℕ, ((fun _ => throttleOnly 1 : ℕ → ControlInputs ℝ) k).aileron = 0 ∧
      ((fun _ => throttleOnly 1 : ℕ → ControlInputs ℝ) k).rudder = 0) ∧
    (((freshAircraft : Aircraft ℝ).Reset.UpdateStream (fun _ => 1) (fun _ => throttleOnly 1)
        3).netForce ((fun _ => throttleOnly 1 : ℕ → ControlInputs ℝ) 3)).y =
      -((freshAircraft : Aircraft ℝ).Reset.UpdateStream (fun _ => 1) (fun _ => throttleOnly 1)
        3).m_dynamics.m_mass * (981 / 100) :=
  have hc : ∀ k : ℕ, ((fun _ => throttleOnly 1 : ℕ → ControlInputs ℝ) k).aileron = 0 ∧
      ((fun _ => throttleOnly 1 : ℕ → ControlInputs ℝ) k).rudder = 0 := fun _ => ⟨rfl, rfl⟩
  ⟨freshAircraft_mass, hc,
    (Aircraft.no_lift_against_gravity freshAircraft (fun _ => 1) 1 (fun _ => throttleOnly 1) 3
      freshAircraft_mass hc).1.2.2.2.2.1⟩

/-! ## Rotation by a unit quaternion: dot products and the round trip -/

/-- Rotation by a unit quaternion keeps dot products. -/
theorem glm.vdot_rotate_of_unit {α : Type} [LinearOrderedField α] (q : Quat α) (v w : Vec3 α)
    (h : q.x * q.x + q.y * q.y + q.z * q.z + q.w * q.w = 1) :
    glm.vdot (glm.rotate q v) (glm.rotate q w) = glm.vdot v w := by
  simp only [glm.rotate, glm.cross, glm.vadd, glm.vscale, glm.vdot]
  linear_combination
    (4 * ((q.y * v.z - v.y * q.z) * (q.y * w.z - w.y * q.z)
      + (q.z * v.x - v.z * q.x) * (q.z * w.x - w.z * q.x)
      + (q.x * v.y - v.x * q.y) * (q.x * w.y - w.x * q.y))) * h

/-- Rotation by the conjugate of a unit quaternion followed by rotation by the quaternion
gives the vector back. -/
theorem glm.rotate_rotate_conjugate {α : Type} [LinearOrderedField α] (q : Quat α)
    (v : Vec3 α) (h : q.x * q.x + q.y * q.y + q.z * q.z + q.w * q.w = 1) :
    glm.rotate q (glm.rotate (glm.conjugate q) v) = v := by
  simp only [glm.rotate, glm.cross, glm.vadd, glm.vscale, glm.conjugate]
  ext
  · show _ = v.x
    linear_combination
      (-4 * (q.x * q.y * v.y + q.x * q.z * v.z - v.x * (q.y * q.y + q.z * q.z))) * h
  · show _ = v.y
    linear_combination
      (-4 * (q.y * q.x * v.x + q.y * q.z * v.z - v.y * (q.x * q.x + q.z * q.z))) * h
  · show _ = v.z
    linear_combination
      (-4 * (q.z * q.x * v.x + q.z * q.y * v.y - v.z * (q.x * q.x + q.y * q.y))) * h

theorem glm.conjugate_unit {α : Type} [LinearOrderedField α] (q : Quat α)
    (h : q.x * q.x + q.y * q.y + q.z * q.z + q.w * q.w = 1) :
    (glm.conjugate q).x * (glm.conjugate q).x + (glm.conjugate q).y * (glm.conjugate q).y
      + (glm.conjugate q).z * (glm.conjugate q).z
      + (glm.conjugate q).w * (glm.conjugate q).w = 1 := by
  show -q.x * -q.x + -q.y * -q.y + -q.z * -q.z + q.w * q.w = 1
  rw [neg_mul_neg, neg_mul_neg, neg_mul_neg]
  exact h

theorem glm.conjugate_conjugate {α : Type} [LinearOrderedField α] (q : Quat α) :
    glm.conjugate (glm.conjugate q) = q := by
  show (⟨q.w, - -q.x, - -q.y, - -q.z⟩ : Quat α) = q
  rw [neg_neg, neg_neg, neg_neg]

theorem glm.length_rotate_of_unit {α : Type} [LinearOrderedField α] [CMath α] (q : Quat α)
    (v : Vec3 α) (h : q.x * q.x + q.y * q.y + q.z * q.z + q.w * q.w = 1) :
    glm.length (glm.rotate q v) = glm.length v := by
  rw [glm.length, glm.vdot_rotate_of_unit q v v h]
  rfl

/-! ## The direction of the aerodynamic force -/

/-- C26. Direction of the aerodynamic force components: for a unit orientation, the dot
product of `CalculateAerodynamicForces` with `GetForward()` is `-lift`, with `GetUp()` it is
the rudder side force and with `GetRight()` it is `-drag`, where
`lift = CL * qd * S`, `drag = CD * qd * S` and `sideForce = Cydr * rudder * qd * S` as in
the function; the velocity enters only through these three numbers. -/
theorem FlightDynamics.aerodynamic_force_directions {α : Type} [LinearOrderedField α]
    [CMath α] (a : Aircraft α) (controls : ControlInputs α)
    (hunit : glm.qlength a.m_state.orientation = 1) :
    glm.vdot (a.m_dynamics.CalculateAerodynamicForces a.m_state controls) a.GetForward =
      -(a.m_dynamics.CalculateLiftCoefficient (a.m_dynamics.GetAngleOfAttack a.m_state)
          controls.elevator
        * a.m_dynamics.GetDynamicPressure a.m_state * a.m_dynamics.m_wingArea) ∧
    glm.vdot (a.m_dynamics.CalculateAerodynamicForces a.m_state controls) a.GetUp =
      a.m_dynamics.m_aeroCoeffs.Cydr * controls.rudder
        * a.m_dynamics.GetDynamicPressure a.m_state * a.m_dynamics.m_wingArea ∧
    glm.vdot (a.m_dynamics.CalculateAerodynamicForces a.m_state controls) a.GetRight =
      -(a.m_dynamics.CalculateDragCoefficient
          (a.m_dynamics.CalculateLiftCoefficient (a.m_dynamics.GetAngleOfAttack a.m_state)
            controls.elevator)
        * a.m_dynamics.GetDynamicPressure a.m_state * a.m_dynamics.m_wingArea) := by
  have h := glm.qdot_of_unit a.m_state.orientation hunit
  refine ⟨?_, ?_, ?_⟩
  · show glm.vdot (glm.rotate a.m_state.orientation _) (glm.rotate a.m_state.orientation _) = _
    rw [glm.vdot_rotate_of_unit _ _ _ h]
    show _ * 0 + _ * 0 + -(_ * _ * _) * 1 = _
    rw [mul_zero, mul_zero, zero_add, zero_add, mul_one]
  · show glm.vdot (glm.rotate a.m_state.orientation _) (glm.rotate a.m_state.orientation _) = _
    rw [glm.vdot_rotate_of_unit _ _ _ h]
    show _ * 0 + _ * _ * _ * _ * 1 + _ * 0 = _
    rw [mul_zero, mul_zero, zero_add, add_zero, mul_one]
  · show glm.vdot (glm.rotate a.m_state.orientation _) (glm.rotate a.m_state.orientation _) = _
    rw [glm.vdot_rotate_of_unit _ _ _ h]
    show -(_ * _ * _) * 1 + _ * 0 + _ * 0 = _
    rw [mul_zero, mul_zero, add_zero, add_zero, mul_one]

theorem FlightDynamics.aerodynamic_force_directions_witness :
    glm.qlength (tiltedAircraft : Aircraft ℝ).m_state.orientation = 1 ∧
    glm.vdot ((tiltedAircraft : Aircraft ℝ).m_dynamics.CalculateAerodynamicForces
        (tiltedAircraft : Aircraft ℝ).m_state fullAileron)
        (tiltedAircraft : Aircraft ℝ).GetUp =
      (tiltedAircraft : Aircraft ℝ).m_dynamics.m_aeroCoeffs.Cydr * (fullAileron).rudder
        * (tiltedAircraft : Aircraft ℝ).m_dynamics.GetDynamicPressure
            (tiltedAircraft : Aircraft ℝ).m_state
        * (tiltedAircraft : Aircraft ℝ).m_dynamics.m_wingArea :=
  ⟨tiltedAircraft_qlength,
    (FlightDynamics.aerodynamic_force_directions tiltedAircraft fullAileron
      tiltedAircraft_qlength).2.1⟩

/-! ## What a zero step changes -/

theorem glm.vscale_ne_self {α : Type} [LinearOrderedField α] (v : Vec3 α)
    (h : v ≠ ⟨0, 0, 0⟩) : glm.vscale v (99 / 100) ≠ v := by
  intro hc
  have e : ∀ t : α, t * (99 / 100) = t → t = 0 := by
    intro t ht
    linarith only [ht]
  apply h
  ext
  · exact e _ (congrArg Vec3.x hc)
  · exact e _ (congrArg Vec3.y hc)
  · exact e _ (congrArg Vec3.z hc)

/-- C28. What a zero step changes: for a state with unit orientation and `position.y >= 0`
and any controls, `Update(0, controls)` leaves position, velocity and orientation unchanged
and multiplies the angular velocity by exactly 0.99; so for every such state with non-zero
angular velocity, and hence for some state, the angular velocity after a zero step differs
from the one before. -/
theorem Aircraft.zero_step_changes {α : Type} [LinearOrderedField α] [FloorRing α] [CMath α]
    (a : Aircraft α) (controls : ControlInputs α)
    (hunit : glm.qlength a.m_state.orientation = 1) (hy : 0 ≤ a.m_state.position.y) :
    (a.Update 0 controls).m_state.position = a.m_state.position ∧
    (a.Update 0 controls).m_state.velocity = a.m_state.velocity ∧
    (a.Update 0 controls).m_state.orientation = a.m_state.orientation ∧
    (a.Update 0 controls).m_state.angularVelocity =
      glm.vscale a.m_state.angularVelocity (99 / 100) ∧
    (a.m_state.angularVelocity ≠ ⟨0, 0, 0⟩ →
      (a.Update 0 controls).m_state.angularVelocity ≠ a.m_state.angularVelocity) ∧
    ∃ b : Aircraft α, glm.qlength b.m_state.orientation = 1 ∧ 0 ≤ b.m_state.position.y ∧
      (b.Update 0 controls).m_state.angularVelocity ≠ b.m_state.angularVelocity := by
  obtain ⟨h1, h2, h3⟩ := Aircraft.Update_zero a controls
  refine ⟨(h1 hy).1, (h1 hy).2, h2 hunit, h3, fun hne => ?_, spinningAircraft, ?_, ?_, ?_⟩
  · rw [h3]
    exact glm.vscale_ne_self _ hne
  · exact glm.qlength_identity
  · show (0 : α) ≤ 1000
    exact le_of_lt (by norm_num)
  · rw [(Aircraft.Update_zero spinningAircraft controls).2.2]
    apply glm.vscale_ne_self
    intro hc
    exact one_ne_zero (congrArg Vec3.x hc)

theorem Aircraft.zero_step_changes_witness :
    glm.qlength (tiltedAircraft : Aircraft ℝ).m_state.orientation = 1 ∧
    0 ≤ (tiltedAircraft : Aircraft ℝ).m_state.position.y ∧
    ((tiltedAircraft : Aircraft ℝ).Update 0 fullAileron).m_state.orientation =
      (tiltedAircraft : Aircraft ℝ).m_state.orientation ∧
    ((tiltedAircraft : Aircraft ℝ).Update 0 fullAileron).m_state.angularVelocity =
      glm.vscale (tiltedAircraft : Aircraft ℝ).m_state.angularVelocity (99 / 100) :=
  have hy : 0 ≤ (tiltedAircraft : Aircraft ℝ).m_state.position.y := by
    show (0 : ℝ) ≤ 1000
    norm_num
  ⟨tiltedAircraft_qlength, hy,
    (Aircraft.zero_step_changes tiltedAircraft fullAileron tiltedAircraft_qlength hy).2.2.1,
    (Aircraft.zero_step_changes tiltedAircraft fullAileron tiltedAircraft_qlength hy).2.2.2.1⟩

/-! ## The two frame transforms -/

/-- C29. Frame-transform round trip: for a unit quaternion `q` and every vector `v`,
`BodyToWorld(WorldToBody(v, q), q) = v` and `WorldToBody(BodyToWorld(v, q), q) = v`, and both
transforms keep the Euclidean length of `v`. -/
theorem FlightDynamics.frame_round_trip {α : Type} [LinearOrderedField α] [CMath α]
    (d : FlightDynamics α) (q : Quat α) (v : Vec3 α) (hunit : glm.qlength q = 1) :
    d.BodyToWorld (d.WorldToBody v q) q = v ∧
    d.WorldToBody (d.BodyToWorld v q) q = v ∧
    glm.length (d.WorldToBody v q) = glm.length v ∧
    glm.length (d.BodyToWorld v q) = glm.length v := by
  have h := glm.qdot_of_unit q hunit
  have hc := glm.conjugate_unit q h
  have hinv := glm.qinverse_of_unit q hunit
  refine ⟨?_, ?_, ?_, ?_⟩
  · show glm.rotate q (glm.rotate (glm.qinverse q) v) = v
    rw [hinv]
    exact glm.rotate_rotate_conjugate q v h
  · show glm.rotate (glm.qinverse q) (glm.rotate q v) = v
    rw [hinv]
    have h2 := glm.rotate_rotate_conjugate (glm.conjugate q) v hc
    rw [glm.conjugate_conjugate] at h2
    exact h2
  · show glm.length (glm.rotate (glm.qinverse q) v) = _
    rw [hinv]
    exact glm.length_rotate_of_unit _ v hc
  · exact glm.length_rotate_of_unit q v h

theorem FlightDynamics.frame_round_trip_witness :
    glm.qlength (tiltedAircraft : Aircraft ℝ).m_state.orientation = 1 ∧
    (tiltedAircraft : Aircraft ℝ).m_dynamics.BodyToWorld
      ((tiltedAircraft : Aircraft ℝ).m_dynamics.WorldToBody ⟨1, 2, 3⟩
        (tiltedAircraft : Aircraft ℝ).m_state.orientation)
      (tiltedAircraft : Aircraft ℝ).m_state.orientation = ⟨1, 2, 3⟩ :=
  ⟨tiltedAircraft_qlength,
    (FlightDynamics.frame_round_trip (tiltedAircraft : Aircraft ℝ).m_dynamics
      (tiltedAircraft : Aircraft ℝ).m_state.orientation ⟨1, 2, 3⟩ tiltedAircraft_qlength).1⟩

/-! ## The quaternion handed to `normalize` -/

theorem glm.qdot_integrated {α : Type} [LinearOrderedField α] (q : Quat α) (w : Vec3 α)
    (deltaTime : α) :
    glm.qdot
        (glm.qadd q (glm.qscale (glm.qmul (glm.qscale ⟨0, w.x, w.y, w.z⟩ (1 / 2)) q) deltaTime))
        (glm.qadd q (glm.qscale (glm.qmul (glm.qscale ⟨0, w.x, w.y, w.z⟩ (1 / 2)) q) deltaTime))
      = glm.qdot q q * (1 + deltaTime ^ 2 * glm.vdot w w / 4) := by
  simp only [glm.qdot, glm.qadd, glm.qscale, glm.qmul, glm.vdot]
  ring

/-- C30. Renormalisation never divides by zero: the un-normalised integrated quaternion
`q + (0.5 * (0, w) * q) * dt` of `IntegratePhysics` has squared norm
`|q|^2 * (1 + dt^2 * |w|^2 / 4)`, which is at least `|q|^2`; so for a unit, or any non-zero,
orientation the quaternion handed to `normalize` has a non-zero length. `IntegratePhysics`
hands exactly this quaternion to `normalize`, with `w` the integrated angular velocity. -/
theorem Aircraft.integrated_quaternion_norm {α : Type} [LinearOrderedField α] [CMath α]
    (a : Aircraft α) (forces torques : Vec3 α) (q : Quat α) (w : Vec3 α) (deltaTime : α) :
    glm.qdot
        (glm.qadd q (glm.qscale (glm.qmul (glm.qscale ⟨0, w.x, w.y, w.z⟩ (1 / 2)) q) deltaTime))
        (glm.qadd q (glm.qscale (glm.qmul (glm.qscale ⟨0, w.x, w.y, w.z⟩ (1 / 2)) q) deltaTime))
      = glm.qdot q q * (1 + deltaTime ^ 2 * glm.vdot w w / 4) ∧
    glm.qdot q q ≤
      glm.qdot
        (glm.qadd q (glm.qscale (glm.qmul (glm.qscale ⟨0, w.x, w.y, w.z⟩ (1 / 2)) q) deltaTime))
        (glm.qadd q (glm.qscale (glm.qmul (glm.qscale ⟨0, w.x, w.y, w.z⟩ (1 / 2)) q) deltaTime)) ∧
    (q ≠ ⟨0, 0, 0, 0⟩ →
      glm.qlength
        (glm.qadd q (glm.qscale (glm.qmul (glm.qscale ⟨0, w.x, w.y, w.z⟩ (1 / 2)) q) deltaTime))
        ≠ 0) ∧
    (glm.qlength q = 1 →
      glm.qlength
        (glm.qadd q (glm.qscale (glm.qmul (glm.qscale ⟨0, w.x, w.y, w.z⟩ (1 / 2)) q) deltaTime))
        ≠ 0) ∧
    (a.IntegratePhysics deltaTime forces torques).m_state.orientation =
      glm.normalize
        (glm.qadd a.m_state.orientation
          (glm.qscale
            (glm.qmul
              (glm.qscale
                ⟨0, (a.integratedAngularVelocity deltaTime torques).x,
                  (a.integratedAngularVelocity deltaTime torques).y,
                  (a.integratedAngularVelocity deltaTime torques).z⟩
                (1 / 2))
              a.m_state.orientation)
            deltaTime)) := by
  have hN := glm.qdot_integrated q w deltaTime
  have hq0 : 0 ≤ glm.qdot q q := glm.qdot_self_nonneg q
  have hw0 : 0 ≤ glm.vdot w w := by
    show 0 ≤ w.x * w.x + w.y * w.y + w.z * w.z
    exact add_nonneg (add_nonneg (mul_self_nonneg _) (mul_self_nonneg _)) (mul_self_nonneg _)
  have hfac : 1 ≤ 1 + deltaTime ^ 2 * glm.vdot w w / 4 :=
    le_add_of_nonneg_right (div_nonneg (mul_nonneg (sq_nonneg _) hw0) (by norm_num))
  have hle : glm.qdot q q ≤ glm.qdot q q * (1 + deltaTime ^ 2 * glm.vdot w w / 4) :=
    le_mul_of_one_le_right hq0 hfac
  have hpos : 0 < glm.qdot q q →
      glm.qlength (glm.qadd q (glm.qscale
        (glm.qmul (glm.qscale ⟨0, w.x, w.y, w.z⟩ (1 / 2)) q) deltaTime)) ≠ 0 := by
    intro hq
    apply ne_of_gt
    show 0 < CMath.sqrt _
    rw [hN]
    exact CMath.sqrt_pos _ (lt_of_lt_of_le hq hle)
  refine ⟨hN, ?_, fun hne => hpos ?_, fun hunit => hpos ?_, rfl⟩
  · rw [hN]
    exact hle
  · rcases hq0.lt_or_eq with h | h
    · exact h
    · exfalso
      apply hne
      have hx := mul_self_nonneg q.x
      have hy := mul_self_nonneg q.y
      have hz := mul_self_nonneg q.z
      have hw := mul_self_nonneg q.w
      have hsum : q.x * q.x + q.y * q.y + q.z * q.z + q.w * q.w = 0 := h.symm
      ext
      · exact mul_self_eq_zero.mp (le_antisymm (by linarith only [hsum, hx, hy, hz]) hw)
      · exact mul_self_eq_zero.mp (le_antisymm (by linarith only [hsum, hy, hz, hw]) hx)
      · exact mul_self_eq_zero.mp (le_antisymm (by linarith only [hsum, hx, hz, hw]) hy)
      · exact mul_self_eq_zero.mp (le_antisymm (by linarith only [hsum, hx, hy, hw]) hz)
  · have h1 : glm.qdot q q = 1 := glm.qdot_of_unit q hunit
    rw [h1]
    exact one_pos

/-! ## The checked step: where it is defined, and its value -/

theorem glm.qdot_zero {α : Type} [LinearOrderedField α] :
    glm.qdot (⟨0, 0, 0, 0⟩ : Quat α) ⟨0, 0, 0, 0⟩ = 0 := by
  show (0 : α) * 0 + 0 * 0 + 0 * 0 + 0 * 0 = 0
  rw [mul_zero, add_zero, add_zero, add_zero]

/-- Only the zero quaternion has `dot(q, q) = 0`. -/
theorem glm.qdot_ne_zero {α : Type} [LinearOrderedField α] (q : Quat α)
    (h : q ≠ ⟨0, 0, 0, 0⟩) : glm.qdot q q ≠ 0 := by
  intro h0
  apply h
  have hx := mul_self_nonneg q.x
  have hy := mul_self_nonneg q.y
  have hz := mul_self_nonneg q.z
  have hw := mul_self_nonneg q.w
  have hsum : q.x * q.x + q.y * q.y + q.z * q.z + q.w * q.w = 0 := h0
  ext
  · exact mul_self_eq_zero.mp (le_antisymm (by linarith only [hsum, hx, hy, hz]) hw)
  · exact mul_self_eq_zero.mp (le_antisymm (by linarith only [hsum, hy, hz, hw]) hx)
  · exact mul_self_eq_zero.mp (le_antisymm (by linarith only [hsum, hx, hz, hw]) hy)
  · exact mul_self_eq_zero.mp (le_antisymm (by linarith only [hsum, hx, hy, hw]) hz)

theorem glm.qinverseChecked_of_ne {α : Type} [LinearOrderedField α] (q : Quat α)
    (h : glm.qdot q q ≠ 0) : glm.qinverseChecked q = some (glm.qinverse q) :=
  if_neg h

theorem glm.qinverseChecked_of_eq {α : Type} [LinearOrderedField α] (q : Quat α)
    (h : glm.qdot q q = 0) : glm.qinverseChecked q = none :=
  if_pos h

/-- With a non-zero divisor the checked force computation returns the forces and torques of
`CalculateForces`. -/
theorem FlightDynamics.CalculateForcesChecked_of_ne {α : Type} [LinearOrderedField α]
    [CMath α] (d : FlightDynamics α) (state : AircraftState α) (controls : ControlInputs α)
    (h : glm.qdot state.orientation state.orientation ≠ 0) :
    d.CalculateForcesChecked state controls = some (d.CalculateForces state controls) := by
  have hW : d.WorldToBodyChecked state.velocity state.orientation =
      some (d.WorldToBody state.velocity state.orientation) := by
    show Option.map _ (glm.qinverseChecked state.orientation) = _
    rw [glm.qinverseChecked_of_ne _ h]
    rfl
  have hA : d.GetAngleOfAttackChecked state = some (d.GetAngleOfAttack state) := by
    show Option.map _ (d.WorldToBodyChecked state.velocity state.orientation) = _
    rw [hW]
    rfl
  have hS : d.GetSideslipAngleChecked state = some (d.GetSideslipAngle state) := by
    show Option.map _ (d.WorldToBodyChecked state.velocity state.orientation) = _
    rw [hW]
    rfl
  have hF : d.CalculateAerodynamicForcesChecked state controls =
      some (d.CalculateAerodynamicForces state controls) := by
    show Option.bind (d.GetAngleOfAttackChecked state) _ = _
    rw [hA]
    show Option.map _ (d.GetSideslipAngleChecked state) = _
    rw [hS]
    rfl
  have hT : d.CalculateAerodynamicTorquesChecked state controls =
      some (d.CalculateAerodynamicTorques state controls) := by
    show Option.map _ (d.GetAngleOfAttackChecked state) = _
    rw [hA]
    rfl
  show Option.bind (d.CalculateAerodynamicForcesChecked state controls) _ = _
  rw [hF]
  show Option.map _ (d.CalculateAerodynamicTorquesChecked state controls) = _
  rw [hT]
  rfl

/-- With the divisor 0 the checked force computation has no result. -/
theorem FlightDynamics.CalculateForcesChecked_of_eq {α : Type} [LinearOrderedField α]
    [CMath α] (d : FlightDynamics α) (state : AircraftState α) (controls : ControlInputs α)
    (h : glm.qdot state.orientation state.orientation = 0) :
    d.CalculateForcesChecked state controls = none := by
  have hW : d.WorldToBodyChecked state.velocity state.orientation = none := by
    show Option.map _ (glm.qinverseChecked state.orientation) = _
    rw [glm.qinverseChecked_of_eq _ h]
    rfl
  have hA : d.GetAngleOfAttackChecked state = none := by
    show Option.map _ (d.WorldToBodyChecked state.velocity state.orientation) = _
    rw [hW]
    rfl
  show Option.bind (Option.bind (d.GetAngleOfAttackChecked state) _) _ = _
  rw [hA]
  rfl

/-- For an orientation that is not the zero quaternion the checked step is defined and is
the step `Update`. -/
theorem Aircraft.UpdateChecked_of_ne {α : Type} [LinearOrderedField α] [FloorRing α]
    [CMath α] (a : Aircraft α) (deltaTime : α) (controls : ControlInputs α)
    (h : a.m_state.orientation ≠ ⟨0, 0, 0, 0⟩) :
    a.UpdateChecked deltaTime controls = some (a.Update deltaTime controls) := by
  show Option.map _ (a.m_dynamics.CalculateForcesChecked a.m_state controls) = _
  rw [FlightDynamics.CalculateForcesChecked_of_ne _ _ _ (glm.qdot_ne_zero _ h)]
  rfl

/-- For the zero orientation the checked step has no result. -/
theorem Aircraft.UpdateChecked_of_zero {α : Type} [LinearOrderedField α] [FloorRing α]
    [CMath α] (a : Aircraft α) (deltaTime : α) (controls : ControlInputs α)
    (h : a.m_state.orientation = ⟨0, 0, 0, 0⟩) :
    a.UpdateChecked deltaTime controls = none := by
  show Option.map _ (a.m_dynamics.CalculateForcesChecked a.m_state controls) = _
  rw [FlightDynamics.CalculateForcesChecked_of_eq _ _ _ (by rw [h]; exact glm.qdot_zero)]
  rfl

theorem zeroOrientationAircraft_orientation {α : Type} [LinearOrderedField α] [FloorRing α]
    [CMath α] : (zeroOrientationAircraft : Aircraft α).m_state.orientation = ⟨0, 0, 0, 0⟩ :=
  rfl

/-- The step of the aircraft with the zero orientation has no result, so no state after it
satisfies anything. -/
theorem zeroOrientationAircraft_update {α : Type} [LinearOrderedField α] [FloorRing α]
    [CMath α] (deltaTime : α) (controls : ControlInputs α) (P : Aircraft α → Prop) :
    (zeroOrientationAircraft : Aircraft α).UpdateChecked deltaTime controls = none ∧
    ¬ ∃ b : Aircraft α,
      (zeroOrientationAircraft : Aircraft α).UpdateChecked deltaTime controls = some b ∧ P b := by
  have h := Aircraft.UpdateChecked_of_zero (zeroOrientationAircraft : Aircraft α) deltaTime
    controls rfl
  refine ⟨h, ?_⟩
  rintro ⟨b, hb, _⟩
  rw [h] at hb
  exact Option.noConfusion hb

/-! ## Never underground -/

/-- C2, as stated, fails: the freshly constructed aircraft after `SetOrientation` with the
zero quaternion is a state at which `Update` divides 0 by 0 in `glm::inverse`; the step has
no numbers as its result, so there is no state after it with `position.y >= 0`. -/
theorem Aircraft.update_never_underground_counterexample :
    (zeroOrientationAircraft : Aircraft ℝ).m_state.orientation = ⟨0, 0, 0, 0⟩ ∧
    (zeroOrientationAircraft : Aircraft ℝ).UpdateChecked (1 / 60) ControlInputs.initial =
      none ∧
    ¬ ∃ b : Aircraft ℝ,
      (zeroOrientationAircraft : Aircraft ℝ).UpdateChecked (1 / 60) ControlInputs.initial =
        some b ∧ 0 ≤ b.m_state.position.y :=
  ⟨rfl, zeroOrientationAircraft_update (1 / 60) ControlInputs.initial
    (fun b => 0 ≤ b.m_state.position.y)⟩

/-- C2, amended. Never underground: for every state whose orientation is not the zero
quaternion, every `deltaTime` and every controls, `Update` is defined and after it the
height `position.y` and the derived altitude are non-negative; and when the integrated
height is negative, the step ends with `position.y = 0` and
`velocity.y = max(0, integrated velocity.y) >= 0`, while the x and z components of position
and velocity keep their integrated values. -/
theorem Aircraft.update_never_underground {α : Type} [LinearOrderedField α] [FloorRing α]
    [CMath α] (a : Aircraft α) (deltaTime : α) (controls : ControlInputs α)
    (hq : a.m_state.orientation ≠ ⟨0, 0, 0, 0⟩) :
    a.UpdateChecked deltaTime controls = some (a.Update deltaTime controls) ∧
    0 ≤ (a.Update deltaTime controls).m_state.position.y ∧
    0 ≤ (a.Update deltaTime controls).m_state.altitude ∧
    ((a.integratedPosition deltaTime (a.netForce controls)).y < 0 →
      (a.Update deltaTime controls).m_state.position.y = 0 ∧
      0 ≤ (a.Update deltaTime controls).m_state.velocity.y ∧
      (a.Update deltaTime controls).m_state.velocity.y =
        Max.max 0 (a.integratedVelocity deltaTime (a.netForce controls)).y ∧
      (a.Update deltaTime controls).m_state.position.x =
        (a.integratedPosition deltaTime (a.netForce controls)).x ∧
      (a.Update deltaTime controls).m_state.position.z =
        (a.integratedPosition deltaTime (a.netForce controls)).z ∧
      (a.Update deltaTime controls).m_state.velocity.x =
        (a.integratedVelocity deltaTime (a.netForce controls)).x ∧
      (a.Update deltaTime controls).m_state.velocity.z =
        (a.integratedVelocity deltaTime (a.netForce controls)).z) := by
  refine ⟨Aircraft.UpdateChecked_of_ne a deltaTime controls hq, ?_⟩
  obtain ⟨hp, hv, _, halt⟩ := Aircraft.Update_state a deltaTime controls
  rw [halt]
  by_cases h : (a.integratedPosition deltaTime (a.netForce controls)).y < 0
  · rw [if_pos h] at hp hv
    rw [hp, hv]
    refine ⟨le_rfl, le_rfl, fun _ => ⟨rfl, ?_, ?_, rfl, rfl, rfl, rfl⟩⟩
    · show 0 ≤ glm.stdMax 0 _
      rw [glm.stdMax_eq_max]
      exact le_max_left _ _
    · exact glm.stdMax_eq_max _ _
  · rw [if_neg h] at hp
    rw [hp]
    exact ⟨not_lt.mp h, not_lt.mp h, fun h' => absurd h' h⟩

theorem Aircraft.update_never_underground_witness :
    ((freshAircraft : Aircraft ℝ).SetPosition ⟨0, -1, 0⟩).m_state.orientation ≠ ⟨0, 0, 0, 0⟩ ∧
    (((freshAircraft : Aircraft ℝ).SetPosition ⟨0, -1, 0⟩).integratedPosition 0
        (((freshAircraft : Aircraft ℝ).SetPosition ⟨0, -1, 0⟩).netForce
          ControlInputs.initial)).y < 0 ∧
    ((freshAircraft : Aircraft ℝ).SetPosition ⟨0, -1, 0⟩).UpdateChecked 0
        ControlInputs.initial =
      some (((freshAircraft : Aircraft ℝ).SetPosition ⟨0, -1, 0⟩).Update 0
        ControlInputs.initial) ∧
    (((freshAircraft : Aircraft ℝ).SetPosition ⟨0, -1, 0⟩).Update 0
        ControlInputs.initial).m_state.position.y = 0 :=
  have hq : ((freshAircraft : Aircraft ℝ).SetPosition ⟨0, -1, 0⟩).m_state.orientation ≠
      ⟨0, 0, 0, 0⟩ := by
    intro hc
    have hw : (1 : ℝ) = 0 := congrArg Quat.w hc
    exact one_ne_zero hw
  have h : (((freshAircraft : Aircraft ℝ).SetPosition ⟨0, -1, 0⟩).integratedPosition 0
        (((freshAircraft : Aircraft ℝ).SetPosition ⟨0, -1, 0⟩).netForce
          ControlInputs.initial)).y < 0 := by
    rw [Aircraft.integratedPosition_zero_dt]
    show (-1 : ℝ) < 0
    norm_num
  ⟨hq, h, (Aircraft.update_never_underground _ 0 ControlInputs.initial hq).1,
    ((Aircraft.update_never_underground _ 0 ControlInputs.initial hq).2.2.2 h).1⟩

/-! ## The heading after a step -/

/-- C5, as stated, fails for `Update` on the zero orientation: there the step divides 0 by 0
in `glm::inverse` and has no numbers as its result, so there is no state after it with a
heading in `[0, 360)`. -/
theorem Aircraft.heading_normalised_counterexample :
    (zeroOrientationAircraft : Aircraft ℝ).m_state.orientation = ⟨0, 0, 0, 0⟩ ∧
    (zeroOrientationAircraft : Aircraft ℝ).UpdateChecked (1 / 60) ControlInputs.initial =
      none ∧
    ¬ ∃ b : Aircraft ℝ,
      (zeroOrientationAircraft : Aircraft ℝ).UpdateChecked (1 / 60) ControlInputs.initial =
        some b ∧ (0 ≤ b.m_state.heading ∧ b.m_state.heading < 360) :=
  ⟨rfl, zeroOrientationAircraft_update (1 / 60) ControlInputs.initial
    (fun b => 0 ≤ b.m_state.heading ∧ b.m_state.heading < 360)⟩

/-- C5, amended. Heading normalisation: the two wrap loops of `UpdateDerivedValues` are total
functions (they terminate on every heading) and leave the unique value of `[0, 360)`
that differs from the input by an integer multiple of 360; hence the heading is in
`[0, 360)` after `Reset`, `SetPosition` and `SetOrientation` on any orientation, and after
`Update` on any state whose orientation is not the zero quaternion (where `Update` is
defined). -/
theorem Aircraft.heading_normalised {α : Type} [LinearOrderedField α] [FloorRing α] [CMath α]
    (h : α) (a : Aircraft α) (deltaTime : α) (controls : ControlInputs α) (p : Vec3 α)
    (q : Quat α) :
    (0 ≤ headingWrapDown (headingWrapUp h) ∧ headingWrapDown (headingWrapUp h) < 360 ∧
      (∃ k : ℤ, headingWrapDown (headingWrapUp h) = h + 360 * k) ∧
      ∀ y : α, 0 ≤ y → y < 360 → (∃ k : ℤ, y = h + 360 * k) →
        y = headingWrapDown (headingWrapUp h)) ∧
    (a.m_state.orientation ≠ ⟨0, 0, 0, 0⟩ →
      a.UpdateChecked deltaTime controls = some (a.Update deltaTime controls) ∧
      0 ≤ (a.Update deltaTime controls).m_state.heading ∧
      (a.Update deltaTime controls).m_state.heading < 360) ∧
    (0 ≤ a.Reset.m_state.heading ∧ a.Reset.m_state.heading < 360) ∧
    (0 ≤ (a.SetPosition p).m_state.heading ∧ (a.SetPosition p).m_state.heading < 360) ∧
    (0 ≤ (a.SetOrientation q).m_state.heading ∧ (a.SetOrientation q).m_state.heading < 360) := by
  obtain ⟨w1, w2, k, w3⟩ := headingWrap_spec h
  refine ⟨⟨w1, w2, ⟨k, w3⟩, ?_⟩,
    fun hq => ⟨Aircraft.UpdateChecked_of_ne a deltaTime controls hq,
      Aircraft.derivedHeading_range _⟩,
    Aircraft.derivedHeading_range _, Aircraft.derivedHeading_range _,
    Aircraft.derivedHeading_range _⟩
  rintro y hy0 hy ⟨j, hj⟩
  refine turns_unique _ y (j - k) w1 w2 hy0 hy ?_
  rw [hj, w3, Int.cast_sub]
  ring

theorem Aircraft.heading_normalised_witness :
    (tiltedAircraft : Aircraft ℝ).m_state.orientation ≠ ⟨0, 0, 0, 0⟩ ∧
    (tiltedAircraft : Aircraft ℝ).UpdateChecked (1 / 60) fullAileron =
      some ((tiltedAircraft : Aircraft ℝ).Update (1 / 60) fullAileron) ∧
    0 ≤ ((tiltedAircraft : Aircraft ℝ).Update (1 / 60) fullAileron).m_state.heading ∧
    ((tiltedAircraft : Aircraft ℝ).Update (1 / 60) fullAileron).m_state.heading < 360 :=
  have hq : (tiltedAircraft : Aircraft ℝ).m_state.orientation ≠ ⟨0, 0, 0, 0⟩ := by
    intro hc
    have hw : (3 / 5 : ℝ) = 0 := congrArg Quat.w hc
    norm_num at hw
  ⟨hq, (Aircraft.heading_normalised 0 tiltedAircraft (1 / 60) fullAileron ⟨0, 0, 0⟩
    ⟨1, 0, 0, 0⟩).2.1 hq⟩

/-! ## Free fall from rest: the first step, and the ground check -/

/-- A step at which the ground check fires ends with height 0 and a vertical velocity that
is not negative. -/
theorem Aircraft.Update_of_clamp {α : Type} [LinearOrderedField α] [FloorRing α] [CMath α]
    (a : Aircraft α) (deltaTime : α) (controls : ControlInputs α)
    (h : a.ClampEngages deltaTime controls) :
    (a.Update deltaTime controls).m_state.position.y = 0 ∧
    0 ≤ (a.Update deltaTime controls).m_state.velocity.y := by
  have h' : (a.integratedPosition deltaTime (a.netForce controls)).y < 0 := h
  obtain ⟨hP, hV, _, _⟩ := Aircraft.Update_state a deltaTime controls
  rw [hP, hV, if_pos h', if_pos h']
  refine ⟨rfl, ?_⟩
  show 0 ≤ glm.stdMax 0 _
  rw [glm.stdMax_eq_max]
  exact le_max_left _ _

/-- C8, amended. Free fall from rest, the first step: from a state with velocity (0,0,0), a
unit orientation and `position.y = h > 0` (an aircraft with the constructor masses), with
all six controls zero and a time step `dt > 0`, the first `Update` is free fall: when
`h - 9.81 dt^2 >= 0` the velocity becomes `(0, -9.81 dt, 0)`, `position.y` becomes
`h - 9.81 dt^2`, which is less than `h`, and `position.x` and `position.z` are unchanged;
when `h - 9.81 dt^2 < 0` the ground check fires and the step ends with `position.y = 0`,
`velocity.y = 0` and `position.x`, `position.z` unchanged.  After every step of the run
`position.y >= 0`, and every step at which the ground check fires ends with
`position.y = 0` and `velocity.y >= 0`.  (From the second step on the aerodynamic force is
not zero; what it does to the fall is not part of this statement.) -/
theorem Aircraft.free_fall {α : Type} [LinearOrderedField α] [FloorRing α] [CMath α]
    (a : Aircraft α) (deltaTime : α)
    (hpar : a.HasConstructorMass) (hv : a.m_state.velocity = ⟨0, 0, 0⟩)
    (hq : glm.qlength a.m_state.orientation = 1)
    (hh : 0 < a.m_state.position.y) (hdt : 0 < deltaTime) :
    (0 ≤ a.m_state.position.y - 981 / 100 * deltaTime * deltaTime →
      (a.Update deltaTime ControlInputs.initial).m_state.velocity =
        ⟨0, -(981 / 100 * deltaTime), 0⟩ ∧
      (a.Update deltaTime ControlInputs.initial).m_state.position =
        ⟨a.m_state.position.x, a.m_state.position.y - 981 / 100 * deltaTime * deltaTime,
          a.m_state.position.z⟩ ∧
      (a.Update deltaTime ControlInputs.initial).m_state.position.y < a.m_state.position.y) ∧
    (a.m_state.position.y - 981 / 100 * deltaTime * deltaTime < 0 →
      (a.Update deltaTime ControlInputs.initial).m_state.position =
        ⟨a.m_state.position.x, 0, a.m_state.position.z⟩ ∧
      (a.Update deltaTime ControlInputs.initial).m_state.velocity.y = 0) ∧
    (∀ n : ℕ, 0 ≤ (a.UpdateN deltaTime ControlInputs.initial n).m_state.position.y) ∧
    (∀ n : ℕ,
      (a.UpdateN deltaTime ControlInputs.initial n).ClampEngages deltaTime
          ControlInputs.initial →
        (a.UpdateN deltaTime ControlInputs.initial (n + 1)).m_state.position.y = 0 ∧
        0 ≤ (a.UpdateN deltaTime ControlInputs.initial (n + 1)).m_state.velocity.y) := by
  have hg : 0 < 981 / 100 * deltaTime * deltaTime :=
    mul_pos (mul_pos (by norm_num) hdt) hdt
  obtain ⟨hvel, hpos⟩ :=
    Aircraft.integrated_of_rest a deltaTime ControlInputs.initial hpar hv rfl
  refine ⟨fun hy => ?_, fun hy => ?_,
    Aircraft.UpdateN_height_nonneg a deltaTime ControlInputs.initial hh.le,
    fun n hc => Aircraft.Update_of_clamp _ deltaTime ControlInputs.initial hc⟩
  · obtain ⟨h1, h2⟩ :=
      (Aircraft.Update_of_rest a deltaTime ControlInputs.initial hv).2 hpar rfl hy
    refine ⟨h1, h2, ?_⟩
    rw [h2]
    exact sub_lt_self _ hg
  · have hlt : (a.integratedPosition deltaTime (a.netForce ControlInputs.initial)).y < 0 := by
      rw [hpos]
      exact hy
    obtain ⟨hP, hV, _, _⟩ := Aircraft.Update_state a deltaTime ControlInputs.initial
    rw [hP, hV, if_pos hlt, if_pos hlt, hpos, hvel]
    refine ⟨rfl, ?_⟩
    show glm.stdMax 0 (-(981 / 100 * deltaTime)) = 0
    rw [glm.stdMax_eq_max]
    exact max_eq_left (neg_nonpos.mpr (mul_pos (by norm_num) hdt).le)

theorem Aircraft.free_fall_witness :
    (freshAircraft : Aircraft ℝ).HasConstructorMass ∧
    (freshAircraft : Aircraft ℝ).m_state.velocity = ⟨0, 0, 0⟩ ∧
    glm.qlength (freshAircraft : Aircraft ℝ).m_state.orientation = 1 ∧
    0 < (freshAircraft : Aircraft ℝ).m_state.position.y ∧ (0 : ℝ) < 1 ∧
    0 ≤ (freshAircraft : Aircraft ℝ).m_state.position.y - 981 / 100 * 1 * 1 ∧
    ((freshAircraft : Aircraft ℝ).Update 1 ControlInputs.initial).m_state.velocity =
      ⟨0, -(981 / 100 * 1), 0⟩ ∧
    ((freshAircraft : Aircraft ℝ).Update 1 ControlInputs.initial).m_state.position =
      ⟨(freshAircraft : Aircraft ℝ).m_state.position.x,
        (freshAircraft : Aircraft ℝ).m_state.position.y - 981 / 100 * 1 * 1,
        (freshAircraft : Aircraft ℝ).m_state.position.z⟩ ∧
    ((freshAircraft : Aircraft ℝ).Update 1 ControlInputs.initial).m_state.position.y <
      (freshAircraft : Aircraft ℝ).m_state.position.y :=
  have hh : 0 < (freshAircraft : Aircraft ℝ).m_state.position.y := by
    show (0 : ℝ) < 1000
    norm_num
  have hy : 0 ≤ (freshAircraft : Aircraft ℝ).m_state.position.y - 981 / 100 * 1 * 1 := by
    show (0 : ℝ) ≤ 1000 - 981 / 100 * 1 * 1
    norm_num
  ⟨freshAircraft_mass, rfl, glm.qlength_identity, hh, one_pos, hy,
    (Aircraft.free_fall freshAircraft 1 freshAircraft_mass rfl glm.qlength_identity hh
      one_pos).1 hy⟩

/-! ## The range of the heading -/

/-- C27. Heading covers only half the compass: the Y Euler angle of `glm::eulerAngles` is
`asin(clamp(-2 * (x z - w y), -1, 1))`, which in degrees lies in `[-90, 90]`; so for every
orientation the heading stored by `UpdateDerivedValues` (also when `SetOrientation` calls
it) lies in `[0, 90]` or in `[270, 360)` and never strictly between 90 and 270. -/
theorem Aircraft.heading_half_compass {α : Type} [LinearOrderedField α] [FloorRing α]
    [CMath α] (a : Aircraft α) (q : Quat α) :
    (glm.eulerAngles q).y = CMath.asin (glm.clamp (-2 * (q.x * q.z - q.w * q.y)) (-1) 1) ∧
    (-90 ≤ glm.degrees (glm.eulerAngles q).y ∧ glm.degrees (glm.eulerAngles q).y ≤ 90) ∧
    (((0 ≤ a.UpdateDerivedValues.m_state.heading ∧ a.UpdateDerivedValues.m_state.heading ≤ 90) ∨
        (270 ≤ a.UpdateDerivedValues.m_state.heading ∧
          a.UpdateDerivedValues.m_state.heading < 360)) ∧
      ¬ (90 < a.UpdateDerivedValues.m_state.heading ∧
          a.UpdateDerivedValues.m_state.heading < 270)) ∧
    (((0 ≤ (a.SetOrientation q).m_state.heading ∧ (a.SetOrientation q).m_state.heading ≤ 90) ∨
        (270 ≤ (a.SetOrientation q).m_state.heading ∧
          (a.SetOrientation q).m_state.heading < 360)) ∧
      ¬ (90 < (a.SetOrientation q).m_state.heading ∧
          (a.SetOrientation q).m_state.heading < 270)) := by
  have key : ∀ p : Quat α,
      ((0 ≤ Aircraft.derivedHeading p ∧ Aircraft.derivedHeading p ≤ 90) ∨
        (270 ≤ Aircraft.derivedHeading p ∧ Aircraft.derivedHeading p < 360)) ∧
      ¬ (90 < Aircraft.derivedHeading p ∧ Aircraft.derivedHeading p < 270) := by
    intro p
    obtain ⟨r1, r2⟩ := glm.degrees_yaw_range p
    have hy : (glm.eulerAngles p).y = glm.yaw p := rfl
    rw [Aircraft.derivedHeading_eq, hy]
    by_cases h : 0 ≤ glm.degrees (glm.yaw p)
    · rw [if_pos h]
      exact ⟨Or.inl ⟨h, r2⟩, fun hc => absurd hc.1 (not_lt.mpr r2)⟩
    · rw [if_neg h]
      have h1 : (270 : α) ≤ glm.degrees (glm.yaw p) + 360 := by linarith only [r1]
      have h2 : glm.degrees (glm.yaw p) + 360 < 360 := by linarith only [not_le.mp h]
      exact ⟨Or.inr ⟨h1, h2⟩, fun hc => absurd hc.2 (not_lt.mpr h1)⟩
  exact ⟨rfl, glm.degrees_yaw_range q, key _, key _⟩

end FlightSim
